import Mathlib

/-!
# Lemoine.Cnc.HeidenhainLsv2 and Lemoine.Cnc.Selca : session, decode and cache layers

Shallow embedding of `HeidenhainLsv2.cpp` and of `Selca.cpp`.  An object is a
record of its member variables; every method is a function from the record to a
result and the updated record.  A managed exception is the `Except.error`
result (`Completion.raised` for `Selca`), the record returned with it is the
state the object is left in when the exception leaves the method.

The vendor libraries `LSV2D32C` and `SeLGeC` are not part of the repository.
Each is a value (`Lsv2Library`, `SeLGeCLibrary`): the constants of its headers,
and an oracle that gives the outcome of every call from the history of calls
made so far.  Every method appends the calls it makes to the field `calls` of
the record.  The clock is a field of the record, in ticks of 100 ns; a loop
without a bound in the source takes a fuel, and a method that never returns is
the result `Completion.blocked`.

The readers of the table lines, of the position of the axes, of the downloaded
table and of the parameters given in one string are embedded with the managed
and C library functions they call (`String::Split`, `Double::Parse`,
`Math::Round`, `atof`, `strncmp`), on decimal notation; a `double` is a
rational number there, apart from the readers of the table lines.  In these a
`double` is a value of `Double`, a finite number, an infinity or NaN: a
product is rounded to binary64, the conversion to `Int32` gives a 32-bit
integer, and the readers `Double::Parse` and `Double::TryParse` of the host
are a value `HostLibrary`, as the vendor libraries are.
-/

namespace Lemoine.Cnc

/-! ## Vendor boundary -/

/-- Win32 `HANDLE`, as a number. -/
abbrev HANDLE := Nat

/-- Win32 `INVALID_HANDLE_VALUE`, `(HANDLE)-1` in the 32-bit build the DLL name `LSV2D32C` asks for. -/
def INVALID_HANDLE_VALUE : HANDLE := 4294967295

/-- The null pointer. -/
def NULL : Nat := 0

/-- Declared `enum class Model` in `HeidenhainLsv2.h`, in this order. -/
inductive Model
  | HEID_UNKNOWN
  | HEID_426
  | HEID_430
  | HEID_530
  | HEID_640
  deriving DecidableEq, Repr

/-- Underlying value of the enumerator. -/
def Model.toNat : Model → Nat
  | .HEID_UNKNOWN => 0
  | .HEID_426 => 1
  | .HEID_430 => 2
  | .HEID_530 => 3
  | .HEID_640 => 4

instance : LT Model := ⟨fun a b => a.toNat < b.toNat⟩

instance (a b : Model) : Decidable (a < b) := inferInstanceAs (Decidable (a.toNat < b.toNat))

/-- The fields of the vendor structure `LSV2PARA` that the module reads. -/
structure LSV2PARA where
  markerstart : Int := 0
  inputstart : Int := 0
  outputstart : Int := 0
  timerstart : Int := 0
  counterstart : Int := 0
  wordstart : Int := 0
  lsv2version_flags_ex : Nat := 0
  deriving DecidableEq, Repr

/-- Discriminant `DataType` of the vendor structure `LSV2DATA`; `GVT_OTHER` stands for every
value that the module does not name. -/
inductive GVT
  | GVT_STRING
  | GVT_I2
  | GVT_UI2
  | GVT_I4
  | GVT_UI4
  | GVT_R4
  | GVT_R8
  | GVT_BOOL
  | GVT_OTHER (code : Nat)
  deriving DecidableEq, Repr

/-- Vendor structure `LSV2DATA`: the discriminant and the members of the union `d` the module
reads, each as the value that reading this member gives.  A finite `double` is a rational. -/
structure LSV2DATA where
  DataType : GVT := GVT.GVT_OTHER 0
  DataString : String := ""
  DataWord : Int := 0
  DataLong : Int := 0
  DataDouble : ℚ := 0
  deriving DecidableEq, Repr

/-- The members of the union `ri` of the vendor structure `LSV2RUNINFO` that the module reads for
the override values, the execution point, the program status, the execution mode and the
position of the axes.  `ExecutionPoint_strings` is the run of null-terminated strings that
starts at `ExecutionPoint.NameSelectedProgram`; `AxesPosition_strings` is the run of
null-terminated strings that starts at `&AxesPosition.AxisId + Count`. -/
structure LSV2RUNINFO where
  OverrideValue : List Int := []
  ExecutionPoint_strings : List String := []
  ExecutionPoint_BlockNr : Int := 0
  ProgramStatus : Nat := 0
  ExecutionMode : Nat := 0
  AxesPosition_IsInch : Bool := false
  AxesPosition_Count : Nat := 0
  AxesPosition_strings : List String := []
  deriving DecidableEq, Repr

/-- Kinds of run information asked with `LSV2ReceiveRunInfo`. -/
inductive LSV2_RUNINFO_TYPE
  | LSV2_RUNINFO_AXES_POSITION
  | LSV2_RUNINFO_OVERRIDES_INFO
  | LSV2_RUNINFO_EXECUTION_POINT
  | LSV2_RUNINFO_PROGRAM_STATUS
  | LSV2_RUNINFO_EXECUTION_MODE
  | LSV2_RUNINFO_FIRST_ERROR
  | LSV2_RUNINFO_NEXT_ERROR
  deriving DecidableEq, Repr

/-- A call that leaves the module: the primitives of `Lsv2Api.h` with the arguments the module
passes, and the three host calls of `LoadLsv2Library`. -/
inductive VendorCall
  | FileCopy (src dst : String)
  | LoadLibraryW (dllName : String)
  | GetProcAddress (method : String)
  | LSV2Open (address : String)
  | LSV2SetBlockHook (hPort : HANDLE)
  | LSV2Login (hPort : HANDLE) (capability : String)
  | LSV2Logout (hPort : HANDLE) (capability : String)
  | LSV2Close (hPort : HANDLE)
  | LSV2ReceivePara (hPort : HANDLE)
  | LSV2ReceiveVersions (hPort : HANDLE)
  | LSV2ReceiveMem (hPort : HANDLE) (address : Nat) (length : Nat)
  | LSV2GetErrStringEx (hPort : HANDLE) (errorCode : Nat)
  | LSV2GetTCPErrorDetails
  | LSV2ReceiveRunInfo (hPort : HANDLE) (kind : LSV2_RUNINFO_TYPE)
  | LSV2ReceiveDataProperty (hPort : HANDLE) (entryName : String)
  | LSV2ReceiveMachineConstant (hPort : HANDLE) (entryName : String)
  | LSV2ReceiveTableLine (hPort : HANDLE) (tableName condition : String)
  | LSV2ReceiveFileInfo (hPort : HANDLE) (distantFile : String)
  | LSV2ReceiveFile (hPort : HANDLE) (distantFile localFile : String) (binary : Bool)
  | LSV2ReceiveDirInfo (hPort : HANDLE)
  | LSV2ChangeDir (hPort : HANDLE) (pathName : String)
  | LSV2ReceiveDir (hPort : HANDLE)
  | LSV2GetDirEntry (hPort : HANDLE) (first : Bool)
  | LSV2DeleteFile (hPort : HANDLE) (fileName : String)
  deriving DecidableEq, Repr

/-- The calls of `LogLsv2Error`, which only fetch the text of an error for the log. -/
def VendorCall.isErrorText : VendorCall → Bool
  | .LSV2GetErrStringEx _ _ => true
  | .LSV2GetTCPErrorDetails => true
  | _ => false

/-- The members of `struct _finddata32_t` that `GetFileList` reads. -/
structure _finddata32_t where
  name : String := ""
  time_write : Int := 0
  deriving DecidableEq, Repr

/-- Outcome of one call: the returned flag, the value `GetLastError` gives afterwards, and the
out-parameters.  A call reads the fields that are its own out-parameters.  `lines` is the local
file that `LSV2ReceiveFile` writes, as the lines `StreamReader::ReadLine` gives for it until
`EndOfStream`. -/
structure Response where
  ok : Bool := true
  lastError : Nat := 0
  handle : Nat := 0
  para : LSV2PARA := {}
  ncModel : String := ""
  ncVersion : String := ""
  bytes : List Nat := []
  data : LSV2DATA := {}
  runInfo : LSV2RUNINFO := {}
  text : String := ""
  dirPath : String := ""
  entries : List _finddata32_t := []
  lines : List String := []
  deriving DecidableEq, Repr

/-- The vendor library: error codes of `lsv2_err.h`, the flag of `lsv2_def.h`, and the outcome
of a call given the calls made so far, this call last. -/
structure Lsv2Library where
  V_EX_INTEL : Nat
  LSV2_TCP_ERROR_LSV2_TCP_CONNECT : Int
  LSV2_TCP_ERROR_LSV2_TCP_CLOSED : Int
  LSV2_SER_ERROR_LSV2_SER_NOQUITT : Int
  LSV2_SER_ERROR_WSAECONNRESET : Int
  respond : List VendorCall → Response

/-! ## The object -/

/-- Member variables of `HeidenhainLsv2` that the session layer reads or writes, with the
environment of the object: `calls` (the calls made so far), `lastError` (what `GetLastError`
returns), `now` (what `DateTime::Now` returns during the call, in ticks of 100 ns) and
`removeRemoteFilesMaxFileNumber` (what `ConfigSet::LoadAndGet` returns for the key
`HeidenhainDNC.RemoveRemoteFiles.MaxFileNumber`, 100 by default).  A `Dictionary` or
`Hashtable` is the list of its entries; a `DateTime` is a number of ticks. -/
structure HeidenhainLsv2 where
  IPAddress : Option String := none
  CncAcquisitionId : Nat := 0
  m_multiplier : Int := 1
  m_keepPlcConnection : Bool := false
  m_keepDncConnection : Bool := false
  m_connected : Bool := false
  m_lsv2Library : Nat := NULL
  m_hPort : HANDLE := INVALID_HANDLE_VALUE
  m_lsv2Para : LSV2PARA := {}
  m_isLoggedDnc : Bool := false
  m_isLoggedFile : Bool := false
  m_isLoggedPlc : Bool := false
  m_isLoggedData : Bool := false
  m_model : Model := Model.HEID_UNKNOWN
  modelString : String := ""
  version : String := ""
  m_overrideValues : Bool := false
  m_programValues : Bool := false
  m_programStatusOk : Bool := false
  m_executionModeOk : Bool := false
  feedrateOverride : Int := 0
  spindleSpeedOverride : Int := 0
  m_programName : String := ""
  m_blockNumber : Int := 0
  m_programStatus : Nat := 0
  m_executionMode : Nat := 0
  m_parameterCache : List (String × String) := []
  m_downloadDateTime : Option Int := none
  m_downloadTableValues : List (String × ℚ) := []
  m_lastGetFromFileNameList : List (String × Int) := []
  m_lastValueFromFileNameList : List (String × String) := []
  m_xAxisName : String := "X"
  m_yAxisName : String := "Y"
  m_zAxisName : String := "Z"
  m_uAxisName : String := "U"
  m_vAxisName : String := "V"
  m_wAxisName : String := "W"
  m_aAxisName : String := "A"
  m_bAxisName : String := "B"
  m_cAxisName : String := "C"
  calls : List VendorCall := []
  lastError : Nat := 0
  now : Int := 0
  removeRemoteFilesMaxFileNumber : Int := 100
  deriving DecidableEq, Repr

deriving instance DecidableEq for Except

/-- Result of a method: the returned value or the exception, and the object afterwards. -/
abbrev Outcome (α : Type) := Except String α × HeidenhainLsv2

/-- Outcome the library gives to call `c` made in state `s`. -/
def Lsv2Library.reply (lib : Lsv2Library) (s : HeidenhainLsv2) (c : VendorCall) : Response :=
  lib.respond (s.calls ++ [c])

/-- State after call `c` was made and answered with `r`. -/
def HeidenhainLsv2.issued (s : HeidenhainLsv2) (c : VendorCall) (r : Response) : HeidenhainLsv2 :=
  { s with calls := s.calls ++ [c], lastError := r.lastError }

/-- Managed `String::Contains`: `p` occurs in `s`. -/
def String_Contains (s p : String) : Bool :=
  s.data.tails.any (fun t => p.data.isPrefixOf t)

/-- Sign of `String::Compare (a, b)`, on the code points. -/
def String_Compare (a b : String) : Int :=
  if a.data < b.data then -1 else if a = b then 0 else 1

/-! ## Connection state machine -/

/-- Constructor `HeidenhainLsv2::HeidenhainLsv2()`: every flag false, the model unknown and
`*m_hPort = INVALID_HANDLE_VALUE`. -/
def HeidenhainLsv2.new : HeidenhainLsv2 := {}

/-- `LogLsv2Error (method)`: reads `GetLastError ()`, asks the library for the text of the error
and for the TCP details, logs them and returns the error code. -/
def LogLsv2Error (lib : Lsv2Library) (s : HeidenhainLsv2) : Nat × HeidenhainLsv2 :=
  let errorCode := s.lastError
  let c1 := VendorCall.LSV2GetErrStringEx s.m_hPort errorCode
  let s1 := s.issued c1 (lib.reply s c1)
  let c2 := VendorCall.LSV2GetTCPErrorDetails
  let s2 := s1.issued c2 (lib.reply s1 c2)
  (errorCode, s2)

/-- The statement `if (false == LSV2Logout (*m_hPort, capability)) { log; LogLsv2Error (..); }`
that `Disconnect`, `LogoutPlc` and `LogoutDnc` repeat for each capability. -/
def logoutStep (lib : Lsv2Library) (s : HeidenhainLsv2) (capability : String) : HeidenhainLsv2 :=
  let c := VendorCall.LSV2Logout s.m_hPort capability
  let r := lib.reply s c
  let s1 := s.issued c r
  if r.ok = false then (LogLsv2Error lib s1).2 else s1

/-- `HeidenhainLsv2::LogoutPlc`. -/
def LogoutPlc (lib : Lsv2Library) (s : HeidenhainLsv2) : HeidenhainLsv2 :=
  if s.m_isLoggedPlc then
    { logoutStep lib s "PLCDEBUG" with m_isLoggedPlc := false }
  else s

/-- `HeidenhainLsv2::LogoutDnc`. -/
def LogoutDnc (lib : Lsv2Library) (s : HeidenhainLsv2) : HeidenhainLsv2 :=
  if s.m_isLoggedDnc then
    { logoutStep lib s "DNC" with m_isLoggedDnc := false }
  else s

/-- Step 2 of `Disconnect`: logout FILE. -/
def logoutFile (lib : Lsv2Library) (s : HeidenhainLsv2) : HeidenhainLsv2 :=
  if s.m_isLoggedFile then
    { logoutStep lib s "FILE" with m_isLoggedFile := false }
  else s

/-- Step 4 of `Disconnect`: logout DATA. -/
def logoutData (lib : Lsv2Library) (s : HeidenhainLsv2) : HeidenhainLsv2 :=
  if s.m_isLoggedData then
    { logoutStep lib s "DATA" with m_isLoggedData := false }
  else s

/-- Step 7 of `Disconnect`: `LSV2Close`, a failure being logged. -/
def closeStep (lib : Lsv2Library) (s : HeidenhainLsv2) : HeidenhainLsv2 :=
  let c := VendorCall.LSV2Close s.m_hPort
  let r := lib.reply s c
  let s1 := s.issued c r
  if r.ok = false then (LogLsv2Error lib s1).2 else s1

/-- `HeidenhainLsv2::Disconnect`. -/
def Disconnect (lib : Lsv2Library) (s : HeidenhainLsv2) : HeidenhainLsv2 :=
  if s.m_hPort = INVALID_HANDLE_VALUE then
    { s with m_connected := false }
  else
    let s1 := LogoutDnc lib s
    let s2 := logoutFile lib s1
    let s3 := LogoutPlc lib s2
    let s4 := logoutData lib s3
    let s5 := logoutStep lib s4 "INSPECT"
    let s6 := logoutStep lib s5 ""
    let s7 := closeStep lib s6
    { s7 with m_hPort := INVALID_HANDLE_VALUE, m_connected := false }

/-- Names bound by `#include "Lsv2Api.h"` in `LoadLsv2Library`, in the order of the file. -/
def lsv2ApiMethods : List String :=
  ["LSV2Open", "LSV2Close", "LSV2Login", "LSV2Logout", "LSV2SetBlockHook", "LSV2GetErrStringEx",
   "LSV2ReceivePara", "LSV2ReceiveMem", "LSV2GetErrString", "LSV2ReceiveRunInfo",
   "LSV2ReceiveVersions", "LSV2GetTCPErrorDetails", "LSV2ReceiveTableLine",
   "LSV2ReceiveTableLineEx", "LSV2ReceiveFile", "LSV2ReceiveFileInfo", "LSV2ReceiveDataProperty",
   "LSV2ReceiveMachineConstant", "LSV2ChangeDir", "LSV2ReceiveDir", "LSV2ReceiveDirInfo",
   "LSV2GetDirEntry", "LSV2DeleteFile", "LSV2RenameFile"]

/-- Expansion of the `API` macro over the methods: the first `GetProcAddress` that returns
`NULL` raises. -/
def bindLsv2Api (lib : Lsv2Library) : List String → HeidenhainLsv2 → Outcome Unit
  | [], s => (.ok (), s)
  | m :: ms, s =>
    let c := VendorCall.GetProcAddress m
    let r := lib.reply s c
    let s1 := s.issued c r
    if r.handle = NULL then (.error "GetProcAddress failed", s1)
    else bindLsv2Api lib ms s1

/-- `HeidenhainLsv2::LoadLsv2Library`.  The copy of the DLL raises what `File::Copy` raises
(its message is the `text` of the outcome). -/
def LoadLsv2Library (lib : Lsv2Library) (s : HeidenhainLsv2) : Outcome Unit :=
  if s.CncAcquisitionId = 0 then (.error "CncAcquisitionId not set", s)
  else
    let srcDllName := "LSV2D32C.dll"
    let dllName := "LSV2D32C-" ++ toString s.CncAcquisitionId ++ ".dll"
    let c1 := VendorCall.FileCopy srcDllName dllName
    let r1 := lib.reply s c1
    let s1 := s.issued c1 r1
    if r1.ok = false then (.error r1.text, s1)
    else
      let c2 := VendorCall.LoadLibraryW dllName
      let r2 := lib.reply s1 c2
      let s2 := { s1.issued c2 r2 with m_lsv2Library := r2.handle }
      if r2.handle = NULL then (.error ("Could not load " ++ dllName), s2)
      else bindLsv2Api lib lsv2ApiMethods s2

/-- Step 1 of `CheckConnection`: `if (NULL == m_lsv2Library) { LoadLsv2Library (); }`. -/
def ensureLsv2Library (lib : Lsv2Library) (s : HeidenhainLsv2) : Outcome Unit :=
  if s.m_lsv2Library = NULL then LoadLsv2Library lib s else (.ok (), s)

/-- The chain of `Contains` tests of `CheckConnection` that classifies the control; without a
match `m_model` keeps its value. -/
def classifyModel (modelString version : String) (m_model : Model) : Model :=
  if String_Contains modelString "426" then Model.HEID_426
  else if String_Contains modelString "430" then Model.HEID_430
  else if String_Contains modelString "530" then Model.HEID_530
  else if String_Contains modelString "6000i" then Model.HEID_530
  else if String_Contains version "530" then Model.HEID_530
  else if String_Contains modelString "640" then Model.HEID_640
  else m_model

/-- Steps 2 to 6 of `CheckConnection`, once the library is loaded: `LSV2Open`, the block hook,
the INSPECT login, `LSV2ReceivePara`, `LSV2ReceiveVersions`.  `LSV2Open` writes `*m_hPort`. -/
def openSession (lib : Lsv2Library) (s : HeidenhainLsv2) (ip : String) : Outcome Bool :=
  let cOpen := VendorCall.LSV2Open ip
  let rOpen := lib.reply s cOpen
  let s1 := { s.issued cOpen rOpen with m_hPort := rOpen.handle }
  if rOpen.ok = false then (.ok false, s1)
  else
    let cHook := VendorCall.LSV2SetBlockHook s1.m_hPort
    let s2 := s1.issued cHook (lib.reply s1 cHook)
    let cLogin := VendorCall.LSV2Login s2.m_hPort "INSPECT"
    let rLogin := lib.reply s2 cLogin
    let s3 := s2.issued cLogin rLogin
    if rLogin.ok = false then (.ok false, Disconnect lib (LogLsv2Error lib s3).2)
    else
      let cPara := VendorCall.LSV2ReceivePara s3.m_hPort
      let rPara := lib.reply s3 cPara
      let s4 := { s3.issued cPara rPara with m_lsv2Para := rPara.para }
      if rPara.ok = false then (.ok false, Disconnect lib (LogLsv2Error lib s4).2)
      else
        let cVer := VendorCall.LSV2ReceiveVersions s4.m_hPort
        let rVer := lib.reply s4 cVer
        let s5 := s4.issued cVer rVer
        if rVer.ok = false then (.ok false, Disconnect lib (LogLsv2Error lib s5).2)
        else
          (.ok true,
            { s5 with
              modelString := rVer.ncModel
              version := rVer.ncVersion
              m_model := classifyModel rVer.ncModel rVer.ncVersion s5.m_model
              m_connected := true })

/-- `HeidenhainLsv2::CheckConnection`. -/
def CheckConnection (lib : Lsv2Library) (s : HeidenhainLsv2) : Outcome Bool :=
  if s.m_connected = false then
    match s.IPAddress with
    | none => (.ok false, s)
    | some ip =>
      match ensureLsv2Library lib s with
      | (.error e, s1) => (.error e, s1)
      | (.ok _, s1) => openSession lib s1 ip
  else (.ok true, s)

/-- The capability login shared by the four `Check...Connection` methods:
`if (false == LSV2Login (*m_hPort, capability, NULL)) { log; LogLsv2Error (..); return false; }`. -/
def loginStep (lib : Lsv2Library) (s : HeidenhainLsv2) (capability : String) : Bool × HeidenhainLsv2 :=
  let c := VendorCall.LSV2Login s.m_hPort capability
  let r := lib.reply s c
  let s1 := s.issued c r
  if r.ok = false then (false, (LogLsv2Error lib s1).2) else (true, s1)

/-- `HeidenhainLsv2::CheckDNCConnection`. -/
def CheckDNCConnection (lib : Lsv2Library) (s : HeidenhainLsv2) : Outcome Bool :=
  match CheckConnection lib s with
  | (.error e, s1) => (.error e, s1)
  | (.ok false, s1) => (.ok false, s1)
  | (.ok true, s1) =>
    if s1.m_isLoggedDnc = true then (.ok true, s1)
    else
      let l := loginStep lib s1 "DNC"
      if l.1 = false then (.ok false, l.2)
      else (.ok true, { l.2 with m_isLoggedDnc := true })

/-- `HeidenhainLsv2::CheckFileConnection`. -/
def CheckFileConnection (lib : Lsv2Library) (s : HeidenhainLsv2) : Outcome Bool :=
  match CheckConnection lib s with
  | (.error e, s1) => (.error e, s1)
  | (.ok false, s1) => (.ok false, s1)
  | (.ok true, s1) =>
    if s1.m_isLoggedFile = true then (.ok true, s1)
    else
      let l := loginStep lib s1 "FILE"
      if l.1 = false then (.ok false, l.2)
      else (.ok true, { l.2 with m_isLoggedFile := true })

/-- `HeidenhainLsv2::CheckPLCConnection`. -/
def CheckPLCConnection (lib : Lsv2Library) (s : HeidenhainLsv2) : Outcome Bool :=
  match CheckConnection lib s with
  | (.error e, s1) => (.error e, s1)
  | (.ok false, s1) => (.ok false, s1)
  | (.ok true, s1) =>
    if s1.m_isLoggedPlc = true then (.ok true, s1)
    else
      let l := loginStep lib s1 "PLCDEBUG"
      if l.1 = false then (.ok false, l.2)
      else (.ok true, { l.2 with m_isLoggedPlc := true })

/-- `HeidenhainLsv2::CheckDataConnection`. -/
def CheckDataConnection (lib : Lsv2Library) (s : HeidenhainLsv2) : Outcome Bool :=
  match CheckConnection lib s with
  | (.error e, s1) => (.error e, s1)
  | (.ok false, s1) => (.ok false, s1)
  | (.ok true, s1) =>
    if s1.m_isLoggedData = true then (.ok true, s1)
    else if s1.m_model < Model.HEID_530 then (.ok false, s1)
    else if String_Compare s1.version "340490 03" < 0 then (.ok false, s1)
    else
      let l := loginStep lib s1 "DATA"
      if l.1 = false then (.ok false, l.2)
      else (.ok true, { l.2 with m_isLoggedData := true })

/-- `HeidenhainLsv2::Start`. -/
def Start (lib : Lsv2Library) (s : HeidenhainLsv2) : Outcome Bool :=
  CheckConnection lib
    { s with
      m_overrideValues := false
      m_programValues := false
      m_programStatusOk := false
      m_executionModeOk := false }

/-- `HeidenhainLsv2::Finish`. -/
def Finish (lib : Lsv2Library) (s : HeidenhainLsv2) : HeidenhainLsv2 :=
  let s1 := if s.m_keepPlcConnection = false ∧ s.m_isLoggedPlc = true then LogoutPlc lib s else s
  if s1.m_keepDncConnection = false ∧ s1.m_isLoggedDnc = true then LogoutDnc lib s1 else s1

/-- `DWORD _lswap (DWORD l)`, compiled without `_NOSWAP`; `DWORD` is 32 bits wide. -/
def _lswap (l : Nat) : Nat :=
  ((l >>> 24) ||| ((l &&& 0x0000FF00) <<< 8) ||| ((l &&& 0x00FF0000) >>> 8)
    ||| ((l &&& 0x000000FF) <<< 24)) % 2 ^ 32

/-- `WORD _wswap (WORD w)`, compiled without `_NOSWAP`; `WORD` is 16 bits wide. -/
def _wswap (w : Nat) : Nat :=
  ((w >>> 8) ||| ((w &&& 0xFF) <<< 8)) % 2 ^ 16

/-- Conversion of an 8-bit pattern to `signed char`. -/
def toSignedChar (n : Nat) : Int :=
  if n % 2 ^ 8 < 2 ^ 7 then (n % 2 ^ 8 : Nat) else (n % 2 ^ 8 : Nat) - 2 ^ 8

/-- Conversion of a 16-bit pattern to `short`. -/
def toShort (n : Nat) : Int :=
  if n % 2 ^ 16 < 2 ^ 15 then (n % 2 ^ 16 : Nat) else (n % 2 ^ 16 : Nat) - 2 ^ 16

/-- Conversion of a 32-bit pattern to `long` (32 bits wide under Visual C++). -/
def toLong (n : Nat) : Int :=
  if n % 2 ^ 32 < 2 ^ 31 then (n % 2 ^ 32 : Nat) else (n % 2 ^ 32 : Nat) - 2 ^ 32

/-- Conversion of a `long` to `DWORD`. -/
def toDWORD (x : Int) : Nat :=
  (x % 2 ^ 32).toNat

/-- The byte `byteBuf[i]` after `LSV2ReceiveMem` wrote `bytes` at the start of the buffer. -/
def byteAt (bytes : List Nat) (i : Nat) : Nat :=
  bytes.getD i 0 % 2 ^ 8

/-- Load `*((WORD*)byteBuf)` on the little-endian host (x86). -/
def loadWORD (bytes : List Nat) : Nat :=
  byteAt bytes 0 + 2 ^ 8 * byteAt bytes 1

/-- Load `*((DWORD*)byteBuf)` on the little-endian host (x86). -/
def loadDWORD (bytes : List Nat) : Nat :=
  byteAt bytes 0 + 2 ^ 8 * byteAt bytes 1 + 2 ^ 16 * byteAt bytes 2 + 2 ^ 24 * byteAt bytes 3

/-- `HeidenhainLsv2::GetPLCTypeInfo`: `some (length, rawAddress)` when it returns true. -/
def GetPLCTypeInfo (s : HeidenhainLsv2) (type : Char) (address : Int) : Option (Nat × Int) :=
  if type = 'M' then some (1, s.m_lsv2Para.markerstart + address)
  else if type = 'I' then some (1, s.m_lsv2Para.inputstart + address)
  else if type = 'O' then some (1, s.m_lsv2Para.outputstart + address)
  else if type = 'T' then some (1, s.m_lsv2Para.timerstart + address)
  else if type = 'C' then some (1, s.m_lsv2Para.counterstart + address)
  else if type = 'B' then some (1, s.m_lsv2Para.wordstart + address)
  else if type = 'W' then some (2, s.m_lsv2Para.wordstart + address)
  else if type = 'D' then some (4, s.m_lsv2Para.wordstart + address)
  else none

/-- The `switch (type)` of `GetPLCValue` that decodes the received bytes. -/
def decodePLCValue (littleEndian : Bool) (type : Char) (byteBuf : List Nat) : Int :=
  if type = 'B' then toSignedChar (byteAt byteBuf 0)
  else if type = 'W' then
    if littleEndian then toShort (loadWORD byteBuf)
    else (_wswap (loadWORD byteBuf) : Nat)
  else if type = 'D' then
    if littleEndian then toLong (loadDWORD byteBuf)
    else toLong (_lswap (loadDWORD byteBuf))
  else if byteAt byteBuf 0 &&& 0x80 ≠ 0 then 1 else 0

/-- The recovery both failure branches of `GetPLCValue` share: `LogLsv2Error`, then
`if (m_model < Model::HEID_530) { Disconnect (); }`. -/
def plcFailure (lib : Lsv2Library) (s : HeidenhainLsv2) : HeidenhainLsv2 :=
  let s1 := (LogLsv2Error lib s).2
  if s1.m_model < Model.HEID_530 then Disconnect lib s1 else s1

/-- `HeidenhainLsv2::GetPLCValue (char type, long address)`. -/
def GetPLCValue (lib : Lsv2Library) (s : HeidenhainLsv2) (type : Char) (address : Int) : Outcome Int :=
  match CheckPLCConnection lib s with
  | (.error e, s1) => (.error e, s1)
  | (.ok false, s1) => (.error "No PLC connection", s1)
  | (.ok true, s1) =>
    match GetPLCTypeInfo s1 type address with
    | none => (.error "GetPLCTypeInfo failed", plcFailure lib s1)
    | some (length, rawAddress) =>
      let c := VendorCall.LSV2ReceiveMem s1.m_hPort (toDWORD rawAddress) length
      let r := lib.reply s1 c
      let s2 := s1.issued c r
      if r.ok = false then (.error "LSV2ReceiveMem failed", plcFailure lib s2)
      else
        let littleEndian := (s2.m_lsv2Para.lsv2version_flags_ex &&& lib.V_EX_INTEL) != 0
        (.ok (decodePLCValue littleEndian type r.bytes), s2)

/-! ## Tagged-variant decode -/

/-- `HeidenhainLsv2::GetData`. -/
def GetData (lib : Lsv2Library) (s : HeidenhainLsv2) (entryName : String) : Outcome LSV2DATA :=
  if s.m_model < Model.HEID_530 then (.error "Model not supported for GetData", s)
  else
    match CheckDataConnection lib s with
    | (.error e, s1) => (.error e, s1)
    | (.ok false, s1) => (.error "No Data connection", s1)
    | (.ok true, s1) =>
      let c := VendorCall.LSV2ReceiveDataProperty s1.m_hPort entryName
      let r := lib.reply s1 c
      let s2 := s1.issued c r
      if r.ok = false then (.error "LSV2ReceiveDataProperty failed", (LogLsv2Error lib s2).2)
      else (.ok r.data, s2)

/-- Conversion `(Int32) x` of a finite `double` in the range of `Int32`: the fraction is
dropped. -/
def doubleToInt32 (x : ℚ) : Int :=
  Int.tdiv x.num x.den

/-- The `switch (data.DataType)` of `GetBoolData`.  `DataWord` is a 16-bit and `DataLong` a
32-bit integer, which `(Int32)` keeps. -/
def boolOfData (data : LSV2DATA) : Except String Bool :=
  match data.DataType with
  | .GVT_BOOL => .ok (0 != data.DataWord)
  | .GVT_STRING => .ok (!(data.DataString == "0"))
  | .GVT_I2 => .ok (0 != data.DataWord)
  | .GVT_UI2 => .ok (0 != data.DataWord)
  | .GVT_I4 => .ok (0 != data.DataLong)
  | .GVT_UI4 => .ok (0 != data.DataLong)
  | .GVT_R4 => .ok (0 != doubleToInt32 data.DataDouble)
  | .GVT_R8 => .ok (0 != doubleToInt32 data.DataDouble)
  | .GVT_OTHER _ => .error "Unsupported data type"

/-- `HeidenhainLsv2::GetBoolData`. -/
def GetBoolData (lib : Lsv2Library) (s : HeidenhainLsv2) (entryName : String) : Outcome Bool :=
  match GetData lib s entryName with
  | (.error e, s1) => (.error e, s1)
  | (.ok data, s1) => (boolOfData data, s1)

/-- `HeidenhainLsv2::GetParameter`. -/
def GetParameter (lib : Lsv2Library) (s : HeidenhainLsv2) (entryName : String) : Outcome String :=
  if s.m_model < Model.HEID_530 then (.error "Model not supported for GetParameter", s)
  else
    match CheckDataConnection lib s with
    | (.error e, s1) => (.error e, s1)
    | (.ok false, s1) => (.error "No Data connection", s1)
    | (.ok true, s1) =>
      let c := VendorCall.LSV2ReceiveMachineConstant s1.m_hPort entryName
      let r := lib.reply s1 c
      let s2 := s1.issued c r
      if r.ok = false then (.error "LSV2ReceiveMachineConstant failed", (LogLsv2Error lib s2).2)
      else (.ok r.text, s2)

/-- `HeidenhainLsv2::GetTableLine`. -/
def GetTableLine (lib : Lsv2Library) (s : HeidenhainLsv2) (tableName condition : String) :
    Outcome String :=
  match CheckConnection lib s with
  | (.error e, s1) => (.error e, s1)
  | (.ok false, s1) => (.error "No connection", s1)
  | (.ok true, s1) =>
    if String_Compare s1.version "280476 20" < 0 then
      (.error "LSV2ReceiveTable not supported on this control", s1)
    else
      let c := VendorCall.LSV2ReceiveTableLine s1.m_hPort tableName condition
      let r := lib.reply s1 c
      let s2 := s1.issued c r
      if r.ok = false then (.error "LSV2ReceiveTableLineEx failed", (LogLsv2Error lib s2).2)
      else (.ok r.text, s2)

/-- `HeidenhainLsv2::ReceiveFile (distantFile, localFile, binary)`. -/
def ReceiveFile (lib : Lsv2Library) (s : HeidenhainLsv2) (distantFile localFile : String)
    (binary : Bool) : Outcome Bool :=
  match CheckFileConnection lib s with
  | (.error e, s1) => (.error e, s1)
  | (.ok false, s1) => (.ok false, s1)
  | (.ok true, s1) =>
    let cInfo := VendorCall.LSV2ReceiveFileInfo s1.m_hPort distantFile
    let rInfo := lib.reply s1 cInfo
    let s2 := s1.issued cInfo rInfo
    if rInfo.ok = false then (.ok false, s2)
    else
      let c := VendorCall.LSV2ReceiveFile s2.m_hPort distantFile localFile binary
      let r := lib.reply s2 c
      let s3 := s2.issued c r
      if r.ok = false then (.ok false, (LogLsv2Error lib s3).2)
      else (.ok true, s3)

/-- The `try` block the four run-information readers share: `LSV2ReceiveRunInfo`, whose
failure raises inside the block, is caught, and leads to `Disconnect ()` before the exception
is raised again. -/
def receiveRunInfo (lib : Lsv2Library) (s : HeidenhainLsv2) (kind : LSV2_RUNINFO_TYPE) :
    Outcome LSV2RUNINFO :=
  let c := VendorCall.LSV2ReceiveRunInfo s.m_hPort kind
  let r := lib.reply s c
  let s1 := s.issued c r
  if r.ok = false then
    (.error "LSV2ReceiveRunInfo failed", Disconnect lib (LogLsv2Error lib s1).2)
  else (.ok r.runInfo, s1)

/-- `HeidenhainLsv2::GetOverrideValues`. -/
def GetOverrideValues (lib : Lsv2Library) (s : HeidenhainLsv2) : Outcome Unit :=
  if s.m_overrideValues = true then (.ok (), s)
  else
    match CheckDNCConnection lib s with
    | (.error e, s1) => (.error e, s1)
    | (.ok false, s1) => (.error "No DNC connection", s1)
    | (.ok true, s1) =>
      if s1.m_model < Model.HEID_530 then (.error "Override not supported", s1)
      else
        match receiveRunInfo lib s1 LSV2_RUNINFO_TYPE.LSV2_RUNINFO_OVERRIDES_INFO with
        | (.error e, s2) => (.error e, s2)
        | (.ok runInfo, s2) =>
          (.ok (),
            { s2 with
              feedrateOverride := Int.tdiv (runInfo.OverrideValue.getD 0 0) 100
              spindleSpeedOverride := Int.tdiv (runInfo.OverrideValue.getD 1 0) 100
              m_overrideValues := true })

/-- `HeidenhainLsv2::GetProgramValues`. -/
def GetProgramValues (lib : Lsv2Library) (s : HeidenhainLsv2) : Outcome Unit :=
  if s.m_programValues = true then (.ok (), s)
  else
    match CheckConnection lib s with
    | (.error e, s1) => (.error e, s1)
    | (.ok false, s1) => (.error "No CNC connection", s1)
    | (.ok true, s1) =>
      if s1.m_model < Model.HEID_530 then (.error "ProgramValues not supported", s1)
      else
        match receiveRunInfo lib s1 LSV2_RUNINFO_TYPE.LSV2_RUNINFO_EXECUTION_POINT with
        | (.error e, s2) => (.error e, s2)
        | (.ok runInfo, s2) =>
          (.ok (),
            { s2 with
              m_programName := runInfo.ExecutionPoint_strings.getD 1 ""
              m_blockNumber := runInfo.ExecutionPoint_BlockNr
              m_programValues := true })

/-- `HeidenhainLsv2::GetProgramStatus`. -/
def GetProgramStatus (lib : Lsv2Library) (s : HeidenhainLsv2) : Outcome Unit :=
  if s.m_programStatusOk = true then (.ok (), s)
  else
    match CheckConnection lib s with
    | (.error e, s1) => (.error e, s1)
    | (.ok false, s1) => (.error "No CNC connection", s1)
    | (.ok true, s1) =>
      if s1.m_model < Model.HEID_530 then (.error "ProgramStatus not supported", s1)
      else
        match receiveRunInfo lib s1 LSV2_RUNINFO_TYPE.LSV2_RUNINFO_PROGRAM_STATUS with
        | (.error e, s2) => (.error e, s2)
        | (.ok runInfo, s2) =>
          (.ok (), { s2 with m_programStatus := runInfo.ProgramStatus, m_programStatusOk := true })

/-- `HeidenhainLsv2::GetExecutionMode`. -/
def GetExecutionMode (lib : Lsv2Library) (s : HeidenhainLsv2) : Outcome Unit :=
  if s.m_executionModeOk = true then (.ok (), s)
  else
    match CheckConnection lib s with
    | (.error e, s1) => (.error e, s1)
    | (.ok false, s1) => (.error "No CNC connection", s1)
    | (.ok true, s1) =>
      if s1.m_model < Model.HEID_530 then (.error "ExecutionMode not supported", s1)
      else
        match receiveRunInfo lib s1 LSV2_RUNINFO_TYPE.LSV2_RUNINFO_EXECUTION_MODE with
        | (.error e, s2) => (.error e, s2)
        | (.ok runInfo, s2) =>
          (.ok (), { s2 with m_executionMode := runInfo.ExecutionMode, m_executionModeOk := true })

/-! ## Host library: numbers and dictionaries

The managed parsers and collections are not part of the repository; they are modelled after
their documentation, on finite decimal notation. -/

/-- White space that `Int32::Parse` and `Double::Parse` skip at both ends: U+0009 to U+000D
and U+0020. -/
def isParseWhite (c : Char) : Bool :=
  c = ' ' ∨ (9 ≤ c.toNat ∧ c.toNat ≤ 13)

/-- The characters without the white space at both ends. -/
def trimWhite (cs : List Char) : List Char :=
  ((cs.dropWhile isParseWhite).reverse.dropWhile isParseWhite).reverse

/-- A leading sign, if there is one, and the rest: `true` for `-`. -/
def splitSign : List Char → Bool × List Char
  | '-' :: rest => (true, rest)
  | '+' :: rest => (false, rest)
  | cs => (false, cs)

/-- Value of a run of decimal digits. -/
def digitsToNat (cs : List Char) : Nat :=
  cs.foldl (fun n c => 10 * n + (c.toNat - 48)) 0

/-- The integer written by the string in the style `NumberStyles::Integer`: white space, an
optional sign, at least one digit, white space. -/
def parseInteger (s : String) : Option Int :=
  let signed := splitSign (trimWhite s.data)
  if signed.2 ≠ [] ∧ signed.2.all Char.isDigit = true then
    some (if signed.1 then -(digitsToNat signed.2 : Int) else (digitsToNat signed.2 : Int))
  else none

/-- `Int32::Parse (s, culture)`: raises on a text that is not an integer or is out of range. -/
def Int32_Parse (s : String) : Except String Int :=
  match parseInteger s with
  | none => .error "FormatException"
  | some n => if -(2 ^ 31) ≤ n ∧ n < 2 ^ 31 then .ok n else .error "OverflowException"

/-- The exponent part of a number, empty or `e`/`E`, an optional sign and digits. -/
def parseExponent : List Char → Option Int
  | [] => some 0
  | e :: rest =>
    if e = 'e' ∨ e = 'E' then
      let signed := splitSign rest
      if signed.2 ≠ [] ∧ signed.2.all Char.isDigit = true then
        some (if signed.1 then -(digitsToNat signed.2 : Int) else (digitsToNat signed.2 : Int))
      else none
    else none

/-- The number written by the string in the style `Float | AllowThousands` of the culture
en-US: white space, an optional sign, digits with `,` as group separator, an optional `.` and
digits, an optional exponent, white space.  The value is the exact decimal, not rounded to a
`double`; the symbols of infinity and NaN are not read. -/
def parseFloat (s : String) : Option ℚ :=
  let signed := splitSign (trimWhite s.data)
  let isIntegral := fun (c : Char) => c.isDigit || c == ','
  let intDigits := (signed.2.takeWhile isIntegral).filter Char.isDigit
  let afterInt := signed.2.dropWhile isIntegral
  let fraction := match afterInt with
    | '.' :: rest => (rest.takeWhile Char.isDigit, rest.dropWhile Char.isDigit)
    | rest => ([], rest)
  if intDigits = [] ∧ fraction.1 = [] then none
  else
    match parseExponent fraction.2 with
    | none => none
    | some e =>
      let mantissa : Int := digitsToNat (intDigits ++ fraction.1)
      let signedMantissa : Int := if signed.1 then -mantissa else mantissa
      let exponent : Int := e - fraction.1.length
      if 0 ≤ exponent then some (mkRat (signedMantissa * 10 ^ exponent.toNat) 1)
      else some (mkRat signedMantissa (10 ^ (-exponent).toNat))

/-- `Double::Parse (s, culture)` for the culture en-US. -/
def Double_Parse (s : String) : Except String ℚ :=
  match parseFloat s with
  | none => .error "FormatException"
  | some x => .ok x

/-- Look-up in a dictionary: `TryGetValue`, `Contains` and the indexer. -/
def dictGet {α : Type} (d : List (String × α)) (key : String) : Option α :=
  (d.find? (fun entry => entry.1 == key)).map (fun entry => entry.2)

/-- The indexer assignment `d[key] = value`: the entry of `key` is replaced or added, the
other entries stay. -/
def dictSet {α : Type} (d : List (String × α)) (key : String) (value : α) : List (String × α) :=
  if d.any (fun entry => entry.1 == key) then
    d.map (fun entry => if entry.1 == key then (key, value) else entry)
  else d ++ [(key, value)]

/-! ## Typed access to a data property -/

/-- `HeidenhainLsv2::GetIntData`.  The case `GVT_BOOL` logs and goes on to the default
section. -/
def GetIntData (lib : Lsv2Library) (s : HeidenhainLsv2) (entryName : String) : Outcome Int :=
  match GetData lib s entryName with
  | (.error e, s1) => (.error e, s1)
  | (.ok data, s1) =>
    match data.DataType with
    | .GVT_STRING => (Int32_Parse data.DataString, s1)
    | .GVT_I2 => (.ok data.DataWord, s1)
    | .GVT_UI2 => (.ok data.DataWord, s1)
    | .GVT_I4 => (.ok data.DataLong, s1)
    | .GVT_UI4 => (.ok data.DataLong, s1)
    | .GVT_R4 => (.ok (doubleToInt32 data.DataDouble), s1)
    | .GVT_R8 => (.ok (doubleToInt32 data.DataDouble), s1)
    | .GVT_BOOL => (.error "Unsupported data type", s1)
    | .GVT_OTHER _ => (.error "Unsupported data type", s1)

/-- `HeidenhainLsv2::GetDoubleData`.  The short integer is read through `DataLong`; there is no
case for `GVT_BOOL`. -/
def GetDoubleData (lib : Lsv2Library) (s : HeidenhainLsv2) (entryName : String) : Outcome ℚ :=
  match GetData lib s entryName with
  | (.error e, s1) => (.error e, s1)
  | (.ok data, s1) =>
    match data.DataType with
    | .GVT_STRING => (Double_Parse data.DataString, s1)
    | .GVT_I2 => (.ok (data.DataLong : ℚ), s1)
    | .GVT_UI2 => (.ok (data.DataLong : ℚ), s1)
    | .GVT_I4 => (.ok (data.DataLong : ℚ), s1)
    | .GVT_UI4 => (.ok (data.DataLong : ℚ), s1)
    | .GVT_R4 => (.ok data.DataDouble, s1)
    | .GVT_R8 => (.ok data.DataDouble, s1)
    | .GVT_BOOL => (.error "Unsupported data type", s1)
    | .GVT_OTHER _ => (.error "Unsupported data type", s1)

/-- `HeidenhainLsv2::GetStringParameter`. -/
def GetStringParameter (lib : Lsv2Library) (s : HeidenhainLsv2) (entryName : String) :
    Outcome String :=
  match dictGet s.m_parameterCache entryName with
  | some v => (.ok v, s)
  | none =>
    match GetParameter lib s entryName with
    | (.error e, s1) => (.error e, s1)
    | (.ok v, s1) => (.ok v, { s1 with m_parameterCache := dictSet s1.m_parameterCache entryName v })

/-! ## Value read from the name of the latest file -/

/-- `std::regex_match (name, std::regex ("[0-9]+(\.[0-9]*)?"))`.  In the string literal the
compiler drops the backslash of the unrecognised escape `\.`, so that the expression is
`[0-9]+(.[0-9]*)?`: digits, then possibly one character that is not a line terminator and
digits. -/
def numericFileName (name : String) : Bool :=
  let digits := name.data.takeWhile Char.isDigit
  match name.data.dropWhile Char.isDigit with
  | [] => !digits.isEmpty
  | c :: rest => !digits.isEmpty && c != '\n' && c != '\r' && rest.all Char.isDigit

/-- `listFiles.sort (compareFileWriteTime)`: a stable sort on `time_write`. -/
def sortByWriteTime (files : List _finddata32_t) : List _finddata32_t :=
  files.insertionSort (fun a b => a.time_write ≤ b.time_write)

/-- `HeidenhainLsv2::GetFileList`.  The directory entries that the successive calls of
`LSV2GetDirEntry` give before the null pointer are the `entries` of the outcome of the first
access; one further access is made for each entry, and each entry keeps its content while the
list is sorted. -/
def GetFileList (lib : Lsv2Library) (s : HeidenhainLsv2) (distantDir : String) :
    Outcome (List String) :=
  match CheckFileConnection lib s with
  | (.error e, s1) => (.error e, s1)
  | (.ok false, s1) => (.error "File connection failed", s1)
  | (.ok true, s1) =>
    let cInfo := VendorCall.LSV2ReceiveDirInfo s1.m_hPort
    let rInfo := lib.reply s1 cInfo
    let s2 := s1.issued cInfo rInfo
    if rInfo.ok = false then (.error "LSV2ReceiveDirInfo failed", (LogLsv2Error lib s2).2)
    else
      let cChange := VendorCall.LSV2ChangeDir s2.m_hPort distantDir
      let rChange := lib.reply s2 cChange
      let s3 := s2.issued cChange rChange
      if rChange.ok = false then (.error "LSV2ChangeDir failed", (LogLsv2Error lib s3).2)
      else
        let cDir := VendorCall.LSV2ReceiveDir s3.m_hPort
        let s4 := s3.issued cDir (lib.reply s3 cDir)
        let cFirst := VendorCall.LSV2GetDirEntry s4.m_hPort true
        let rFirst := lib.reply s4 cFirst
        let s5 := s4.issued cFirst rFirst
        let cNext := VendorCall.LSV2GetDirEntry s5.m_hPort false
        let s6 := rFirst.entries.foldl (fun t _ => t.issued cNext (lib.reply t cNext)) s5
        let listFiles := rFirst.entries.filter (fun file => numericFileName file.name)
        let result := (sortByWriteTime listFiles).map (fun file => file.name)
        let cBack := VendorCall.LSV2ChangeDir s6.m_hPort rInfo.dirPath
        (.ok result, s6.issued cBack (lib.reply s6 cBack))

/-- `HeidenhainLsv2::DeleteFile`. -/
def DeleteFile (lib : Lsv2Library) (s : HeidenhainLsv2) (directoryPath fileName : String) :
    HeidenhainLsv2 :=
  let cInfo := VendorCall.LSV2ReceiveDirInfo s.m_hPort
  let rInfo := lib.reply s cInfo
  let s1 := s.issued cInfo rInfo
  if rInfo.ok = false then (LogLsv2Error lib s1).2
  else
    let cChange := VendorCall.LSV2ChangeDir s1.m_hPort directoryPath
    let rChange := lib.reply s1 cChange
    let s2 := s1.issued cChange rChange
    if rChange.ok = false then (LogLsv2Error lib s2).2
    else
      let cDelete := VendorCall.LSV2DeleteFile s2.m_hPort fileName
      let rDelete := lib.reply s2 cDelete
      let s3 := s2.issued cDelete rDelete
      let s4 := if rDelete.ok = false then (LogLsv2Error lib s3).2 else s3
      let cBack := VendorCall.LSV2ChangeDir s4.m_hPort rInfo.dirPath
      s4.issued cBack (lib.reply s4 cBack)

/-- `HeidenhainLsv2::DeleteRemoteFiles`. -/
def DeleteRemoteFiles (lib : Lsv2Library) (s : HeidenhainLsv2) (directoryPath : String)
    (fileList : List String) (fileToKeep : String) : HeidenhainLsv2 :=
  fileList.foldl
    (fun t fileItem =>
      if String_Contains fileItem fileToKeep then t else DeleteFile lib t directoryPath fileItem)
    s

/-- The block `// remove suffix` of `GetStringValueFromFileName`: a suffix that is not empty and
occurs in the name takes its length off the end of the name. -/
def removeSuffix (latestFileName : String) (suffix : Option String) : String :=
  match suffix with
  | some sfx =>
    if sfx.length > 0 ∧ String_Contains latestFileName sfx = true then
      String.mk (latestFileName.data.take (latestFileName.length - sfx.length))
    else latestFileName
  | none => latestFileName

/-- The `try` block that ends `GetStringValueFromFileName`: the files other than the latest are
deleted when there are more than `maxFileNumber` of them, or more than the configured
number. -/
def removeRemoteFiles (lib : Lsv2Library) (s : HeidenhainLsv2) (directoryPath : String)
    (maxFileNumber : Int) (remoteFileList : List String) (latestFileName : String) :
    HeidenhainLsv2 :=
  if maxFileNumber < remoteFileList.length then
    DeleteRemoteFiles lib s directoryPath remoteFileList latestFileName
  else if s.removeRemoteFilesMaxFileNumber < remoteFileList.length then
    DeleteRemoteFiles lib s directoryPath remoteFileList latestFileName
  else s

/-- Steps 2 and following of `GetStringValueFromFileName (directoryPath, maxFileNumber,
skipTime, suffix)`: the directory is listed, the name of the latest file without the suffix is
the value, both tables get the entry of the directory, and the older files are removed. -/
def refreshValueFromFileName (lib : Lsv2Library) (s : HeidenhainLsv2) (directoryPath : String)
    (maxFileNumber : Int) (suffix : Option String) : Outcome String :=
  match GetFileList lib s directoryPath with
  | (.error e, s1) => (.error e, s1)
  | (.ok remoteFileList, s1) =>
    if remoteFileList.length = 0 then (.error "No file in folder => no value", s1)
    else
      let latestFileName := remoteFileList.getLastD ""
      if latestFileName = "" then (.error "Invalid latest file name", s1)
      else
        let result := removeSuffix latestFileName suffix
        let s2 :=
          { s1 with
            m_lastGetFromFileNameList := dictSet s1.m_lastGetFromFileNameList directoryPath s1.now
            m_lastValueFromFileNameList :=
              dictSet s1.m_lastValueFromFileNameList directoryPath result }
        (.ok result,
          removeRemoteFiles lib s2 directoryPath maxFileNumber remoteFileList latestFileName)

/-- `HeidenhainLsv2::GetStringValueFromFileName (directoryPath, maxFileNumber, skipTime,
suffix)`.  `TotalSeconds < skipTime` is compared on the ticks, ten million to the second. -/
def GetStringValueFromFileName (lib : Lsv2Library) (s : HeidenhainLsv2) (directoryPath : String)
    (maxFileNumber : Int) (skipTime : Int) (suffix : Option String) : Outcome String :=
  match dictGet s.m_lastGetFromFileNameList directoryPath with
  | some lastGet =>
    if s.now - lastGet < skipTime * 10000000 then
      match dictGet s.m_lastValueFromFileNameList directoryPath with
      | some value => (.ok value, s)
      | none => refreshValueFromFileName lib s directoryPath maxFileNumber suffix
    else refreshValueFromFileName lib s directoryPath maxFileNumber suffix
  | none => refreshValueFromFileName lib s directoryPath maxFileNumber suffix

/-! ## Runs of the object -/

/-- A step of a run of the object: a property setter of the configuration, a method of the
session layer, one of the read operations, or a vendor primitive called on its own.  The read
operations that are not listed (`Position::get`, `Alarms::get`, `GetFileList`, `DeleteFile`)
write no member of the session themselves: each is one of the `Check...Connection` methods,
then vendor primitives, then possibly `Disconnect`, and so is a sequence of these steps. -/
inductive Operation
  | SetIPAddress (value : Option String)
  | SetCncAcquisitionId (value : Nat)
  | SetKeepPlcConnection (value : Bool)
  | SetKeepDncConnection (value : Bool)
  | Start
  | Finish
  | CheckConnection
  | CheckDNCConnection
  | CheckFileConnection
  | CheckPLCConnection
  | CheckDataConnection
  | Disconnect
  | GetPLCValue (type : Char) (address : Int)
  | GetData (entryName : String)
  | GetBoolData (entryName : String)
  | GetParameter (entryName : String)
  | GetTableLine (tableName condition : String)
  | ReceiveFile (distantFile localFile : String) (binary : Bool)
  | GetOverrideValues
  | GetProgramValues
  | GetProgramStatus
  | GetExecutionMode
  | VendorPrimitive (call : VendorCall)

/-- The object after the operation, whether it returned or raised. -/
def Operation.run (lib : Lsv2Library) : Operation → HeidenhainLsv2 → HeidenhainLsv2
  | .SetIPAddress value, s => { s with IPAddress := value }
  | .SetCncAcquisitionId value, s => { s with CncAcquisitionId := value }
  | .SetKeepPlcConnection value, s => { s with m_keepPlcConnection := value }
  | .SetKeepDncConnection value, s => { s with m_keepDncConnection := value }
  | .Start, s => (Lemoine.Cnc.Start lib s).2
  | .Finish, s => Lemoine.Cnc.Finish lib s
  | .CheckConnection, s => (Lemoine.Cnc.CheckConnection lib s).2
  | .CheckDNCConnection, s => (Lemoine.Cnc.CheckDNCConnection lib s).2
  | .CheckFileConnection, s => (Lemoine.Cnc.CheckFileConnection lib s).2
  | .CheckPLCConnection, s => (Lemoine.Cnc.CheckPLCConnection lib s).2
  | .CheckDataConnection, s => (Lemoine.Cnc.CheckDataConnection lib s).2
  | .Disconnect, s => Lemoine.Cnc.Disconnect lib s
  | .GetPLCValue type address, s => (Lemoine.Cnc.GetPLCValue lib s type address).2
  | .GetData entryName, s => (Lemoine.Cnc.GetData lib s entryName).2
  | .GetBoolData entryName, s => (Lemoine.Cnc.GetBoolData lib s entryName).2
  | .GetParameter entryName, s => (Lemoine.Cnc.GetParameter lib s entryName).2
  | .GetTableLine tableName condition, s => (Lemoine.Cnc.GetTableLine lib s tableName condition).2
  | .ReceiveFile distantFile localFile binary, s =>
    (Lemoine.Cnc.ReceiveFile lib s distantFile localFile binary).2
  | .GetOverrideValues, s => (Lemoine.Cnc.GetOverrideValues lib s).2
  | .GetProgramValues, s => (Lemoine.Cnc.GetProgramValues lib s).2
  | .GetProgramStatus, s => (Lemoine.Cnc.GetProgramStatus lib s).2
  | .GetExecutionMode, s => (Lemoine.Cnc.GetExecutionMode lib s).2
  | .VendorPrimitive call, s => s.issued call (lib.reply s call)

/-- The object after the operations of `ops`, in order, starting from `s`. -/
def runAll (lib : Lsv2Library) (s : HeidenhainLsv2) (ops : List Operation) : HeidenhainLsv2 :=
  ops.foldl (fun t op => op.run lib t) s

/-- The states the object can be in: after the constructor and any sequence of operations. -/
def Reachable (lib : Lsv2Library) (s : HeidenhainLsv2) : Prop :=
  ∃ ops : List Operation, s = runAll lib HeidenhainLsv2.new ops

/-- A successful `LSV2Open` gives a handle other than `INVALID_HANDLE_VALUE`. -/
def Lsv2Library.OpenGivesHandle (lib : Lsv2Library) : Prop :=
  ∀ (history : List VendorCall) (address : String),
    (lib.respond (history ++ [VendorCall.LSV2Open address])).ok = true →
      (lib.respond (history ++ [VendorCall.LSV2Open address])).handle ≠ INVALID_HANDLE_VALUE

/-! ## Observations used in the statements -/

/-- The part of the object the login contexts live in: `m_connected`, `*m_hPort` and the four
login flags. -/
def sessionOf (s : HeidenhainLsv2) : Bool × HANDLE × Bool × Bool × Bool × Bool :=
  (s.m_connected, s.m_hPort, s.m_isLoggedDnc, s.m_isLoggedFile, s.m_isLoggedPlc, s.m_isLoggedData)

/-- A connected session has a handle, and a session that is not connected has no login. -/
def SessionInvariant (s : HeidenhainLsv2) : Prop :=
  (s.m_connected = true → s.m_hPort ≠ INVALID_HANDLE_VALUE) ∧
  (s.m_connected = false →
    s.m_isLoggedDnc = false ∧ s.m_isLoggedFile = false ∧ s.m_isLoggedPlc = false ∧
      s.m_isLoggedData = false)

/-- The calls of a history that act on the session: all but the error-text look-ups that
`LogLsv2Error` makes for the log after a failed call. -/
def sessionCalls (l : List VendorCall) : List VendorCall :=
  l.filter (fun c => !c.isErrorText)

/-- The sequence of calls `Disconnect` makes on the open handle `h` for the login flags of `s`. -/
def teardownCalls (s : HeidenhainLsv2) : List VendorCall :=
  (if s.m_isLoggedDnc then [VendorCall.LSV2Logout s.m_hPort "DNC"] else [])
    ++ (if s.m_isLoggedFile then [VendorCall.LSV2Logout s.m_hPort "FILE"] else [])
    ++ (if s.m_isLoggedPlc then [VendorCall.LSV2Logout s.m_hPort "PLCDEBUG"] else [])
    ++ (if s.m_isLoggedData then [VendorCall.LSV2Logout s.m_hPort "DATA"] else [])
    ++ [VendorCall.LSV2Logout s.m_hPort "INSPECT", VendorCall.LSV2Logout s.m_hPort "",
        VendorCall.LSV2Close s.m_hPort]

/-- The caches of the object and the environment they are compared with: the parameter cache,
the downloaded table with its date, the two tables of `GetStringValueFromFileName`, the clock
and the configured number of files. -/
def cachesOf (s : HeidenhainLsv2) :
    List (String × String) × Option Int × List (String × ℚ) × List (String × Int) ×
      List (String × String) × Int × Int :=
  (s.m_parameterCache, s.m_downloadDateTime, s.m_downloadTableValues, s.m_lastGetFromFileNameList,
    s.m_lastValueFromFileNameList, s.now, s.removeRemoteFilesMaxFileNumber)

/-- A library with sample constants and the given outcomes. -/
def sampleLibrary (respond : List VendorCall → Response) : Lsv2Library :=
  { V_EX_INTEL := 1
    LSV2_TCP_ERROR_LSV2_TCP_CONNECT := 1001
    LSV2_TCP_ERROR_LSV2_TCP_CLOSED := 1002
    LSV2_SER_ERROR_LSV2_SER_NOQUITT := 2001
    LSV2_SER_ERROR_WSAECONNRESET := 2002
    respond := respond }

/-- Every call succeeds; handles are 7, the control reports an iTNC 530. -/
def healthyLibrary : Lsv2Library :=
  sampleLibrary (fun _ => { handle := 7, ncModel := "iTNC530", ncVersion := "340490 05" })

/-- A session connected to an iTNC 530 on handle 7, logged in to PLCDEBUG, big-endian. -/
def plcSession : HeidenhainLsv2 :=
  { IPAddress := some "192.168.0.10", CncAcquisitionId := 1, m_connected := true,
    m_lsv2Library := 1, m_hPort := 7, m_isLoggedPlc := true, m_model := Model.HEID_530,
    modelString := "iTNC530", version := "340490 05" }

/-- The same session on a control that reports the little-endian flag. -/
def plcSessionIntel : HeidenhainLsv2 :=
  { plcSession with m_lsv2Para := { lsv2version_flags_ex := 1 } }

/-- A session connected to an iTNC 530 on handle 7, logged in to DATA. -/
def dataSession : HeidenhainLsv2 :=
  { IPAddress := some "192.168.0.10", CncAcquisitionId := 1, m_connected := true,
    m_lsv2Library := 1, m_hPort := 7, m_isLoggedData := true, m_model := Model.HEID_530,
    modelString := "iTNC530", version := "340490 05" }

/-- Every call succeeds and `LSV2ReceiveMem` writes the given bytes. -/
def memoryLibrary (bytes : List Nat) : Lsv2Library :=
  sampleLibrary (fun _ => { handle := 7, bytes := bytes })

/-- Every call succeeds and `LSV2ReceiveDataProperty` gives the given payload. -/
def dataLibrary (data : LSV2DATA) : Lsv2Library :=
  sampleLibrary (fun _ => { handle := 7, data := data })

/-- The `double` 0.5. -/
def half : ℚ := ⟨1, 2, by decide, by decide⟩

/-- `LSV2Logout` of INSPECT fails, every other call succeeds. -/
def logoutFailsLibrary : Lsv2Library :=
  sampleLibrary (fun history =>
    match history.getLast? with
    | some (VendorCall.LSV2Logout _ "INSPECT") => { ok := false, lastError := 5 }
    | _ => { handle := 7 })

/-- `LSV2Open` succeeds with handle 7 and the INSPECT login fails. -/
def loginFailsLibrary : Lsv2Library :=
  sampleLibrary (fun history =>
    match history.getLast? with
    | some (VendorCall.LSV2Login _ "INSPECT") => { ok := false, lastError := 5 }
    | _ => { handle := 7 })

/-- A configured object that never connected, with the library already loaded. -/
def idleSession : HeidenhainLsv2 :=
  { IPAddress := some "192.168.0.10", CncAcquisitionId := 1, m_lsv2Library := 1 }

/-- A session connected to an iTNC 530 whose version is older than `340490 03`, without a
capability login. -/
def gatedSession : HeidenhainLsv2 :=
  { IPAddress := some "192.168.0.10", CncAcquisitionId := 1, m_connected := true,
    m_lsv2Library := 1, m_hPort := 7, m_model := Model.HEID_530,
    modelString := "iTNC530", version := "340422 01" }

/-- Every call succeeds and `LSV2ReceiveMachineConstant` gives the text `4711`. -/
def parameterLibrary : Lsv2Library :=
  sampleLibrary (fun _ => { handle := 7, text := "4711" })

/-- The session `dataSession` with one cached parameter and a downloaded table. -/
def cachedSession : HeidenhainLsv2 :=
  { dataSession with
    m_parameterCache := [("CfgAxis", "old")]
    m_downloadDateTime := some 5
    m_downloadTableValues := [("X", half)] }

/-- Every call succeeds; the current directory is `TNC:\\` and the listed directory holds the
files `100.5` (written at 20), `99` (written at 10) and `readme.txt` (written at 30). -/
def directoryLibrary : Lsv2Library :=
  sampleLibrary (fun history =>
    match history.getLast? with
    | some (VendorCall.LSV2ReceiveDirInfo _) => { handle := 7, dirPath := "TNC:\\" }
    | some (VendorCall.LSV2GetDirEntry _ true) =>
      { handle := 7,
        entries := [{ name := "100.5", time_write := 20 }, { name := "99", time_write := 10 },
          { name := "readme.txt", time_write := 30 }] }
    | _ => { handle := 7 })

/-- A session logged in to FILE at the time `now`, which read the directory `TNC:\\STAMP` at the
time 1000 (value `42`) and the directory `TNC:\\OTHER` at the time 7 (value `8`). -/
def fileSession (now : Int) : HeidenhainLsv2 :=
  { IPAddress := some "192.168.0.10", CncAcquisitionId := 1, m_connected := true,
    m_lsv2Library := 1, m_hPort := 7, m_isLoggedFile := true, m_model := Model.HEID_530,
    modelString := "iTNC530", version := "340490 05",
    m_lastGetFromFileNameList := [("TNC:\\STAMP", 1000), ("TNC:\\OTHER", 7)],
    m_lastValueFromFileNameList := [("TNC:\\STAMP", "42"), ("TNC:\\OTHER", "8")],
    now := now }

/-! ## Selca: vendor boundary -/

/-- `DLL_NAME` of `Selca.cpp`. -/
def DLL_NAME : String := "SeLGeC"

/-- `CONNECTION_INIT_SLEEP_MS` of `Selca.cpp`. -/
def CONNECTION_INIT_SLEEP_MS : Nat := 2000

/-- `NB_CONNECTION_ATTEMPT` of `Selca.cpp`. -/
def NB_CONNECTION_ATTEMPT : Nat := 5

/-- `RECONNECT_SLEEP_MS` of `Selca.cpp`. -/
def RECONNECT_SLEEP_MS : Nat := 1000

/-- `CONNECTION_ERROR_SLEEP_MS` of `Selca.cpp`. -/
def CONNECTION_ERROR_SLEEP_MS : Nat := 30000

/-- Win32 `ERROR_CLASS_ALREADY_EXISTS` of `winerror.h`. -/
def ERROR_CLASS_ALREADY_EXISTS : Int := 1410

/-- `SLC_MSG` of `SelGeCStruct.h`. -/
def SLC_MSG : Int := 1

/-- `SLC_DISCONNECT` of `SelGeCStruct.h`. -/
def SLC_DISCONNECT : Int := 2

/-- Ticks of 100 ns in a millisecond: a `DateTime` and a `TimeSpan` are numbers of ticks. -/
def ticksPerMillisecond : Int := 10000

/-- The members of the vendor structure `Slo_t` that `ParseParameter` writes. -/
structure Slo_t where
  flag : Nat := 0
  nature : Int := 0
  device : Int := 0
  addr1 : Int := 0
  addr2 : Int := 0
  addr3 : Int := 0
  mask : Int := 0
  dfo : Int := 0
  name : String := ""
  deriving DecidableEq, Repr

/-- `SLMsg_t` of `SelGeCStruct.h`, with the text `dd.datas` of the datum. -/
structure SLMsg_t where
  sloid : Int := 0
  dest : Int := 0
  datas : String := ""
  deriving DecidableEq, Repr

/-- A call that leaves the module: the primitives of the SeLGeC library with the arguments the
module passes, and the host calls on the library itself.  The callback argument of
`SOLSetConnectionMode` is `NULL` (false) or the delegate of `ProcessTcpMsg` (true). -/
inductive SelcaCall
  | LoadLibraryW (dllName : String)
  | GetProcAddress (method : String)
  | FreeLibrary (library : Nat)
  | UnmapViewOfFile (library : Nat)
  | SOLCreate
  | SOLSetConnectionMode (cookie : Int) (callback : Bool)
  | SOLGoodTcpAddr (cookie : Int) (address : String)
  | SOLTryConnection (cookie : Int) (address : String)
  | SOLisConnected (cookie : Int)
  | SOLCloseConnection (cookie : Int)
  | SOLDelete (cookie : Int)
  | SOLSendPPInfo (cookie : Int) (sloDB : List Slo_t) (sloDBSize : Nat)
  | SOLGetMessage (cookie : Int)
  | SOLSendMessage (cookie : Int) (buffer : SLMsg_t) (count : Nat)
  | SOLisReceiveBufferEmpty (cookie : Int)
  deriving DecidableEq, Repr

/-- The call is `SOLTryConnection`. -/
def SelcaCall.isTryConnection : SelcaCall → Bool
  | .SOLTryConnection _ _ => true
  | _ => false

/-- The call is `SOLGetMessage`. -/
def SelcaCall.isGetMessage : SelcaCall → Bool
  | .SOLGetMessage _ => true
  | _ => false

/-- Outcome of one call of the SeLGeC boundary: the returned flag, handle, cookie or code, and
the message `SOLGetMessage` points to.  A call reads the fields that are its own result. -/
structure SelcaResponse where
  flag : Bool := true
  handle : Nat := 1
  cookie : Int := 0
  code : Int := 0
  message : SLMsg_t := {}
  deriving DecidableEq, Repr

/-- The SeLGeC library: the constants of the vendor headers (`TripData.h`, `SeLGeCApi.h` are not
part of the repository), the names that `SeLGeCApi.h` binds, and the outcome of a call given
the calls made so far, this call last. -/
structure SeLGeCLibrary where
  DEV_SOI : Int
  DEV_SOI_ERR : Int
  DEV_SKM_USER : Int
  ERR_READ : Nat
  ERR_WRITE : Nat
  ERR_WDOG : Nat
  SLO_ENABLE : Nat
  SLO_OUTPUT : Nat
  SLO_INPUT : Nat
  DATA_NONE : Int
  DATA_BOOL : Int
  DATA_WORD : Int
  DATA_DWORD : Int
  DATA_FLOAT : Int
  DATA_STRING : Int
  apiMethods : List String
  respond : List SelcaCall → SelcaResponse

/-! ## Selca: the object -/

/-- Member variables of `Selca`, with the environment of the object: `calls` (the calls made so
far) and `utcNow` (what `DateTime::UtcNow` returns, in ticks).  `m_sloDB` is the array with its
first `m_sloDBSize` elements; `DateTime::MinValue` is 0.  `SetActive ()` belongs to the base
class `BaseCncModule`, which is not part of the repository, and writes none of these members. -/
structure Selca where
  m_ipAddress : Option String := none
  m_SeLGeCLibrary : Nat := NULL
  m_parametersInitialization : Bool := true
  m_parameters : List String := []
  m_values : List (String × String) := []
  m_sloDBInitialized : Bool := false
  m_sloDB : List Slo_t := []
  m_sloDBSize : Nat := 0
  m_cookie : Int := 0
  m_connected : Bool := false
  m_ready : Bool := false
  m_useMessages : Bool := false
  m_pendingMessages : Int := 0
  m_disconnectRequested : Bool := false
  m_lastConnectionErrorDateTime : Int := 0
  m_errorRead : Bool := false
  m_errorWrite : Bool := false
  m_errorWdog : Bool := false
  m_errorConnection : Bool := false
  calls : List SelcaCall := []
  utcNow : Int := 0
  deriving DecidableEq, Repr

/-- How a method ends: it returns a value, raises an exception, never returns because the
thread sleeps without limit, or the model ran out of the fuel that bounds a loop. -/
inductive Completion (α : Type)
  | returned (value : α)
  | raised (exception : String)
  | blocked
  | outOfFuel
  deriving DecidableEq, Repr

/-- Outcome the library gives to call `c` made in state `s`. -/
def SeLGeCLibrary.reply (lib : SeLGeCLibrary) (s : Selca) (c : SelcaCall) : SelcaResponse :=
  lib.respond (s.calls ++ [c])

/-- State after call `c` was made. -/
def Selca.issued (s : Selca) (c : SelcaCall) : Selca :=
  { s with calls := s.calls ++ [c] }

/-- State after `Thread::Sleep (milliseconds)`: the clock has advanced. -/
def Selca.slept (s : Selca) (milliseconds : Nat) : Selca :=
  { s with utcNow := s.utcNow + milliseconds * ticksPerMillisecond }

/-- Public constructor `Selca::Selca ()`: the messages are not used. -/
def Selca.new : Selca := {}

/-- Private constructor `Selca::Selca (bool useMessages)`. -/
def Selca.withMessages (useMessages : Bool) : Selca :=
  { m_useMessages := useMessages }

/-- `Selca::Disconnect`. -/
def Selca.Disconnect (s : Selca) (deleteConnection : Bool) : Selca :=
  if s.m_cookie = 0 then s
  else
    let s1 :=
      if s.m_connected = true then
        { ((s.issued (SelcaCall.SOLSetConnectionMode s.m_cookie false)).issued
            (SelcaCall.SOLCloseConnection s.m_cookie)) with
          m_connected := false
          m_ready := false }
      else s
    let s2 :=
      if deleteConnection = true then
        { s1.issued (SelcaCall.SOLDelete s1.m_cookie) with m_cookie := 0 }
      else s1
    { s2 with m_values := [] }

/-- `Selca::DisconnectAndFreeLibrary`. -/
def Selca.DisconnectAndFreeLibrary (lib : SeLGeCLibrary) (s : Selca) : Selca :=
  let s1 := Selca.Disconnect s true
  let cFree := SelcaCall.FreeLibrary s1.m_SeLGeCLibrary
  let rFree := lib.reply s1 cFree
  let s2 := s1.issued cFree
  let s3 := if rFree.flag = false then s2.issued (SelcaCall.UnmapViewOfFile s2.m_SeLGeCLibrary) else s2
  { s3 with m_SeLGeCLibrary := NULL }

/-- Expansion of the `API` macro of `LoadSeLGeCLibrary` over the methods: the first
`GetProcAddress` that returns `NULL` raises. -/
def Selca.bindApi (lib : SeLGeCLibrary) : List String → Selca → Completion Unit × Selca
  | [], s => (.returned (), s)
  | m :: ms, s =>
    let c := SelcaCall.GetProcAddress m
    let r := lib.reply s c
    let s1 := s.issued c
    if r.handle = NULL then (.raised "GetProcAddress failed", s1)
    else Selca.bindApi lib ms s1

/-- `Selca::LoadSeLGeCLibrary`. -/
def Selca.LoadSeLGeCLibrary (lib : SeLGeCLibrary) (s : Selca) : Completion Unit × Selca :=
  let dllName := DLL_NAME ++ ".dll"
  let c := SelcaCall.LoadLibraryW dllName
  let r := lib.reply s c
  let s1 := { s.issued c with m_SeLGeCLibrary := r.handle }
  if r.handle = NULL then (.raised ("Could not load " ++ dllName), s1)
  else Selca.bindApi lib lib.apiMethods s1

/-- The loop `for (int attempt = 0; ; ++attempt)` of `CheckConnection`, from the value `attempt`
of the counter.  `fuel` bounds the number of further turns of the loop; the loop is entered
with `NB_CONNECTION_ATTEMPT`, which the test `attempt < NB_CONNECTION_ATTEMPT` never
exhausts.  The result is true after the `break`, else what `CheckConnection` returns. -/
def Selca.tryConnection (lib : SeLGeCLibrary) (ipAddress : String) :
    Nat → Nat → Selca → Completion Bool × Selca
  | fuel, attempt, s =>
    let c := SelcaCall.SOLTryConnection s.m_cookie ipAddress
    let tryConnectionResult := (lib.reply s c).code
    let s1 := s.issued c
    if 0 = tryConnectionResult then (.returned true, s1)
    else if ERROR_CLASS_ALREADY_EXISTS = tryConnectionResult then
      let s2 := s1.slept CONNECTION_INIT_SLEEP_MS
      let cIs := SelcaCall.SOLisConnected s2.m_cookie
      let rIs := lib.reply s2 cIs
      let s3 := s2.issued cIs
      if rIs.flag = true then (.returned true, s3)
      else (.blocked, Selca.DisconnectAndFreeLibrary lib s3)
    else
      let s2 := s1.issued (SelcaCall.SOLCloseConnection s1.m_cookie)
      if attempt < NB_CONNECTION_ATTEMPT then
        match fuel with
        | 0 => (.outOfFuel, s2)
        | fuel + 1 =>
          Selca.tryConnection lib ipAddress fuel (attempt + 1) (s2.slept RECONNECT_SLEEP_MS)
      else
        let s3 := Selca.Disconnect s2 false
        (.returned false, { s3 with m_lastConnectionErrorDateTime := s3.utcNow })

/-- The part of `CheckConnection` that connects a session that is not connected. -/
def Selca.connect (lib : SeLGeCLibrary) (s : Selca) : Completion Bool × Selca :=
  match s.m_ipAddress with
  | none => (.returned false, s)
  | some ipAddress =>
    if s.utcNow - s.m_lastConnectionErrorDateTime <
        CONNECTION_ERROR_SLEEP_MS * ticksPerMillisecond then
      (.returned false, s)
    else
      match (if s.m_SeLGeCLibrary = NULL then Selca.LoadSeLGeCLibrary lib s
             else (Completion.returned (), s)) with
      | (.raised e, s1) => (.raised e, s1)
      | (.blocked, s1) => (.blocked, s1)
      | (.outOfFuel, s1) => (.outOfFuel, s1)
      | (.returned _, s1) =>
        let s2 :=
          if 0 ≠ s1.m_cookie then s1
          else
            { s1.issued SelcaCall.SOLCreate with
              m_cookie := (lib.reply s1 SelcaCall.SOLCreate).cookie }
        if 0 = s2.m_cookie then (.returned false, s2)
        else
          let s3 := s2.issued (SelcaCall.SOLSetConnectionMode s2.m_cookie false)
          let s4 :=
            if s3.m_useMessages = true then
              s3.issued (SelcaCall.SOLSetConnectionMode s3.m_cookie true)
            else s3
          let cGood := SelcaCall.SOLGoodTcpAddr s4.m_cookie ipAddress
          let rGood := lib.reply s4 cGood
          let s5 := s4.issued cGood
          if rGood.flag = false then (.returned false, s5)
          else
            match Selca.tryConnection lib ipAddress NB_CONNECTION_ATTEMPT 0 s5 with
            | (.returned true, s6) =>
              let s7 := s6.issued (SelcaCall.SOLSendPPInfo s6.m_cookie s6.m_sloDB s6.m_sloDBSize)
              (.returned true, { s7 with m_disconnectRequested := false, m_connected := true })
            | other => other

/-- `Selca::CheckConnection`. -/
def Selca.CheckConnection (lib : SeLGeCLibrary) (s : Selca) : Completion Bool × Selca :=
  let s1 := if s.m_disconnectRequested = true then Selca.Disconnect s false else s
  let s2 :=
    if s1.m_connected = true then
      let c := SelcaCall.SOLisConnected s1.m_cookie
      let r := lib.reply s1 c
      if r.flag = false then Selca.Disconnect (s1.issued c) false else s1.issued c
    else s1
  if s2.m_connected = false then Selca.connect lib s2 else (.returned true, s2)

/-! ## Selca: parameters -/

/-- Managed `String::Split (separator, count)` on one separator: at most `count` parts, the
last one holding the rest of the string. -/
def splitMax (separator : Char) : Nat → List Char → List (List Char)
  | 0, _ => []
  | 1, cs => [cs]
  | count + 2, cs =>
    match cs.span (fun c => c != separator) with
    | (part, []) => [part]
    | (part, _ :: rest) => part :: splitMax separator (count + 1) rest

/-- `Int16::Parse (s)`. -/
def Int16_Parse (s : String) : Except String Int :=
  match parseInteger s with
  | none => .error "FormatException"
  | some n => if -(2 ^ 15) ≤ n ∧ n < 2 ^ 15 then .ok n else .error "OverflowException"

/-- `Int16::TryParse (s, result)`. -/
def Int16_TryParse (s : String) : Option Int :=
  match Int16_Parse s with
  | .ok n => some n
  | .error _ => none

/-- `Selca::ParseParameter`: the `Slo_t` written, or the exception.  The domain is tested after
the type and the address, and `addr2` is assigned 0 after the test of the domain. -/
def Selca.ParseParameter (lib : SeLGeCLibrary) (parameter : String) : Except String Slo_t :=
  match (splitMax ':' 3 parameter.data).map String.mk with
  | [domain, address, type] =>
    let flag := lib.SLO_ENABLE ||| lib.SLO_OUTPUT ||| lib.SLO_INPUT
    let nature : Option Int :=
      if type = "NONE" then some lib.DATA_NONE
      else if type = "BOOL" then some lib.DATA_BOOL
      else if type = "WORD" then some lib.DATA_WORD
      else if type = "DWORD" then some lib.DATA_DWORD
      else if type = "FLOAT" then some lib.DATA_FLOAT
      else if type = "STRING" then some lib.DATA_STRING
      else none
    match nature with
    | none => .error "Invalid data type"
    | some nature =>
      match Int16_Parse address with
      | .error e => .error e
      | .ok addr1 =>
        let addr2 : Option Int :=
          if domain = "PLC" then some 0
          else if domain = "DISPL" then some 1
          else if domain = "GENERAL" then some 2
          else none
        match addr2 with
        | none => .error "Invalid domain"
        | some addr2 =>
          let slo : Slo_t :=
            { flag := flag, nature := nature, device := 0, addr1 := addr1, addr2 := addr2 }
          .ok { slo with addr2 := 0, addr3 := 0, mask := 1, dfo := -1, name := "" }
  | _ => .error "IndexOutOfRangeException"

/-- `Selca::CheckParameter`. -/
def Selca.CheckParameter (lib : SeLGeCLibrary) (parameter : String) : Bool :=
  match Selca.ParseParameter lib parameter with
  | .ok _ => true
  | .error _ => false

/-- The block `if (!m_sloDBInitialized)` of `Start`: the parameters that do not parse are
removed from the list, the others are parsed in order into `m_sloDB`. -/
def Selca.initSloDB (lib : SeLGeCLibrary) (s : Selca) : Selca :=
  if s.m_sloDBInitialized = false then
    let kept := s.m_parameters.filter (Selca.CheckParameter lib)
    { s with
      m_parameters := kept
      m_sloDB := kept.filterMap (fun p => (Selca.ParseParameter lib p).toOption)
      m_sloDBSize := kept.length
      m_sloDBInitialized := true }
  else s

/-! ## Selca: the cycle -/

/-- The body of the `do` loop of `Start` after `SOLGetMessage`: what is done with the message.
The message is the one `SOLGetMessage` points to; the indexer of `m_parameters` raises on an
index out of the list; `error & (int) ERR_READ` is taken on the 32 bits of the operands. -/
def Selca.processMessage (lib : SeLGeCLibrary) (s : Selca) (message : SLMsg_t) :
    Completion Unit × Selca :=
  if -1 = message.sloid then (.returned (), s)
  else if -2 = message.sloid then
    if message.datas = "BUSY" then (.returned (), Selca.Disconnect s false)
    else if message.datas = "IDENTIFY" then
      (.returned (),
        s.issued (SelcaCall.SOLSendMessage s.m_cookie
          { dest := lib.DEV_SKM_USER, datas := "", sloid := 0 } 1))
    else if message.datas = "READY" then (.returned (), { s with m_ready := true })
    else if message.datas = "PLCREADY" then (.returned (), { s with m_ready := true })
    else if message.datas = "KILLED" then (.returned (), Selca.Disconnect s false)
    else (.returned (), s)
  else
    let s1 := { s with m_ready := true }
    let v := message.datas
    if message.dest = lib.DEV_SOI then
      if 0 ≤ message.sloid ∧ message.sloid < s1.m_parameters.length then
        let parameter := s1.m_parameters.getD message.sloid.toNat ""
        (.returned (), { s1 with m_values := dictSet s1.m_values parameter v })
      else (.raised "ArgumentOutOfRangeException", s1)
    else if message.dest = lib.DEV_SOI_ERR then
      match Int16_TryParse v with
      | some error =>
        let s2 :=
          if toDWORD error &&& lib.ERR_READ ≠ 0 then { s1 with m_errorRead := true } else s1
        let s3 :=
          if toDWORD error &&& lib.ERR_WRITE ≠ 0 then { s2 with m_errorWrite := true } else s2
        let s4 :=
          if toDWORD error &&& lib.ERR_WDOG ≠ 0 then { s3 with m_errorWdog := true } else s3
        (.returned (), s4)
      | none => (.returned (), s1)
    else (.returned (), s1)

/-- The loop `do { ... } while (!SOLisReceiveBufferEmpty (m_cookie))` of `Start`; `fuel` bounds
the number of messages read.  The result is what `Start` returns. -/
def Selca.drain (lib : SeLGeCLibrary) : Nat → Selca → Completion Bool × Selca
  | 0, s => (.outOfFuel, s)
  | fuel + 1, s =>
    match Selca.CheckConnection lib s with
    | (.returned false, s1) =>
      (.returned true, { s1 with m_pendingMessages := 1, m_errorConnection := true })
    | (.returned true, s1) =>
      let cGet := SelcaCall.SOLGetMessage s1.m_cookie
      let message := (lib.reply s1 cGet).message
      let s2 := s1.issued cGet
      match Selca.processMessage lib s2 message with
      | (.returned _, s3) =>
        let cEmpty := SelcaCall.SOLisReceiveBufferEmpty s3.m_cookie
        let rEmpty := lib.reply s3 cEmpty
        let s4 := s3.issued cEmpty
        if rEmpty.flag = false then Selca.drain lib fuel s4 else (.returned true, s4)
      | (.raised e, s3) => (.raised e, s3)
      | (.blocked, s3) => (.blocked, s3)
      | (.outOfFuel, s3) => (.outOfFuel, s3)
    | (.raised e, s1) => (.raised e, s1)
    | (.blocked, s1) => (.blocked, s1)
    | (.outOfFuel, s1) => (.outOfFuel, s1)

/-- `Interlocked::CompareExchange (m_pendingMessages, value, comparand)`: the flag takes
`value` when it equals `comparand`; the result is the flag before. -/
def Selca.CompareExchange (s : Selca) (value comparand : Int) : Int × Selca :=
  (s.m_pendingMessages,
    if s.m_pendingMessages = comparand then { s with m_pendingMessages := value } else s)

/-- The `try` block of `Start`. -/
def Selca.startBody (lib : SeLGeCLibrary) (fuel : Nat) (s : Selca) : Completion Bool × Selca :=
  let s1 := Selca.initSloDB lib s
  match Selca.CheckConnection lib s1 with
  | (.returned false, s2) => (.returned true, { s2 with m_errorConnection := true })
  | (.returned true, s2) =>
    if s2.m_useMessages = true then
      let exchange := Selca.CompareExchange s2 0 1
      if 0 = exchange.1 then (.returned true, exchange.2) else Selca.drain lib fuel exchange.2
    else Selca.drain lib fuel s2
  | other => other

/-- The four assignments that open `Start`. -/
def Selca.resetErrors (s : Selca) : Selca :=
  { s with
    m_errorRead := false
    m_errorWrite := false
    m_errorWdog := false
    m_errorConnection := false }

/-- `Selca::Start`; `fuel` bounds the number of messages read. -/
def Selca.Start (lib : SeLGeCLibrary) (fuel : Nat) (s : Selca) : Completion Bool × Selca :=
  let s0 := Selca.resetErrors s
  if s0.m_parametersInitialization = true then (.returned true, s0)
  else
    match Selca.startBody lib fuel s0 with
    | (.raised _, s1) =>
      (.returned true,
        { Selca.Disconnect s1 false with m_pendingMessages := 1, m_errorConnection := true })
    | other => other

/-- `Selca::Finish`. -/
def Selca.Finish (s : Selca) : Selca :=
  { s with m_parametersInitialization := false }

/-- `Selca::GetString`. -/
def Selca.GetString (lib : SeLGeCLibrary) (s : Selca) (parameter : String) :
    Except String String × Selca :=
  if s.m_parametersInitialization = true then
    let s1 :=
      if Selca.CheckParameter lib parameter = true then
        { s with m_parameters := s.m_parameters ++ [parameter] }
      else s
    (.error "Initialization", s1)
  else if s.m_ready = false then (.error "Connection not ready", s)
  else
    match dictGet s.m_values parameter with
    | some v => (.ok v, s)
    | none => (.error "No data", s)

/-- `Selca::ProcessTcpMsg`, the callback the library runs between two calls of the module. -/
def Selca.ProcessTcpMsg (s : Selca) (code : Int) : Selca :=
  if code = SLC_DISCONNECT then { s with m_disconnectRequested := true }
  else if code = SLC_MSG then (Selca.CompareExchange s 1 0).2
  else s

/-! ## Selca: observations -/

/-- A connected session has a cookie, and a session that is not connected is not ready and
holds no value. -/
def Selca.Invariant (s : Selca) : Prop :=
  (s.m_connected = true → s.m_cookie ≠ 0) ∧
  (s.m_connected = false → s.m_ready = false ∧ s.m_values = [])

/-- Number of calls of `SOLTryConnection` in a history. -/
def tryConnectionCount (l : List SelcaCall) : Nat :=
  l.countP SelcaCall.isTryConnection

/-- The second state extends the history of the first by calls other than `SOLGetMessage`, and
has the same address, use of the messages and pending flag. -/
def Selca.Step (s t : Selca) : Prop :=
  (∃ tr, t.calls = s.calls ++ tr ∧ ∀ c ∈ tr, SelcaCall.isGetMessage c = false) ∧
  t.m_ipAddress = s.m_ipAddress ∧ t.m_useMessages = s.m_useMessages ∧
  t.m_pendingMessages = s.m_pendingMessages

/-! ## Selca: sample inputs -/

/-- A library with sample constants, the names of the primitives the module calls, and the
given outcomes. -/
def sampleSeLGeC (respond : List SelcaCall → SelcaResponse) : SeLGeCLibrary :=
  { DEV_SOI := 1, DEV_SOI_ERR := 2, DEV_SKM_USER := 3,
    ERR_READ := 1, ERR_WRITE := 2, ERR_WDOG := 4,
    SLO_ENABLE := 1, SLO_OUTPUT := 2, SLO_INPUT := 4,
    DATA_NONE := 0, DATA_BOOL := 1, DATA_WORD := 2, DATA_DWORD := 3, DATA_FLOAT := 4,
    DATA_STRING := 5,
    apiMethods := ["SOLCreate", "SOLDelete", "SOLSetConnectionMode", "SOLGoodTcpAddr",
      "SOLTryConnection", "SOLisConnected", "SOLCloseConnection", "SOLSendPPInfo",
      "SOLGetMessage", "SOLSendMessage", "SOLisReceiveBufferEmpty"],
    respond := respond }

/-- The control refuses every connection: `SOLTryConnection` returns 1; the cookie is 9. -/
def refusingSeLGeC : SeLGeCLibrary :=
  sampleSeLGeC (fun _ => { cookie := 9, code := 1 })

/-- `SOLTryConnection` returns `ERROR_CLASS_ALREADY_EXISTS` and `SOLisConnected` false. -/
def ambiguousSeLGeC : SeLGeCLibrary :=
  sampleSeLGeC (fun history =>
    match history.getLast? with
    | some (SelcaCall.SOLisConnected _) => { cookie := 9, flag := false }
    | _ => { cookie := 9, code := 1410 })

/-- Every call succeeds, and `SOLGetMessage` gives the message `message`. -/
def messageSeLGeC (message : SLMsg_t) : SeLGeCLibrary :=
  sampleSeLGeC (fun _ => { cookie := 9, message := message })

/-- An object of the public constructor with an address and one parameter, after `Finish`,
at a time long after `DateTime::MinValue`. -/
def selcaIdle : Selca :=
  Selca.Finish
    { Selca.new with
      m_ipAddress := some "10.0.0.1"
      m_parameters := ["PLC:100:WORD"]
      utcNow := 638000000000000000 }

/-- The same object when it uses the messages. -/
def selcaIdleWithMessages : Selca :=
  { selcaIdle with m_useMessages := true }

/-- A session that never connected, with the library loaded and the cookie 9. -/
def selcaLoaded : Selca :=
  { selcaIdle with m_SeLGeCLibrary := 1, m_cookie := 9 }

/-- The session `selcaLoaded` one second after a connection error. -/
def selcaCooling : Selca :=
  { selcaLoaded with m_lastConnectionErrorDateTime := 637999999999990000 }

/-- A connected session that holds a value. -/
def selcaRunning : Selca :=
  { selcaIdle with
    m_SeLGeCLibrary := 1, m_sloDBInitialized := true, m_sloDBSize := 1, m_cookie := 9,
    m_connected := true, m_ready := true, m_values := [("PLC:100:WORD", "12")] }

/-! ## Host library: splitting and rounding -/

/-- `Char::IsWhiteSpace`: the separators `String::Split` uses when it is given no separator. -/
def Char_IsWhiteSpace (c : Char) : Bool :=
  isParseWhite c || c.toNat == 0x85 || c.toNat == 0xA0 || c.toNat == 0x1680 ||
    (0x2000 ≤ c.toNat && c.toNat ≤ 0x200A) || c.toNat == 0x2028 || c.toNat == 0x2029 ||
    c.toNat == 0x202F || c.toNat == 0x205F || c.toNat == 0x3000

/-- The parts of a text between the separators, the empty ones included: one part more than
there are separators. -/
def splitOn (isSeparator : Char → Bool) : List Char → List (List Char)
  | [] => [[]]
  | c :: cs =>
    if isSeparator c then [] :: splitOn isSeparator cs
    else
      match splitOn isSeparator cs with
      | [] => [[c]]
      | part :: parts => (c :: part) :: parts

/-- `parameters->Split (gcnew array<Char> {',', ';'})`. -/
def splitParameters (parameters : String) : List String :=
  (splitOn (fun c => c == ',' || c == ';') parameters.data).map String.mk

/-- `line->Split ((array<Char>^) nullptr, StringSplitOptions::RemoveEmptyEntries)`: the parts
between white space that are not empty. -/
def splitWhiteSpace (line : String) : List String :=
  ((splitOn Char_IsWhiteSpace line.data).filter (fun part => !part.isEmpty)).map String.mk

/-- The indexer `array[index]` of a managed array: it raises on an index out of the array. -/
def arrayGet (array : List String) (index : Int) : Except String String :=
  if 0 ≤ index ∧ index < array.length then .ok (array.getD index.toNat "")
  else .error "IndexOutOfRangeException"

/-- The decimal numeral written by the string in the style `NumberStyles::Float` of the culture
en-US, as an exact number: as `parseFloat`, without group separators. -/
def parseFloatStrict (s : String) : Option ℚ :=
  let signed := splitSign (trimWhite s.data)
  let intDigits := signed.2.takeWhile Char.isDigit
  let afterInt := signed.2.dropWhile Char.isDigit
  let fraction := match afterInt with
    | '.' :: rest => (rest.takeWhile Char.isDigit, rest.dropWhile Char.isDigit)
    | rest => ([], rest)
  if intDigits = [] ∧ fraction.1 = [] then none
  else
    match parseExponent fraction.2 with
    | none => none
    | some e =>
      let mantissa : Int := digitsToNat (intDigits ++ fraction.1)
      let signedMantissa : Int := if signed.1 then -mantissa else mantissa
      let exponent : Int := e - fraction.1.length
      if 0 ≤ exponent then some (mkRat (signedMantissa * 10 ^ exponent.toNat) 1)
      else some (mkRat signedMantissa (10 ^ (-exponent).toNat))

/-- `Int32::TryParse (s, result)`. -/
def Int32_TryParse (s : String) : Option Int :=
  match Int32_Parse s with
  | .ok n => some n
  | .error _ => none

/-- `Boolean::TryParse (s, result)`: `True` or `False` in any case, between white space. -/
def Boolean_TryParse (s : String) : Option Bool :=
  let word := String.mk ((trimWhite s.data).map Char.toLower)
  if word = "true" then some true
  else if word = "false" then some false
  else none

/-- `Int32::MaxValue`. -/
def Int32_MaxValue : Int := 2147483647

/-- `Math::Round (x)`: the nearest integer, the even one when `x` is halfway between two. -/
def Math_Round (x : ℚ) : Int :=
  let lower := Int.fdiv x.num x.den
  let twice := 2 * (x.num - lower * x.den)
  if twice < x.den then lower
  else if (x.den : Int) < twice then lower + 1
  else if lower % 2 = 0 then lower
  else lower + 1

/-- `Path::GetFileNameWithoutExtension (path)`: what follows the last `\`, `/` or `:`, up to
its last `.`. -/
def Path_GetFileNameWithoutExtension (path : String) : String :=
  let isSeparator := fun (c : Char) => c == '\\' || c == '/' || c == ':'
  let fileName := (path.data.reverse.takeWhile (fun c => !isSeparator c)).reverse
  if fileName.contains '.' then
    String.mk ((fileName.reverse.dropWhile (fun c => c != '.')).drop 1).reverse
  else String.mk fileName

/-! ## Host library: the type `double` -/

/-- A value of the type `double`, IEEE 754 binary64: a finite number, an infinity or NaN.  The
two zeros are one value: they compare equal and the conversion `(Int32)` makes 0 of both. -/
inductive Double
  | finite (value : ℚ)
  | infinity (negative : Bool)
  | nan
  deriving DecidableEq, Repr

/-- The comparison `x != y` of two values of type `double`: NaN differs from every value,
itself included. -/
def Double.ne : Double → Double → Bool
  | .nan, _ => true
  | _, .nan => true
  | x, y => decide (x ≠ y)

/-- The integer nearest to `n / d`, the even one when two integers are equally near. -/
def roundHalfEven (n d : Nat) : Nat :=
  if 2 * (n % d) < d then n / d
  else if d < 2 * (n % d) then n / d + 1
  else if n / d % 2 = 0 then n / d
  else n / d + 1

/-- The fraction `n / d` divided by `2 ^ e`. -/
def scaleByPowerOfTwo (n d : Nat) (e : Int) : Nat × Nat :=
  if 0 ≤ e then (n, d * 2 ^ e.toNat) else (n * 2 ^ (-e).toNat, d)

/-- The number of binary digits of `n`, with `fuel` at least this number: the least `k` with
`n < 2 ^ k`. -/
def bitLength : Nat → Nat → Nat
  | 0, _ => 0
  | fuel + 1, n => if n = 0 then 0 else bitLength fuel (n / 2) + 1

/-- The exponent of the last bit of the 53-bit significand of the binary64 numbers next to
`n / d`, for `n` and `d` above 0: 52 below the exponent of the leading bit of `n / d`, and
-1074, the exponent of the last bit of the subnormal numbers, when this is lower. -/
def binary64Exponent (n d : Nat) : Int :=
  let k : Int := (bitLength n n : Int) - (bitLength d d : Int)
  let scaled := scaleByPowerOfTwo n d k
  let leading : Int := if scaled.2 ≤ scaled.1 then k else k - 1
  max (leading - 52) (-1074)

/-- The binary64 number nearest to `n / d`, for `d` above 0, the one with an even significand
when two are equally near; nothing when this number is `2 ^ 1024` or more, beyond the largest
finite `double`. -/
def roundBinary64 (n d : Nat) : Option ℚ :=
  if n = 0 then some 0
  else
    let e := binary64Exponent n d
    let scaled := scaleByPowerOfTwo n d e
    let significand := roundHalfEven scaled.1 scaled.2
    if 0 ≤ e then
      if 2 ^ 1024 ≤ significand * 2 ^ e.toNat then none
      else some (mkRat (significand * 2 ^ e.toNat : Nat) 1)
    else some (mkRat significand (2 ^ (-e).toNat))

/-- The `double` a number rounds to in the rounding mode of the host, to nearest with ties to
even: an infinity when the number is beyond the range of the finite values. -/
def Double.ofRat (x : ℚ) : Double :=
  match roundBinary64 x.num.natAbs x.den with
  | some magnitude => .finite (if x.num < 0 then -magnitude else magnitude)
  | none => .infinity (decide (x.num < 0))

/-- The conversion of an `int` to `double`, which is exact. -/
def Double.ofInt32 (n : Int) : Double :=
  .finite n

/-- The product `x * y` of two values of type `double`: the exact product rounded to a
`double`. -/
def Double.mul : Double → Double → Double
  | .nan, _ => .nan
  | _, .nan => .nan
  | .infinity negative, .infinity negative2 => .infinity (xor negative negative2)
  | .infinity negative, .finite y =>
    if y = 0 then .nan else .infinity (xor negative (decide (y < 0)))
  | .finite x, .infinity negative =>
    if x = 0 then .nan else .infinity (xor (decide (x < 0)) negative)
  | .finite x, .finite y => Double.ofRat (x * y)

/-- `Math::Round (d)` on a `double`: the nearest integer as a `double`, the even one when `d`
is halfway between two; an infinity and NaN are returned as they are. -/
def Double.Round : Double → Double
  | .finite x => .finite (Math_Round x)
  | d => d

/-- The readers of the host library for the type `double`, and the value the host gives where
the conversion to `Int32` is unspecified.  What a reader makes of a string depends on the
version of the host (rounding of long numerals, numerals beyond the range of `double`, symbols
of infinity and NaN); the methods of the module are defined for every host. -/
structure HostLibrary where
  /-- `Double::TryParse (s, NumberStyles::Float, culture, result)` for the culture en-US: the
  result, or nothing when it returns false. -/
  Double_TryParse : String → Option Double
  /-- `Double::Parse (s, culture)` for the culture en-US: the value, or the exception. -/
  Double_Parse : String → Except String Double
  /-- The 32 bits the instruction `conv.i4` leaves for a `double` that is NaN or whose integral
  part is out of the range of `Int32`: the result is unspecified there. -/
  conv_i4_unspecified : Double → Int

/-- The conversion `(Int32) d` of a `double`: the fraction is dropped; the value is unspecified
when the result is not in the range of `Int32`, and is a 32-bit integer still. -/
def Double.toInt32 (host : HostLibrary) (d : Double) : Int :=
  let unspecified := (host.conv_i4_unspecified d + 2 ^ 31) % 2 ^ 32 - 2 ^ 31
  match d with
  | .finite x =>
    if -(2 ^ 31) ≤ doubleToInt32 x ∧ doubleToInt32 x < 2 ^ 31 then doubleToInt32 x
    else unspecified
  | _ => unspecified

/-- `String::Trim ()`: the text without the white space at both ends. -/
def String_Trim (s : String) : String :=
  String.mk ((s.data.dropWhile Char_IsWhiteSpace).reverse.dropWhile Char_IsWhiteSpace).reverse

/-- A reader of `double` as the .NET Framework has it: the numeral `numeral` finds in the
string is rounded to the nearest `double`, and is refused when it is beyond the range of
`double`; a string without a numeral is read when, trimmed, it is one of the symbols
`Infinity`, `-Infinity` and `NaN` of the culture en-US. -/
def readDouble (numeral : String → Option ℚ) (s : String) : Except String Double :=
  match numeral s with
  | some x =>
    match Double.ofRat x with
    | .infinity _ => .error "OverflowException"
    | d => .ok d
  | none =>
    if String_Trim s = "Infinity" then .ok (.infinity false)
    else if String_Trim s = "-Infinity" then .ok (.infinity true)
    else if String_Trim s = "NaN" then .ok .nan
    else .error "FormatException"

/-! ## Table lines -/

/-- `HeidenhainLsv2::GetTableLineValue (tableName, condition, column)`. -/
def GetTableLineValue (lib : Lsv2Library) (s : HeidenhainLsv2) (tableName condition : String)
    (column : Int) : Outcome String :=
  match GetTableLine lib s tableName condition with
  | (.error e, s1) => (.error e, s1)
  | (.ok line, s1) => (arrayGet (splitWhiteSpace line) column, s1)

/-- `HeidenhainLsv2::GetTableLineDoubleValue (tableName, condition, column)`. -/
def GetTableLineDoubleValue (host : HostLibrary) (lib : Lsv2Library) (s : HeidenhainLsv2)
    (tableName condition : String) (column : Int) : Outcome Double :=
  match GetTableLineValue lib s tableName condition column with
  | (.error e, s1) => (.error e, s1)
  | (.ok value, s1) => (host.Double_Parse value, s1)

/-- `HeidenhainLsv2::GetTableLineValueWithMultiplier (tableName, condition, column)`:
`(Int32)Math::Round (rawResult * m_multiplier)`, where the `int` member `m_multiplier` is
converted to `double` for the product. -/
def GetTableLineValueWithMultiplier (host : HostLibrary) (lib : Lsv2Library)
    (s : HeidenhainLsv2) (tableName condition : String) (column : Int) : Outcome Int :=
  match GetTableLineDoubleValue host lib s tableName condition column with
  | (.error e, s1) => (.error e, s1)
  | (.ok rawResult, s1) =>
    (.ok (Double.toInt32 host
      (Double.Round (Double.mul rawResult (Double.ofInt32 s1.m_multiplier)))), s1)

/-- The loop `for each (String^ v in values)` of `GetTableLineNotNullValue` with its flag
`skip`, and the value returned after it: `0.0`.  The test of a token is
`double::TryParse (v, ...) && (doubleValue != 0.0)`.  The call of the logger before
`return doubleValue` is taken to return, as every call of the logger is; its format names the
argument of index 1 and it is given one argument. -/
def notNullScan (host : HostLibrary) : Bool → List String → Double
  | _, [] => .finite 0
  | true, _ :: values => notNullScan host false values
  | false, v :: values =>
    match host.Double_TryParse v with
    | some doubleValue =>
      if doubleValue.ne (.finite 0) = true then doubleValue else notNullScan host false values
    | none => notNullScan host false values

/-- `HeidenhainLsv2::GetTableLineNotNullValue (tableName, condition)`. -/
def GetTableLineNotNullValue (host : HostLibrary) (lib : Lsv2Library) (s : HeidenhainLsv2)
    (tableName condition : String) : Outcome Double :=
  match GetTableLine lib s tableName condition with
  | (.error e, s1) => (.error e, s1)
  | (.ok line, s1) => (.ok (notNullScan host true (splitWhiteSpace line)), s1)

/-- The scan as the specification words it: the first of the tokens after the first one that
is read as a number different from 0, and 0 when there is none. -/
def firstNotNullAfterFirst (host : HostLibrary) (tokens : List String) : Double :=
  (((tokens.drop 1).filterMap host.Double_TryParse).find?
    (fun value => value.ne (.finite 0))).getD (.finite 0)

/-! ## Position of the axes -/

/-- `HeidenhainLsv2::GetStringValueFromFileName (parameters)`; `none` is the null pointer.  The
test before the skip time is `params->Length >= 3`, and the handler of the `try` block reads
`params[3]` again for the log before it raises its own exception. -/
def GetStringValueFromFileNameParameters (lib : Lsv2Library) (s : HeidenhainLsv2)
    (parameters : Option String) : Outcome String :=
  match parameters with
  | none => (.error "empty parameters argument", s)
  | some parameters =>
    if parameters = "" then (.error "empty parameters argument", s)
    else
      let params := splitParameters parameters
      if params.length < 3 then (.error "not enough parameters in parameters argument", s)
      else
        let maxFileNumber : Int :=
          match Int32_TryParse (params.getD 2 "") with
          | some n => n
          | none =>
            match Boolean_TryParse (params.getD 2 "") with
            | some deleteRemoteFiles => if deleteRemoteFiles then 1 else Int32_MaxValue
            | none => Int32_MaxValue
        let skipTime : Except String Int :=
          if params.length ≥ 3 then
            match arrayGet params 3 with
            | .error e => .error e
            | .ok text =>
              match Int32_Parse text with
              | .ok n => .ok n
              | .error _ => .error "Invalid skipTime parameter"
          else .ok 10
        match skipTime with
        | .error e => (.error e, s)
        | .ok skipTime =>
          let suffix := if params.length > 4 then some (params.getD 4 "") else none
          GetStringValueFromFileName lib s (params.getD 1 "") maxFileNumber skipTime suffix

/-! ## Downloaded table -/

/-- The loop `for (int i = 0; (i < names->Length) && (i < values->Length); ++i)` of
`DownloadReadTable`: the table after it, and the exception of the first value that is not a
number. -/
def fillTable (table : List (String × ℚ)) : List String → List String →
    Except String Unit × List (String × ℚ)
  | name :: names, value :: values =>
    match Double_Parse value with
    | .error e => (.error e, table)
    | .ok doubleValue => fillTable (dictSet table name doubleValue) names values
  | _, _ => (.ok (), table)

/-- Step 4 of `DownloadReadTable` on the lines that are left in the stream: the value of
`found` after the loop, or the exception, and the table.  After the line that starts with `NR`
the next line is read; the loop is left without a value when the stream is at its end then. -/
def readTable (table : List (String × ℚ)) : List String →
    Except String Bool × List (String × ℚ)
  | [] => (.ok false, table)
  | line :: rest =>
    if "NR".data.isPrefixOf line.data then
      match rest with
      | [] => (.ok false, table)
      | [_] => (.ok false, table)
      | valuesLine :: _ :: _ =>
        match fillTable table (splitWhiteSpace line) (splitWhiteSpace valuesLine) with
        | (.error e, filled) => (.error e, filled)
        | (.ok _, filled) => (.ok true, filled)
    else readTable table rest

/-- The name of the local file of `DownloadReadTable`. -/
def localTableFile (s : HeidenhainLsv2) (tableName : String) : String :=
  Path_GetFileNameWithoutExtension tableName ++ "-" ++ toString s.CncAcquisitionId ++ ".TAB"

/-- Step 1 of `DownloadReadTable`: the date of the download is set and less than `skipTime`
seconds old.  `TotalSeconds < skipTime` is compared on the ticks. -/
def downloadIsRecent (s : HeidenhainLsv2) (skipTime : Int) : Bool :=
  match s.m_downloadDateTime with
  | some downloadDateTime => decide (s.now - downloadDateTime < skipTime * 10000000)
  | none => false

/-- `HeidenhainLsv2::DownloadReadTable`.  The file read in step 4 is the one `LSV2ReceiveFile`,
the last call of a `ReceiveFile` that returns true, has written. -/
def DownloadReadTable (lib : Lsv2Library) (s : HeidenhainLsv2) (tableName : String)
    (skipTime : Int) : Outcome Bool :=
  if downloadIsRecent s skipTime then (.ok true, s)
  else
    let s1 := { s with m_downloadTableValues := [] }
    match ReceiveFile lib s1 tableName (localTableFile s1 tableName) false with
    | (.error e, s2) => (.error e, s2)
    | (.ok false, s2) => (.ok false, s2)
    | (.ok true, s2) =>
      let s3 := { s2 with m_downloadDateTime := some s2.now }
      match readTable s3.m_downloadTableValues (lib.respond s3.calls).lines with
      | (.error e, table) => (.error e, { s3 with m_downloadTableValues := table })
      | (.ok true, table) => (.ok true, { s3 with m_downloadTableValues := table })
      | (.ok false, _) => (.ok false, { s3 with m_downloadTableValues := [] })

/-- `HeidenhainLsv2::GetValueFromDownloadedTable (tableName, valueName, skipTime)`. -/
def GetValueFromDownloadedTable (lib : Lsv2Library) (s : HeidenhainLsv2)
    (tableName valueName : String) (skipTime : Int) : Outcome Int :=
  match DownloadReadTable lib s tableName skipTime with
  | (.error e, s1) => (.error e, s1)
  | (.ok false, s1) => (.error "DownloadReadTable failed", s1)
  | (.ok true, s1) =>
    match dictGet s1.m_downloadTableValues valueName with
    | none => (.error "Value is undefined", s1)
    | some value => (.ok (Math_Round (value * s1.m_multiplier)), s1)

/-! ## Selca: runs of the object -/

/-- A step of a run of a `Selca` object: the setter of the address, a public method, the two
private methods of the connection, the callback of the library, or time that passes between
two calls. -/
inductive SelcaOperation
  | SetIPAddress (value : Option String)
  | Elapse (ticks : Nat)
  | Start (fuel : Nat)
  | Finish
  | GetString (parameter : String)
  | CheckConnection
  | Disconnect (deleteConnection : Bool)
  | ProcessTcpMsg (code : Int)

/-- The object after the operation, however it ended. -/
def SelcaOperation.run (lib : SeLGeCLibrary) : SelcaOperation → Selca → Selca
  | .SetIPAddress value, s => { s with m_ipAddress := value }
  | .Elapse ticks, s => { s with utcNow := s.utcNow + ticks }
  | .Start fuel, s => (Selca.Start lib fuel s).2
  | .Finish, s => Selca.Finish s
  | .GetString parameter, s => (Selca.GetString lib s parameter).2
  | .CheckConnection, s => (Selca.CheckConnection lib s).2
  | .Disconnect deleteConnection, s => Selca.Disconnect s deleteConnection
  | .ProcessTcpMsg code, s => Selca.ProcessTcpMsg s code

/-- The states a `Selca` object can be in: after one of the two constructors and any sequence
of operations. -/
def Selca.Reachable (lib : SeLGeCLibrary) (s : Selca) : Prop :=
  ∃ (useMessages : Bool) (ops : List SelcaOperation),
    s = ops.foldl (fun t op => op.run lib t) (Selca.withMessages useMessages)

/-! ## Selca: the documented pattern of a parameter -/

/-- The documented syntax `(PLC|DISPL|GENERAL):[0-9]*:(NONE|BOOL|WORD|DWORD|FLOAT|STRING)` of
a parameter, as the comment of `CheckParameter` writes it. -/
def matchesDocumentedPattern (parameter : String) : Bool :=
  match (splitMax ':' 3 parameter.data).map String.mk with
  | [domain, address, type] =>
    (domain = "PLC" || domain = "DISPL" || domain = "GENERAL") && address.data.all Char.isDigit &&
      (type = "NONE" || type = "BOOL" || type = "WORD" || type = "DWORD" || type = "FLOAT" ||
        type = "STRING")
  | _ => false

/-! ## Observations on the readers -/

/-- The settings of the readers: the multiplier and the names configured for the nine logical
axes. -/
def settingsOf (s : HeidenhainLsv2) :
    Int × String × String × String × String × String × String × String × String × String :=
  (s.m_multiplier, s.m_xAxisName, s.m_yAxisName, s.m_zAxisName, s.m_uAxisName, s.m_vAxisName,
    s.m_wAxisName, s.m_aAxisName, s.m_bAxisName, s.m_cAxisName)

/-! ## Sample inputs of the readers -/

/-- A run of a `Selca` object: long after `DateTime::MinValue` the address is set and a
parameter is registered during the initialization, which `Finish` ends; then a cycle is
started with fuel for five messages. -/
def selcaCycleRun : List SelcaOperation :=
  [SelcaOperation.Elapse 638000000000000000, SelcaOperation.SetIPAddress (some "10.0.0.1"),
    SelcaOperation.GetString "PLC:100:WORD", SelcaOperation.Finish, SelcaOperation.Start 5]

/-- Every call succeeds and `LSV2ReceiveTableLine` gives the line `line`. -/
def tableLibrary (line : String) : Lsv2Library :=
  sampleLibrary (fun _ => { handle := 7, text := line })

/-- A host library with the readers of the .NET Framework, which round a numeral to the nearest
`double`; the conversion of a value out of the range of `Int32` gives `Int32::MinValue`, as the
processors x86 and x64 do. -/
def ieeeHost : HostLibrary :=
  { Double_TryParse := fun s => (readDouble parseFloatStrict s).toOption
    Double_Parse := readDouble parseFloat
    conv_i4_unspecified := fun _ => -2147483648 }

/-- Every call succeeds and `LSV2ReceiveFile` writes the lines `lines`. -/
def fileLibrary (lines : List String) : Lsv2Library :=
  sampleLibrary (fun _ => { handle := 7, lines := lines })

/-- No connection can be opened: `LSV2Open` fails. -/
def unreachableLibrary : Lsv2Library :=
  sampleLibrary (fun _ => { ok := false, lastError := 1001 })

/-- Every call succeeds; the control reports a model and a version that hold none of the
texts the module looks for. -/
def tnc320Library : Lsv2Library :=
  sampleLibrary (fun _ => { handle := 7, ncModel := "TNC320", ncVersion := "771851 04" })

/-! ## Lemmas on the teardown steps -/

theorem sessionCalls_append (l₁ l₂ : List VendorCall) :
    sessionCalls (l₁ ++ l₂) = sessionCalls l₁ ++ sessionCalls l₂ := by
  simp [sessionCalls]

theorem sessionCalls_errorText (l : List VendorCall) (h : ∀ c ∈ l, c.isErrorText = true) :
    sessionCalls l = [] := by
  simp only [sessionCalls, List.filter_eq_nil_iff]
  intro c hc
  simp [h c hc]

theorem LogLsv2Error_eq (lib : Lsv2Library) (s : HeidenhainLsv2) :
    ∃ errs le, (∀ c ∈ errs, c.isErrorText = true) ∧
      (LogLsv2Error lib s).2 = { s with calls := s.calls ++ errs, lastError := le } := by
  refine ⟨[VendorCall.LSV2GetErrStringEx s.m_hPort s.lastError, VendorCall.LSV2GetTCPErrorDetails],
    (LogLsv2Error lib s).2.lastError, ?_, ?_⟩
  · intro c hc
    simp only [List.mem_cons, List.mem_singleton, List.not_mem_nil, or_false] at hc
    rcases hc with rfl | rfl <;> rfl
  · simp [LogLsv2Error, HeidenhainLsv2.issued]

theorem logoutStep_eq (lib : Lsv2Library) (s : HeidenhainLsv2) (capability : String) :
    ∃ errs le, (∀ c ∈ errs, c.isErrorText = true) ∧
      logoutStep lib s capability =
        { s with calls := s.calls ++ VendorCall.LSV2Logout s.m_hPort capability :: errs,
                 lastError := le } := by
  unfold logoutStep
  by_cases hok : (lib.reply s (VendorCall.LSV2Logout s.m_hPort capability)).ok = false
  · obtain ⟨errs, le, herrs, he⟩ := LogLsv2Error_eq lib
      (s.issued (VendorCall.LSV2Logout s.m_hPort capability)
        (lib.reply s (VendorCall.LSV2Logout s.m_hPort capability)))
    refine ⟨errs, le, herrs, ?_⟩
    simp only [hok, if_true, he]
    simp [HeidenhainLsv2.issued]
  · refine ⟨[], (lib.reply s (VendorCall.LSV2Logout s.m_hPort capability)).lastError, by simp, ?_⟩
    simp only [hok, if_false]
    simp [HeidenhainLsv2.issued]

theorem closeStep_eq (lib : Lsv2Library) (s : HeidenhainLsv2) :
    ∃ errs le, (∀ c ∈ errs, c.isErrorText = true) ∧
      closeStep lib s =
        { s with calls := s.calls ++ VendorCall.LSV2Close s.m_hPort :: errs, lastError := le } := by
  unfold closeStep
  by_cases hok : (lib.reply s (VendorCall.LSV2Close s.m_hPort)).ok = false
  · obtain ⟨errs, le, herrs, he⟩ := LogLsv2Error_eq lib
      (s.issued (VendorCall.LSV2Close s.m_hPort) (lib.reply s (VendorCall.LSV2Close s.m_hPort)))
    refine ⟨errs, le, herrs, ?_⟩
    simp only [hok, if_true, he]
    simp [HeidenhainLsv2.issued]
  · refine ⟨[], (lib.reply s (VendorCall.LSV2Close s.m_hPort)).lastError, by simp, ?_⟩
    simp only [hok, if_false]
    simp [HeidenhainLsv2.issued]

theorem LogoutDnc_eq (lib : Lsv2Library) (s : HeidenhainLsv2) :
    ∃ errs le, (∀ c ∈ errs, c.isErrorText = true) ∧
      LogoutDnc lib s =
        { s with m_isLoggedDnc := false,
                 calls := s.calls ++
                   ((if s.m_isLoggedDnc then [VendorCall.LSV2Logout s.m_hPort "DNC"] else []) ++ errs),
                 lastError := le } := by
  unfold LogoutDnc
  by_cases hf : s.m_isLoggedDnc = true
  · obtain ⟨errs, le, herrs, he⟩ := logoutStep_eq lib s "DNC"
    exact ⟨errs, le, herrs, by simp [hf, he]⟩
  · refine ⟨[], s.lastError, by simp, ?_⟩
    cases s
    simp_all

theorem logoutFile_eq (lib : Lsv2Library) (s : HeidenhainLsv2) :
    ∃ errs le, (∀ c ∈ errs, c.isErrorText = true) ∧
      logoutFile lib s =
        { s with m_isLoggedFile := false,
                 calls := s.calls ++
                   ((if s.m_isLoggedFile then [VendorCall.LSV2Logout s.m_hPort "FILE"] else []) ++ errs),
                 lastError := le } := by
  unfold logoutFile
  by_cases hf : s.m_isLoggedFile = true
  · obtain ⟨errs, le, herrs, he⟩ := logoutStep_eq lib s "FILE"
    exact ⟨errs, le, herrs, by simp [hf, he]⟩
  · refine ⟨[], s.lastError, by simp, ?_⟩
    cases s
    simp_all

theorem LogoutPlc_eq (lib : Lsv2Library) (s : HeidenhainLsv2) :
    ∃ errs le, (∀ c ∈ errs, c.isErrorText = true) ∧
      LogoutPlc lib s =
        { s with m_isLoggedPlc := false,
                 calls := s.calls ++
                   ((if s.m_isLoggedPlc then [VendorCall.LSV2Logout s.m_hPort "PLCDEBUG"] else []) ++ errs),
                 lastError := le } := by
  unfold LogoutPlc
  by_cases hf : s.m_isLoggedPlc = true
  · obtain ⟨errs, le, herrs, he⟩ := logoutStep_eq lib s "PLCDEBUG"
    exact ⟨errs, le, herrs, by simp [hf, he]⟩
  · refine ⟨[], s.lastError, by simp, ?_⟩
    cases s
    simp_all

theorem logoutData_eq (lib : Lsv2Library) (s : HeidenhainLsv2) :
    ∃ errs le, (∀ c ∈ errs, c.isErrorText = true) ∧
      logoutData lib s =
        { s with m_isLoggedData := false,
                 calls := s.calls ++
                   ((if s.m_isLoggedData then [VendorCall.LSV2Logout s.m_hPort "DATA"] else []) ++ errs),
                 lastError := le } := by
  unfold logoutData
  by_cases hf : s.m_isLoggedData = true
  · obtain ⟨errs, le, herrs, he⟩ := logoutStep_eq lib s "DATA"
    exact ⟨errs, le, herrs, by simp [hf, he]⟩
  · refine ⟨[], s.lastError, by simp, ?_⟩
    cases s
    simp_all

/-- On a handle other than the invalid one, `Disconnect` changes the four login flags, the
handle and `m_connected`, and appends a history whose session calls are `teardownCalls`. -/
theorem Disconnect_of_valid (lib : Lsv2Library) (s : HeidenhainLsv2)
    (h : s.m_hPort ≠ INVALID_HANDLE_VALUE) :
    ∃ tr le, sessionCalls tr = teardownCalls s ∧
      Disconnect lib s =
        { s with m_isLoggedDnc := false, m_isLoggedFile := false, m_isLoggedPlc := false,
                 m_isLoggedData := false, m_hPort := INVALID_HANDLE_VALUE, m_connected := false,
                 calls := s.calls ++ tr, lastError := le } := by
  unfold Disconnect
  simp only [h, if_false]
  generalize hs1 : LogoutDnc lib s = s1
  generalize hs2 : logoutFile lib s1 = s2
  generalize hs3 : LogoutPlc lib s2 = s3
  generalize hs4 : logoutData lib s3 = s4
  generalize hs5 : logoutStep lib s4 "INSPECT" = s5
  generalize hs6 : logoutStep lib s5 "" = s6
  generalize hs7 : closeStep lib s6 = s7
  obtain ⟨e1, l1, h1, q1⟩ := LogoutDnc_eq lib s
  obtain ⟨e2, l2, h2, q2⟩ := logoutFile_eq lib s1
  obtain ⟨e3, l3, h3, q3⟩ := LogoutPlc_eq lib s2
  obtain ⟨e4, l4, h4, q4⟩ := logoutData_eq lib s3
  obtain ⟨e5, l5, h5, q5⟩ := logoutStep_eq lib s4 "INSPECT"
  obtain ⟨e6, l6, h6, q6⟩ := logoutStep_eq lib s5 ""
  obtain ⟨e7, l7, h7, q7⟩ := closeStep_eq lib s6
  rw [hs1] at q1
  rw [hs2] at q2
  rw [hs3] at q3
  rw [hs4] at q4
  rw [hs5] at q5
  rw [hs6] at q6
  rw [hs7] at q7
  clear hs1 hs2 hs3 hs4 hs5 hs6 hs7
  subst q1
  simp only [] at q2
  subst q2
  simp only [] at q3
  subst q3
  simp only [] at q4
  subst q4
  simp only [] at q5
  subst q5
  simp only [] at q6
  subst q6
  simp only [] at q7
  subst q7
  simp only []
  have c1 : ∀ (c : VendorCall) (e : List VendorCall), c.isErrorText = false →
      (∀ x ∈ e, x.isErrorText = true) → sessionCalls (c :: e) = [c] := by
    intro c e hc he
    have : c :: e = [c] ++ e := rfl
    rw [this, sessionCalls_append, sessionCalls_errorText e he]
    simp [sessionCalls, hc]
  have c2 : ∀ (b : Bool) (c : VendorCall), c.isErrorText = false →
      sessionCalls (if b = true then [c] else []) = if b = true then [c] else [] := by
    intro b c hc
    cases b <;> simp [sessionCalls, hc]
  refine ⟨((if s.m_isLoggedDnc then [VendorCall.LSV2Logout s.m_hPort "DNC"] else []) ++ e1)
      ++ ((if s.m_isLoggedFile then [VendorCall.LSV2Logout s.m_hPort "FILE"] else []) ++ e2)
      ++ ((if s.m_isLoggedPlc then [VendorCall.LSV2Logout s.m_hPort "PLCDEBUG"] else []) ++ e3)
      ++ ((if s.m_isLoggedData then [VendorCall.LSV2Logout s.m_hPort "DATA"] else []) ++ e4)
      ++ (VendorCall.LSV2Logout s.m_hPort "INSPECT" :: e5)
      ++ (VendorCall.LSV2Logout s.m_hPort "" :: e6)
      ++ (VendorCall.LSV2Close s.m_hPort :: e7), l7, ?_, ?_⟩
  · simp only [sessionCalls_append, sessionCalls_errorText _ h1, sessionCalls_errorText _ h2,
      sessionCalls_errorText _ h3, sessionCalls_errorText _ h4,
      c1 (VendorCall.LSV2Logout s.m_hPort "INSPECT") e5 rfl h5,
      c1 (VendorCall.LSV2Logout s.m_hPort "") e6 rfl h6,
      c1 (VendorCall.LSV2Close s.m_hPort) e7 rfl h7,
      c2 s.m_isLoggedDnc (VendorCall.LSV2Logout s.m_hPort "DNC") rfl,
      c2 s.m_isLoggedFile (VendorCall.LSV2Logout s.m_hPort "FILE") rfl,
      c2 s.m_isLoggedPlc (VendorCall.LSV2Logout s.m_hPort "PLCDEBUG") rfl,
      c2 s.m_isLoggedData (VendorCall.LSV2Logout s.m_hPort "DATA") rfl,
      teardownCalls, List.append_nil, List.append_assoc]
    simp
  · simp [List.append_assoc]

/-! ## The invariant of the session -/

theorem SessionInvariant_congr {s t : HeidenhainLsv2} (h : sessionOf t = sessionOf s)
    (hs : SessionInvariant s) : SessionInvariant t := by
  simp only [sessionOf, Prod.mk.injEq] at h
  obtain ⟨h1, h2, h3, h4, h5, h6⟩ := h
  unfold SessionInvariant at *
  rw [h1, h2, h3, h4, h5, h6]
  exact hs

theorem sessionOf_issued (s : HeidenhainLsv2) (c : VendorCall) (r : Response) :
    sessionOf (s.issued c r) = sessionOf s := rfl

theorem sessionOf_LogLsv2Error (lib : Lsv2Library) (s : HeidenhainLsv2) :
    sessionOf (LogLsv2Error lib s).2 = sessionOf s := rfl

theorem SessionInvariant_issued (s : HeidenhainLsv2) (c : VendorCall) (r : Response)
    (hs : SessionInvariant s) : SessionInvariant (s.issued c r) :=
  SessionInvariant_congr (sessionOf_issued s c r) hs

theorem SessionInvariant_LogLsv2Error (lib : Lsv2Library) (s : HeidenhainLsv2)
    (hs : SessionInvariant s) : SessionInvariant (LogLsv2Error lib s).2 :=
  SessionInvariant_congr (sessionOf_LogLsv2Error lib s) hs

theorem SessionInvariant_new : SessionInvariant HeidenhainLsv2.new := by
  unfold SessionInvariant HeidenhainLsv2.new
  simp

theorem SessionInvariant_logoutStep (lib : Lsv2Library) (s : HeidenhainLsv2) (capability : String) :
    sessionOf (logoutStep lib s capability) = sessionOf s := by
  obtain ⟨e, l, -, q⟩ := logoutStep_eq lib s capability
  rw [q]
  rfl

theorem SessionInvariant_LogoutPlc (lib : Lsv2Library) (s : HeidenhainLsv2)
    (hs : SessionInvariant s) : SessionInvariant (LogoutPlc lib s) := by
  obtain ⟨e, l, -, q⟩ := LogoutPlc_eq lib s
  rw [q]
  unfold SessionInvariant at *
  simp only []
  exact ⟨hs.1, fun h => ⟨(hs.2 h).1, (hs.2 h).2.1, trivial, (hs.2 h).2.2.2⟩⟩

theorem SessionInvariant_LogoutDnc (lib : Lsv2Library) (s : HeidenhainLsv2)
    (hs : SessionInvariant s) : SessionInvariant (LogoutDnc lib s) := by
  obtain ⟨e, l, -, q⟩ := LogoutDnc_eq lib s
  rw [q]
  unfold SessionInvariant at *
  simp only []
  exact ⟨hs.1, fun h => ⟨trivial, (hs.2 h).2.1, (hs.2 h).2.2.1, (hs.2 h).2.2.2⟩⟩

/-- After `Disconnect` the session is not connected; the login flags are false if the handle was
valid, and keep their value otherwise. -/
theorem Disconnect_session (lib : Lsv2Library) (s : HeidenhainLsv2) :
    sessionOf (Disconnect lib s) =
      if s.m_hPort = INVALID_HANDLE_VALUE then
        (false, s.m_hPort, s.m_isLoggedDnc, s.m_isLoggedFile, s.m_isLoggedPlc, s.m_isLoggedData)
      else (false, INVALID_HANDLE_VALUE, false, false, false, false) := by
  by_cases h : s.m_hPort = INVALID_HANDLE_VALUE
  · simp [Disconnect, h, sessionOf]
  · obtain ⟨tr, le, -, q⟩ := Disconnect_of_valid lib s h
    rw [q]
    simp [h, sessionOf]

theorem SessionInvariant_Disconnect (lib : Lsv2Library) (s : HeidenhainLsv2)
    (hs : SessionInvariant s) : SessionInvariant (Disconnect lib s) := by
  have hd := Disconnect_session lib s
  by_cases h : s.m_hPort = INVALID_HANDLE_VALUE
  · simp only [h, if_true, sessionOf, Prod.mk.injEq] at hd
    obtain ⟨h1, h2, h3, h4, h5, h6⟩ := hd
    have hc : s.m_connected = false := by
      by_contra hne
      exact hs.1 (by simpa using hne) h
    unfold SessionInvariant
    rw [h1, h3, h4, h5, h6]
    exact ⟨by simp, fun _ => hs.2 hc⟩
  · simp only [h, if_false, sessionOf, Prod.mk.injEq] at hd
    obtain ⟨h1, h2, h3, h4, h5, h6⟩ := hd
    unfold SessionInvariant
    rw [h1, h3, h4, h5, h6]
    simp

/-- A session that is not connected and holds no handle satisfies the invariant once its login
flags are false; this is the state every failure path of the handshake ends in. -/
theorem SessionInvariant_Disconnect_of_not_logged (lib : Lsv2Library) (s : HeidenhainLsv2)
    (hf : s.m_isLoggedDnc = false ∧ s.m_isLoggedFile = false ∧ s.m_isLoggedPlc = false ∧
      s.m_isLoggedData = false) : SessionInvariant (Disconnect lib s) := by
  have hd := Disconnect_session lib s
  by_cases h : s.m_hPort = INVALID_HANDLE_VALUE
  · simp only [h, if_true, sessionOf, Prod.mk.injEq] at hd
    obtain ⟨h1, h2, h3, h4, h5, h6⟩ := hd
    unfold SessionInvariant
    rw [h1, h3, h4, h5, h6]
    exact ⟨by simp, fun _ => hf⟩
  · simp only [h, if_false, sessionOf, Prod.mk.injEq] at hd
    obtain ⟨h1, h2, h3, h4, h5, h6⟩ := hd
    unfold SessionInvariant
    rw [h1, h3, h4, h5, h6]
    simp

theorem sessionOf_bindLsv2Api (lib : Lsv2Library) (ms : List String) (s : HeidenhainLsv2) :
    sessionOf (bindLsv2Api lib ms s).2 = sessionOf s := by
  induction ms generalizing s with
  | nil => rfl
  | cons m ms ih =>
    unfold bindLsv2Api
    simp only []
    split
    · rfl
    · rw [ih]
      rfl

theorem sessionOf_LoadLsv2Library (lib : Lsv2Library) (s : HeidenhainLsv2) :
    sessionOf (LoadLsv2Library lib s).2 = sessionOf s := by
  unfold LoadLsv2Library
  simp only []
  split
  · rfl
  · split
    · rfl
    · split
      · rfl
      · rw [sessionOf_bindLsv2Api]
        rfl

theorem sessionOf_ensureLsv2Library (lib : Lsv2Library) (s : HeidenhainLsv2) :
    sessionOf (ensureLsv2Library lib s).2 = sessionOf s := by
  unfold ensureLsv2Library
  split
  · exact sessionOf_LoadLsv2Library lib s
  · rfl

theorem notLogged_of_sessionOf {s t : HeidenhainLsv2} (h : sessionOf t = sessionOf s)
    (hf : s.m_isLoggedDnc = false ∧ s.m_isLoggedFile = false ∧ s.m_isLoggedPlc = false ∧
      s.m_isLoggedData = false) :
    t.m_isLoggedDnc = false ∧ t.m_isLoggedFile = false ∧ t.m_isLoggedPlc = false ∧
      t.m_isLoggedData = false := by
  simp only [sessionOf, Prod.mk.injEq] at h
  obtain ⟨-, -, h3, h4, h5, h6⟩ := h
  rw [h3, h4, h5, h6]
  exact hf

/-- The handshake from a session without login: the invariant holds afterwards, no exception is
raised, and a true result means the session is connected. -/
theorem openSession_spec (lib : Lsv2Library) (hlib : lib.OpenGivesHandle) (s : HeidenhainLsv2)
    (ip : String) (hc : s.m_connected = false)
    (hf : s.m_isLoggedDnc = false ∧ s.m_isLoggedFile = false ∧ s.m_isLoggedPlc = false ∧
      s.m_isLoggedData = false) :
    SessionInvariant (openSession lib s ip).2 ∧
      ((openSession lib s ip).1 = .ok true ∨ (openSession lib s ip).1 = .ok false) ∧
      ((openSession lib s ip).1 = .ok true → (openSession lib s ip).2.m_connected = true) := by
  obtain ⟨f1, f2, f3, f4⟩ := hf
  unfold openSession
  simp only []
  split
  · refine ⟨?_, by simp, by simp⟩
    unfold SessionInvariant
    simp [HeidenhainLsv2.issued, hc, f1, f2, f3, f4]
  · rename_i hOpen
    have hvalid : (lib.reply s (VendorCall.LSV2Open ip)).handle ≠ INVALID_HANDLE_VALUE :=
      hlib s.calls ip (by simpa [Lsv2Library.reply] using hOpen)
    split
    · refine ⟨?_, by simp, by simp⟩
      apply SessionInvariant_Disconnect_of_not_logged
      simp [LogLsv2Error, HeidenhainLsv2.issued, f1, f2, f3, f4]
    · split
      · refine ⟨?_, by simp, by simp⟩
        apply SessionInvariant_Disconnect_of_not_logged
        simp [LogLsv2Error, HeidenhainLsv2.issued, f1, f2, f3, f4]
      · split
        · refine ⟨?_, by simp, by simp⟩
          apply SessionInvariant_Disconnect_of_not_logged
          simp [LogLsv2Error, HeidenhainLsv2.issued, f1, f2, f3, f4]
        · refine ⟨?_, by simp, by simp⟩
          unfold SessionInvariant
          simp [HeidenhainLsv2.issued, hvalid]

/-- `CheckConnection` keeps the invariant; when it returns true the session is connected. -/
theorem CheckConnection_spec (lib : Lsv2Library) (hlib : lib.OpenGivesHandle) (s : HeidenhainLsv2)
    (hs : SessionInvariant s) :
    SessionInvariant (CheckConnection lib s).2 ∧
      ((CheckConnection lib s).1 = .ok true → (CheckConnection lib s).2.m_connected = true) := by
  unfold CheckConnection
  by_cases hc : s.m_connected = false
  · simp only [hc, if_true]
    cases hip : s.IPAddress with
    | none => exact ⟨hs, by simp⟩
    | some ip =>
      simp only []
      have hsess := sessionOf_ensureLsv2Library lib s
      rcases hload : ensureLsv2Library lib s with ⟨res, s1⟩
      rw [hload] at hsess
      simp only [] at hsess
      cases res with
      | error e => exact ⟨SessionInvariant_congr hsess hs, by simp⟩
      | ok u =>
        simp only []
        have hc1 : s1.m_connected = false := by
          have := congrArg Prod.fst hsess
          simpa [sessionOf, hc] using this
        have hf1 := notLogged_of_sessionOf hsess (hs.2 hc)
        have := openSession_spec lib hlib s1 ip hc1 hf1
        exact ⟨this.1, this.2.2⟩
  · have hc1 : s.m_connected = true := by simpa using hc
    rw [if_neg hc]
    exact ⟨hs, fun _ => hc1⟩

theorem sessionOf_loginStep (lib : Lsv2Library) (s : HeidenhainLsv2) (capability : String) :
    sessionOf (loginStep lib s capability).2 = sessionOf s := by
  unfold loginStep
  simp only []
  split <;> rfl

theorem SessionInvariant_of_connected {t u : HeidenhainLsv2} (ht : SessionInvariant t)
    (hc : t.m_connected = true) (h1 : u.m_connected = true) (h2 : u.m_hPort = t.m_hPort) :
    SessionInvariant u := by
  unfold SessionInvariant
  rw [h1, h2]
  exact ⟨fun _ => ht.1 hc, by simp⟩

theorem connected_of_sessionOf {s t : HeidenhainLsv2} (h : sessionOf t = sessionOf s) :
    t.m_connected = s.m_connected ∧ t.m_hPort = s.m_hPort := by
  simp only [sessionOf, Prod.mk.injEq] at h
  exact ⟨h.1, h.2.1⟩

theorem SessionInvariant_CheckDNCConnection (lib : Lsv2Library) (hlib : lib.OpenGivesHandle)
    (s : HeidenhainLsv2) (hs : SessionInvariant s) :
    SessionInvariant (CheckDNCConnection lib s).2 := by
  have hcc := CheckConnection_spec lib hlib s hs
  unfold CheckDNCConnection
  rcases hres : CheckConnection lib s with ⟨res, s1⟩
  rw [hres] at hcc
  rcases res with e | b
  · exact hcc.1
  · cases b
    · exact hcc.1
    · have hconn : s1.m_connected = true := hcc.2 rfl
      simp only []
      split
      · exact hcc.1
      · have hl := connected_of_sessionOf (sessionOf_loginStep lib s1 "DNC")
        split
        · exact SessionInvariant_congr (sessionOf_loginStep lib s1 "DNC") hcc.1
        · exact SessionInvariant_of_connected hcc.1 hconn (by simpa [hconn] using hl.1)
            (by simpa using hl.2)

theorem SessionInvariant_CheckFileConnection (lib : Lsv2Library) (hlib : lib.OpenGivesHandle)
    (s : HeidenhainLsv2) (hs : SessionInvariant s) :
    SessionInvariant (CheckFileConnection lib s).2 := by
  have hcc := CheckConnection_spec lib hlib s hs
  unfold CheckFileConnection
  rcases hres : CheckConnection lib s with ⟨res, s1⟩
  rw [hres] at hcc
  rcases res with e | b
  · exact hcc.1
  · cases b
    · exact hcc.1
    · have hconn : s1.m_connected = true := hcc.2 rfl
      simp only []
      split
      · exact hcc.1
      · have hl := connected_of_sessionOf (sessionOf_loginStep lib s1 "FILE")
        split
        · exact SessionInvariant_congr (sessionOf_loginStep lib s1 "FILE") hcc.1
        · exact SessionInvariant_of_connected hcc.1 hconn (by simpa [hconn] using hl.1)
            (by simpa using hl.2)

theorem SessionInvariant_CheckPLCConnection (lib : Lsv2Library) (hlib : lib.OpenGivesHandle)
    (s : HeidenhainLsv2) (hs : SessionInvariant s) :
    SessionInvariant (CheckPLCConnection lib s).2 := by
  have hcc := CheckConnection_spec lib hlib s hs
  unfold CheckPLCConnection
  rcases hres : CheckConnection lib s with ⟨res, s1⟩
  rw [hres] at hcc
  rcases res with e | b
  · exact hcc.1
  · cases b
    · exact hcc.1
    · have hconn : s1.m_connected = true := hcc.2 rfl
      simp only []
      split
      · exact hcc.1
      · have hl := connected_of_sessionOf (sessionOf_loginStep lib s1 "PLCDEBUG")
        split
        · exact SessionInvariant_congr (sessionOf_loginStep lib s1 "PLCDEBUG") hcc.1
        · exact SessionInvariant_of_connected hcc.1 hconn (by simpa [hconn] using hl.1)
            (by simpa using hl.2)

theorem SessionInvariant_CheckDataConnection (lib : Lsv2Library) (hlib : lib.OpenGivesHandle)
    (s : HeidenhainLsv2) (hs : SessionInvariant s) :
    SessionInvariant (CheckDataConnection lib s).2 := by
  have hcc := CheckConnection_spec lib hlib s hs
  unfold CheckDataConnection
  rcases hres : CheckConnection lib s with ⟨res, s1⟩
  rw [hres] at hcc
  rcases res with e | b
  · exact hcc.1
  · cases b
    · exact hcc.1
    · have hconn : s1.m_connected = true := hcc.2 rfl
      simp only []
      split
      · exact hcc.1
      · split
        · exact hcc.1
        · split
          · exact hcc.1
          · have hl := connected_of_sessionOf (sessionOf_loginStep lib s1 "DATA")
            split
            · exact SessionInvariant_congr (sessionOf_loginStep lib s1 "DATA") hcc.1
            · exact SessionInvariant_of_connected hcc.1 hconn (by simpa [hconn] using hl.1)
                (by simpa using hl.2)

theorem SessionInvariant_Start (lib : Lsv2Library) (hlib : lib.OpenGivesHandle)
    (s : HeidenhainLsv2) (hs : SessionInvariant s) : SessionInvariant (Start lib s).2 := by
  unfold Start
  refine (CheckConnection_spec lib hlib _ ?_).1
  exact SessionInvariant_congr rfl hs

theorem SessionInvariant_Finish (lib : Lsv2Library) (s : HeidenhainLsv2)
    (hs : SessionInvariant s) : SessionInvariant (Finish lib s) := by
  have h1 : SessionInvariant
      (if s.m_keepPlcConnection = false ∧ s.m_isLoggedPlc = true then LogoutPlc lib s else s) := by
    split
    · exact SessionInvariant_LogoutPlc lib s hs
    · exact hs
  have key : ∀ t : HeidenhainLsv2, SessionInvariant t →
      SessionInvariant
        (if t.m_keepDncConnection = false ∧ t.m_isLoggedDnc = true then LogoutDnc lib t else t) := by
    intro t ht
    split
    · exact SessionInvariant_LogoutDnc lib t ht
    · exact ht
  exact key _ h1

theorem SessionInvariant_plcFailure (lib : Lsv2Library) (s : HeidenhainLsv2)
    (hs : SessionInvariant s) : SessionInvariant (plcFailure lib s) := by
  unfold plcFailure
  simp only []
  have h1 : SessionInvariant (LogLsv2Error lib s).2 :=
    SessionInvariant_congr (sessionOf_LogLsv2Error lib s) hs
  split
  · exact SessionInvariant_Disconnect lib _ h1
  · exact h1

theorem SessionInvariant_GetPLCValue (lib : Lsv2Library) (hlib : lib.OpenGivesHandle)
    (s : HeidenhainLsv2) (hs : SessionInvariant s) (type : Char) (address : Int) :
    SessionInvariant (GetPLCValue lib s type address).2 := by
  have hcc := SessionInvariant_CheckPLCConnection lib hlib s hs
  unfold GetPLCValue
  rcases hres : CheckPLCConnection lib s with ⟨res, s1⟩
  rw [hres] at hcc
  rcases res with e | b
  · exact hcc
  · cases b
    · exact hcc
    · simp only []
      split
      · exact SessionInvariant_plcFailure lib s1 hcc
      · split
        · exact SessionInvariant_plcFailure lib _ (SessionInvariant_issued _ _ _ hcc)
        · exact SessionInvariant_issued _ _ _ hcc

theorem SessionInvariant_GetData (lib : Lsv2Library) (hlib : lib.OpenGivesHandle)
    (s : HeidenhainLsv2) (hs : SessionInvariant s) (entryName : String) :
    SessionInvariant (GetData lib s entryName).2 := by
  have hcc := SessionInvariant_CheckDataConnection lib hlib s hs
  unfold GetData
  split
  · exact hs
  · rcases hres : CheckDataConnection lib s with ⟨res, s1⟩
    rw [hres] at hcc
    rcases res with e | b
    · exact hcc
    · cases b
      · exact hcc
      · simp only []
        split
        · exact SessionInvariant_LogLsv2Error lib _ (SessionInvariant_issued _ _ _ hcc)
        · exact SessionInvariant_issued _ _ _ hcc

theorem SessionInvariant_GetBoolData (lib : Lsv2Library) (hlib : lib.OpenGivesHandle)
    (s : HeidenhainLsv2) (hs : SessionInvariant s) (entryName : String) :
    SessionInvariant (GetBoolData lib s entryName).2 := by
  have hd := SessionInvariant_GetData lib hlib s hs entryName
  unfold GetBoolData
  rcases hres : GetData lib s entryName with ⟨res, s1⟩
  rw [hres] at hd
  rcases res with e | d
  · exact hd
  · exact hd

theorem SessionInvariant_GetParameter (lib : Lsv2Library) (hlib : lib.OpenGivesHandle)
    (s : HeidenhainLsv2) (hs : SessionInvariant s) (entryName : String) :
    SessionInvariant (GetParameter lib s entryName).2 := by
  have hcc := SessionInvariant_CheckDataConnection lib hlib s hs
  unfold GetParameter
  split
  · exact hs
  · rcases hres : CheckDataConnection lib s with ⟨res, s1⟩
    rw [hres] at hcc
    rcases res with e | b
    · exact hcc
    · cases b
      · exact hcc
      · simp only []
        split
        · exact SessionInvariant_LogLsv2Error lib _ (SessionInvariant_issued _ _ _ hcc)
        · exact SessionInvariant_issued _ _ _ hcc

theorem SessionInvariant_GetTableLine (lib : Lsv2Library) (hlib : lib.OpenGivesHandle)
    (s : HeidenhainLsv2) (hs : SessionInvariant s) (tableName condition : String) :
    SessionInvariant (GetTableLine lib s tableName condition).2 := by
  have hcc := (CheckConnection_spec lib hlib s hs).1
  unfold GetTableLine
  rcases hres : CheckConnection lib s with ⟨res, s1⟩
  rw [hres] at hcc
  rcases res with e | b
  · exact hcc
  · cases b
    · exact hcc
    · simp only []
      split
      · exact hcc
      · split
        · exact SessionInvariant_LogLsv2Error lib _ (SessionInvariant_issued _ _ _ hcc)
        · exact SessionInvariant_issued _ _ _ hcc

theorem SessionInvariant_ReceiveFile (lib : Lsv2Library) (hlib : lib.OpenGivesHandle)
    (s : HeidenhainLsv2) (hs : SessionInvariant s) (distantFile localFile : String)
    (binary : Bool) : SessionInvariant (ReceiveFile lib s distantFile localFile binary).2 := by
  have hcc := SessionInvariant_CheckFileConnection lib hlib s hs
  unfold ReceiveFile
  rcases hres : CheckFileConnection lib s with ⟨res, s1⟩
  rw [hres] at hcc
  rcases res with e | b
  · exact hcc
  · cases b
    · exact hcc
    · simp only []
      split
      · exact SessionInvariant_issued _ _ _ hcc
      · split
        · exact SessionInvariant_LogLsv2Error lib _
            (SessionInvariant_issued _ _ _ (SessionInvariant_issued _ _ _ hcc))
        · exact SessionInvariant_issued _ _ _ (SessionInvariant_issued _ _ _ hcc)

theorem SessionInvariant_receiveRunInfo (lib : Lsv2Library) (s : HeidenhainLsv2)
    (hs : SessionInvariant s) (kind : LSV2_RUNINFO_TYPE) :
    SessionInvariant (receiveRunInfo lib s kind).2 := by
  unfold receiveRunInfo
  simp only []
  split
  · exact SessionInvariant_Disconnect lib _
      (SessionInvariant_LogLsv2Error lib _ (SessionInvariant_issued _ _ _ hs))
  · exact SessionInvariant_issued _ _ _ hs

theorem SessionInvariant_GetOverrideValues (lib : Lsv2Library) (hlib : lib.OpenGivesHandle)
    (s : HeidenhainLsv2) (hs : SessionInvariant s) :
    SessionInvariant (GetOverrideValues lib s).2 := by
  have hcc := SessionInvariant_CheckDNCConnection lib hlib s hs
  unfold GetOverrideValues
  split
  · exact hs
  · rcases hres : CheckDNCConnection lib s with ⟨res, s1⟩
    rw [hres] at hcc
    rcases res with e | b
    · exact hcc
    · cases b
      · exact hcc
      · simp only []
        split
        · exact hcc
        · have hr := SessionInvariant_receiveRunInfo lib s1 hcc
            LSV2_RUNINFO_TYPE.LSV2_RUNINFO_OVERRIDES_INFO
          rcases hrun : receiveRunInfo lib s1 LSV2_RUNINFO_TYPE.LSV2_RUNINFO_OVERRIDES_INFO
            with ⟨res2, s2⟩
          rw [hrun] at hr
          rcases res2 with e | runInfo
          · exact hr
          · exact SessionInvariant_congr rfl hr

theorem SessionInvariant_GetProgramValues (lib : Lsv2Library) (hlib : lib.OpenGivesHandle)
    (s : HeidenhainLsv2) (hs : SessionInvariant s) :
    SessionInvariant (GetProgramValues lib s).2 := by
  have hcc := (CheckConnection_spec lib hlib s hs).1
  unfold GetProgramValues
  split
  · exact hs
  · rcases hres : CheckConnection lib s with ⟨res, s1⟩
    rw [hres] at hcc
    rcases res with e | b
    · exact hcc
    · cases b
      · exact hcc
      · simp only []
        split
        · exact hcc
        · have hr := SessionInvariant_receiveRunInfo lib s1 hcc
            LSV2_RUNINFO_TYPE.LSV2_RUNINFO_EXECUTION_POINT
          rcases hrun : receiveRunInfo lib s1 LSV2_RUNINFO_TYPE.LSV2_RUNINFO_EXECUTION_POINT
            with ⟨res2, s2⟩
          rw [hrun] at hr
          rcases res2 with e | runInfo
          · exact hr
          · exact SessionInvariant_congr rfl hr

theorem SessionInvariant_GetProgramStatus (lib : Lsv2Library) (hlib : lib.OpenGivesHandle)
    (s : HeidenhainLsv2) (hs : SessionInvariant s) :
    SessionInvariant (GetProgramStatus lib s).2 := by
  have hcc := (CheckConnection_spec lib hlib s hs).1
  unfold GetProgramStatus
  split
  · exact hs
  · rcases hres : CheckConnection lib s with ⟨res, s1⟩
    rw [hres] at hcc
    rcases res with e | b
    · exact hcc
    · cases b
      · exact hcc
      · simp only []
        split
        · exact hcc
        · have hr := SessionInvariant_receiveRunInfo lib s1 hcc
            LSV2_RUNINFO_TYPE.LSV2_RUNINFO_PROGRAM_STATUS
          rcases hrun : receiveRunInfo lib s1 LSV2_RUNINFO_TYPE.LSV2_RUNINFO_PROGRAM_STATUS
            with ⟨res2, s2⟩
          rw [hrun] at hr
          rcases res2 with e | runInfo
          · exact hr
          · exact SessionInvariant_congr rfl hr

theorem SessionInvariant_GetExecutionMode (lib : Lsv2Library) (hlib : lib.OpenGivesHandle)
    (s : HeidenhainLsv2) (hs : SessionInvariant s) :
    SessionInvariant (GetExecutionMode lib s).2 := by
  have hcc := (CheckConnection_spec lib hlib s hs).1
  unfold GetExecutionMode
  split
  · exact hs
  · rcases hres : CheckConnection lib s with ⟨res, s1⟩
    rw [hres] at hcc
    rcases res with e | b
    · exact hcc
    · cases b
      · exact hcc
      · simp only []
        split
        · exact hcc
        · have hr := SessionInvariant_receiveRunInfo lib s1 hcc
            LSV2_RUNINFO_TYPE.LSV2_RUNINFO_EXECUTION_MODE
          rcases hrun : receiveRunInfo lib s1 LSV2_RUNINFO_TYPE.LSV2_RUNINFO_EXECUTION_MODE
            with ⟨res2, s2⟩
          rw [hrun] at hr
          rcases res2 with e | runInfo
          · exact hr
          · exact SessionInvariant_congr rfl hr

/-- Every operation keeps the invariant of the session. -/
theorem SessionInvariant_run (lib : Lsv2Library) (hlib : lib.OpenGivesHandle) (op : Operation)
    (s : HeidenhainLsv2) (hs : SessionInvariant s) : SessionInvariant (op.run lib s) := by
  cases op with
  | SetIPAddress value => exact SessionInvariant_congr rfl hs
  | SetCncAcquisitionId value => exact SessionInvariant_congr rfl hs
  | SetKeepPlcConnection value => exact SessionInvariant_congr rfl hs
  | SetKeepDncConnection value => exact SessionInvariant_congr rfl hs
  | Start => exact SessionInvariant_Start lib hlib s hs
  | Finish => exact SessionInvariant_Finish lib s hs
  | CheckConnection => exact (CheckConnection_spec lib hlib s hs).1
  | CheckDNCConnection => exact SessionInvariant_CheckDNCConnection lib hlib s hs
  | CheckFileConnection => exact SessionInvariant_CheckFileConnection lib hlib s hs
  | CheckPLCConnection => exact SessionInvariant_CheckPLCConnection lib hlib s hs
  | CheckDataConnection => exact SessionInvariant_CheckDataConnection lib hlib s hs
  | Disconnect => exact SessionInvariant_Disconnect lib s hs
  | GetPLCValue type address => exact SessionInvariant_GetPLCValue lib hlib s hs type address
  | GetData entryName => exact SessionInvariant_GetData lib hlib s hs entryName
  | GetBoolData entryName => exact SessionInvariant_GetBoolData lib hlib s hs entryName
  | GetParameter entryName => exact SessionInvariant_GetParameter lib hlib s hs entryName
  | GetTableLine tableName condition =>
    exact SessionInvariant_GetTableLine lib hlib s hs tableName condition
  | ReceiveFile distantFile localFile binary =>
    exact SessionInvariant_ReceiveFile lib hlib s hs distantFile localFile binary
  | GetOverrideValues => exact SessionInvariant_GetOverrideValues lib hlib s hs
  | GetProgramValues => exact SessionInvariant_GetProgramValues lib hlib s hs
  | GetProgramStatus => exact SessionInvariant_GetProgramStatus lib hlib s hs
  | GetExecutionMode => exact SessionInvariant_GetExecutionMode lib hlib s hs
  | VendorPrimitive call => exact SessionInvariant_issued s call _ hs

theorem SessionInvariant_runAll (lib : Lsv2Library) (hlib : lib.OpenGivesHandle)
    (ops : List Operation) (s : HeidenhainLsv2) (hs : SessionInvariant s) :
    SessionInvariant (runAll lib s ops) := by
  induction ops generalizing s with
  | nil => exact hs
  | cons op ops ih => exact ih (op.run lib s) (SessionInvariant_run lib hlib op s hs)

/-! ## Lemmas on the decoders -/

theorem and_shifted_mask (x k n : Nat) :
    x &&& ((2 ^ n - 1) <<< k) = ((x >>> k) % 2 ^ n) <<< k := by
  apply Nat.eq_of_testBit_eq
  intro i
  simp only [Nat.testBit_and, Nat.testBit_shiftLeft, Nat.testBit_shiftRight,
    Nat.testBit_mod_two_pow, Nat.testBit_two_pow_sub_one]
  by_cases h : k ≤ i
  · have : k + (i - k) = i := by omega
    simp [h, this, Bool.and_comm]
  · simp [h]

theorem or_shifted (a b k : Nat) (h : a < 2 ^ k) : a ||| (b * 2 ^ k) = a + b * 2 ^ k := by
  rw [Nat.or_comm, Nat.mul_comm, ← Nat.mul_add_lt_is_or h, Nat.add_comm]

/-- `_lswap` reverses the four bytes of a double word. -/
theorem _lswap_bytes (b0 b1 b2 b3 : Nat) (h0 : b0 < 256) (h1 : b1 < 256) (h2 : b2 < 256)
    (h3 : b3 < 256) :
    _lswap (b0 + 2 ^ 8 * b1 + 2 ^ 16 * b2 + 2 ^ 24 * b3)
      = b3 + 2 ^ 8 * b2 + 2 ^ 16 * b1 + 2 ^ 24 * b0 := by
  unfold _lswap
  have e1 : (0x0000FF00 : Nat) = (2 ^ 8 - 1) <<< 8 := by decide
  have e2 : (0x00FF0000 : Nat) = (2 ^ 8 - 1) <<< 16 := by decide
  have e3 : (0x000000FF : Nat) = (2 ^ 8 - 1) <<< 0 := by decide
  rw [e1, e2, e3, and_shifted_mask, and_shifted_mask, and_shifted_mask]
  simp only [Nat.shiftRight_eq_div_pow, Nat.shiftLeft_eq]
  have p1 : (b0 + 2 ^ 8 * b1 + 2 ^ 16 * b2 + 2 ^ 24 * b3) / 2 ^ 24 = b3 := by omega
  have p2 : (b0 + 2 ^ 8 * b1 + 2 ^ 16 * b2 + 2 ^ 24 * b3) / 2 ^ 8 % 2 ^ 8 = b1 := by omega
  have p3 : (b0 + 2 ^ 8 * b1 + 2 ^ 16 * b2 + 2 ^ 24 * b3) / 2 ^ 16 % 2 ^ 8 = b2 := by omega
  have p4 : (b0 + 2 ^ 8 * b1 + 2 ^ 16 * b2 + 2 ^ 24 * b3) / 2 ^ 0 % 2 ^ 8 = b0 := by omega
  rw [p1, p2, p3, p4]
  have q2 : b1 * 2 ^ 8 * 2 ^ 8 = b1 * 2 ^ 16 := by ring
  have q3 : b2 * 2 ^ 16 / 2 ^ 8 = b2 * 2 ^ 8 := by omega
  have q4 : b0 * 2 ^ 0 * 2 ^ 24 = b0 * 2 ^ 24 := by ring
  rw [q2, q3, q4]
  have rc : ∀ a b c : Nat, (a ||| b) ||| c = (a ||| c) ||| b := by
    intro a b c
    rw [Nat.or_assoc, Nat.or_comm b c, ← Nat.or_assoc]
  rw [rc b3 (b1 * 2 ^ 16) (b2 * 2 ^ 8), or_shifted b3 b2 8 (by omega),
    or_shifted (b3 + b2 * 2 ^ 8) b1 16 (by omega),
    or_shifted (b3 + b2 * 2 ^ 8 + b1 * 2 ^ 16) b0 24 (by omega)]
  omega

theorem loadDWORD_bytes (b0 b1 b2 b3 : Nat) (h0 : b0 < 256) (h1 : b1 < 256) (h2 : b2 < 256)
    (h3 : b3 < 256) :
    loadDWORD [b0, b1, b2, b3] = b0 + 2 ^ 8 * b1 + 2 ^ 16 * b2 + 2 ^ 24 * b3 := by
  simp only [loadDWORD, byteAt, List.getD_cons_zero, List.getD_cons_succ]
  rw [Nat.mod_eq_of_lt (by omega : b0 < 2 ^ 8), Nat.mod_eq_of_lt (by omega : b1 < 2 ^ 8),
    Nat.mod_eq_of_lt (by omega : b2 < 2 ^ 8), Nat.mod_eq_of_lt (by omega : b3 < 2 ^ 8)]

/-- The decoder on the tag `D` and a buffer of four bytes. -/
theorem decodePLCValue_D (littleEndian : Bool) (b0 b1 b2 b3 : Nat) (h0 : b0 < 256)
    (h1 : b1 < 256) (h2 : b2 < 256) (h3 : b3 < 256) :
    decodePLCValue littleEndian 'D' [b0, b1, b2, b3] =
      if littleEndian = true then
        (if (b3 : Int) * 2 ^ 24 + b2 * 2 ^ 16 + b1 * 2 ^ 8 + b0 < 2 ^ 31 then
          (b3 : Int) * 2 ^ 24 + b2 * 2 ^ 16 + b1 * 2 ^ 8 + b0
        else (b3 : Int) * 2 ^ 24 + b2 * 2 ^ 16 + b1 * 2 ^ 8 + b0 - 2 ^ 32)
      else
        (if (b0 : Int) * 2 ^ 24 + b1 * 2 ^ 16 + b2 * 2 ^ 8 + b3 < 2 ^ 31 then
          (b0 : Int) * 2 ^ 24 + b1 * 2 ^ 16 + b2 * 2 ^ 8 + b3
        else (b0 : Int) * 2 ^ 24 + b1 * 2 ^ 16 + b2 * 2 ^ 8 + b3 - 2 ^ 32) := by
  have hB : ('D' : Char) ≠ 'B' := by decide
  have hW : ('D' : Char) ≠ 'W' := by decide
  unfold decodePLCValue
  rw [if_neg hB, if_neg hW, if_pos rfl, loadDWORD_bytes b0 b1 b2 b3 h0 h1 h2 h3,
    _lswap_bytes b0 b1 b2 b3 h0 h1 h2 h3]
  unfold toLong
  cases littleEndian
  · simp only [Bool.false_eq_true, if_false]
    rw [Nat.mod_eq_of_lt (by omega : b3 + 2 ^ 8 * b2 + 2 ^ 16 * b1 + 2 ^ 24 * b0 < 2 ^ 32)]
    split_ifs <;> push_cast <;> omega
  · simp only [if_true]
    rw [Nat.mod_eq_of_lt (by omega : b0 + 2 ^ 8 * b1 + 2 ^ 16 * b2 + 2 ^ 24 * b3 < 2 ^ 32)]
    split_ifs <;> push_cast <;> omega

set_option maxRecDepth 100000 in
theorem bit7_iff : ∀ b : Nat, b < 256 → ((b % 2 ^ 8) &&& 0x80 ≠ 0 ↔ 128 ≤ b) := by
  decide

theorem healthyLibrary_OpenGivesHandle : healthyLibrary.OpenGivesHandle := by
  intro history address _
  show (7 : Nat) ≠ INVALID_HANDLE_VALUE
  decide

theorem Disconnect_of_invalid (lib : Lsv2Library) (s : HeidenhainLsv2)
    (h : s.m_hPort = INVALID_HANDLE_VALUE) : Disconnect lib s = { s with m_connected := false } := by
  unfold Disconnect
  rw [if_pos h]

theorem Disconnect_m_hPort (lib : Lsv2Library) (s : HeidenhainLsv2) :
    (Disconnect lib s).m_hPort = INVALID_HANDLE_VALUE := by
  have hd := Disconnect_session lib s
  by_cases h : s.m_hPort = INVALID_HANDLE_VALUE
  · rw [Disconnect_of_invalid lib s h]
    exact h
  · simp only [h, if_false, sessionOf, Prod.mk.injEq] at hd
    exact hd.2.1

theorem Disconnect_m_connected (lib : Lsv2Library) (s : HeidenhainLsv2) :
    (Disconnect lib s).m_connected = false := by
  have hd := Disconnect_session lib s
  by_cases h : s.m_hPort = INVALID_HANDLE_VALUE
  · rw [Disconnect_of_invalid lib s h]
  · simp only [h, if_false, sessionOf, Prod.mk.injEq] at hd
    exact hd.1

/-- On a valid handle, `Disconnect` clears the session and its history contains `LSV2Close` on
that handle. -/
theorem Disconnect_closes (lib : Lsv2Library) (s : HeidenhainLsv2)
    (h : s.m_hPort ≠ INVALID_HANDLE_VALUE) :
    sessionOf (Disconnect lib s) = (false, INVALID_HANDLE_VALUE, false, false, false, false) ∧
      VendorCall.LSV2Close s.m_hPort ∈ (Disconnect lib s).calls := by
  have hd := Disconnect_session lib s
  rw [if_neg h] at hd
  refine ⟨hd, ?_⟩
  obtain ⟨tr, le, htr, q⟩ := Disconnect_of_valid lib s h
  rw [q]
  simp only [List.mem_append]
  right
  have hmem : VendorCall.LSV2Close s.m_hPort ∈ sessionCalls tr := by
    rw [htr]
    simp [teardownCalls]
  exact (List.mem_filter.mp hmem).1

/-! ## Lemmas on the failure paths of the readers -/

/-- A true result of `CheckConnection` leaves the session connected. -/
theorem CheckConnection_true_connected (lib : Lsv2Library) (s : HeidenhainLsv2) :
    (CheckConnection lib s).1 = .ok true → (CheckConnection lib s).2.m_connected = true := by
  unfold CheckConnection
  by_cases hc : s.m_connected = false
  · rw [if_pos hc]
    cases hip : s.IPAddress with
    | none => simp
    | some ip =>
      simp only []
      rcases hload : ensureLsv2Library lib s with ⟨res, s1⟩
      cases res with
      | error e => simp
      | ok u =>
        simp only []
        unfold openSession
        simp only []
        split
        · simp
        · split
          · simp
          · split
            · simp
            · split
              · simp
              · simp
  · rw [if_neg hc]
    intro _
    simpa using hc

/-- C2: in every state reached from the constructor by the property setters, `Start`, `Finish`,
the five `Check...Connection` methods, `Disconnect` and the read operations, with any outcomes
of the vendor calls such that a successful `LSV2Open` gives a handle other than
`INVALID_HANDLE_VALUE`, each login flag that is true implies `m_connected`; equivalently, when
`m_connected` is false the four login flags are false. -/
theorem login_flags_imply_connected (lib : Lsv2Library) (hlib : lib.OpenGivesHandle)
    (s : HeidenhainLsv2) (hreach : Reachable lib s) :
    (s.m_isLoggedDnc = true → s.m_connected = true) ∧
    (s.m_isLoggedFile = true → s.m_connected = true) ∧
    (s.m_isLoggedPlc = true → s.m_connected = true) ∧
    (s.m_isLoggedData = true → s.m_connected = true) ∧
    (s.m_connected = false →
      s.m_isLoggedDnc = false ∧ s.m_isLoggedFile = false ∧ s.m_isLoggedPlc = false ∧
        s.m_isLoggedData = false) := by
  obtain ⟨ops, rfl⟩ := hreach
  have hinv := SessionInvariant_runAll lib hlib ops HeidenhainLsv2.new SessionInvariant_new
  generalize runAll lib HeidenhainLsv2.new ops = t at hinv
  have h2 := hinv.2
  cases hc : t.m_connected
  · have := h2 hc
    simp [this]
  · simp

/-- Witness of C2: after the host set the address and the acquisition identifier and called
`CheckPLCConnection` on a library where every call succeeds, the PLC login is established and
the session is connected. -/
theorem login_flags_imply_connected_witness :
    (runAll healthyLibrary HeidenhainLsv2.new
      [Operation.SetIPAddress (some "192.168.0.10"), Operation.SetCncAcquisitionId 1,
        Operation.CheckPLCConnection]).m_isLoggedPlc = true ∧
    (runAll healthyLibrary HeidenhainLsv2.new
      [Operation.SetIPAddress (some "192.168.0.10"), Operation.SetCncAcquisitionId 1,
        Operation.CheckPLCConnection]).m_connected = true :=
  ⟨by decide,
    (login_flags_imply_connected healthyLibrary healthyLibrary_OpenGivesHandle _
      ⟨[Operation.SetIPAddress (some "192.168.0.10"), Operation.SetCncAcquisitionId 1,
        Operation.CheckPLCConnection], rfl⟩).2.2.1 (by decide)⟩

/-- C3: from a state that is not connected, with an address configured and the library
loaded (`ensureLsv2Library` returned, leaving `s1`), if `LSV2Open` succeeds with a valid handle
and `CheckConnection` does not return true, that is, the INSPECT login, `LSV2ReceivePara` or
`LSV2ReceiveVersions` failed, then `CheckConnection` returns false, and afterwards
`m_connected` is false, `*m_hPort` is `INVALID_HANDLE_VALUE`, the four login flags are false and
`LSV2Close` was called on the opened handle. -/
theorem CheckConnection_no_partial_state (lib : Lsv2Library) (s s1 : HeidenhainLsv2)
    (ip : String) (hc : s.m_connected = false) (hip : s.IPAddress = some ip)
    (hload : ensureLsv2Library lib s = (.ok (), s1))
    (hopen : (lib.reply s1 (VendorCall.LSV2Open ip)).ok = true)
    (hvalid : (lib.reply s1 (VendorCall.LSV2Open ip)).handle ≠ INVALID_HANDLE_VALUE)
    (hfail : (CheckConnection lib s).1 ≠ .ok true) :
    (CheckConnection lib s).1 = .ok false ∧
    (CheckConnection lib s).2.m_connected = false ∧
    (CheckConnection lib s).2.m_hPort = INVALID_HANDLE_VALUE ∧
    (CheckConnection lib s).2.m_isLoggedDnc = false ∧
    (CheckConnection lib s).2.m_isLoggedFile = false ∧
    (CheckConnection lib s).2.m_isLoggedPlc = false ∧
    (CheckConnection lib s).2.m_isLoggedData = false ∧
    VendorCall.LSV2Close (lib.reply s1 (VendorCall.LSV2Open ip)).handle
      ∈ (CheckConnection lib s).2.calls := by
  have key : ∀ t : HeidenhainLsv2,
      t.m_hPort = (lib.reply s1 (VendorCall.LSV2Open ip)).handle →
      (Disconnect lib t).m_connected = false ∧
      (Disconnect lib t).m_hPort = INVALID_HANDLE_VALUE ∧
      (Disconnect lib t).m_isLoggedDnc = false ∧
      (Disconnect lib t).m_isLoggedFile = false ∧
      (Disconnect lib t).m_isLoggedPlc = false ∧
      (Disconnect lib t).m_isLoggedData = false ∧
      VendorCall.LSV2Close (lib.reply s1 (VendorCall.LSV2Open ip)).handle
        ∈ (Disconnect lib t).calls := by
    intro t ht
    have hv : t.m_hPort ≠ INVALID_HANDLE_VALUE := by rw [ht]; exact hvalid
    obtain ⟨hsess, hclose⟩ := Disconnect_closes lib t hv
    simp only [sessionOf, Prod.mk.injEq] at hsess
    obtain ⟨h1, h2, h3, h4, h5, h6⟩ := hsess
    rw [ht] at hclose
    exact ⟨h1, h2, h3, h4, h5, h6, hclose⟩
  have hcc : CheckConnection lib s = openSession lib s1 ip := by
    unfold CheckConnection
    rw [if_pos hc, hip]
    simp only [hload]
  rw [hcc] at hfail ⊢
  unfold openSession at hfail ⊢
  simp only [] at hfail ⊢
  rw [if_neg (by simp [hopen])] at hfail ⊢
  split at hfail
  · rw [if_pos (by assumption)]
    exact ⟨rfl, key _ rfl⟩
  · rw [if_neg (by assumption)]
    split at hfail
    · rw [if_pos (by assumption)]
      exact ⟨rfl, key _ rfl⟩
    · rw [if_neg (by assumption)]
      split at hfail
      · rw [if_pos (by assumption)]
        exact ⟨rfl, key _ rfl⟩
      · exact absurd rfl hfail

/-- Witness of C3: `LSV2Open` gives handle 7 and the INSPECT login fails. -/
theorem CheckConnection_no_partial_state_witness :
    (CheckConnection loginFailsLibrary idleSession).1 = .ok false ∧
    (CheckConnection loginFailsLibrary idleSession).2.m_connected = false ∧
    (CheckConnection loginFailsLibrary idleSession).2.m_hPort = INVALID_HANDLE_VALUE ∧
    (CheckConnection loginFailsLibrary idleSession).2.m_isLoggedDnc = false ∧
    (CheckConnection loginFailsLibrary idleSession).2.m_isLoggedFile = false ∧
    (CheckConnection loginFailsLibrary idleSession).2.m_isLoggedPlc = false ∧
    (CheckConnection loginFailsLibrary idleSession).2.m_isLoggedData = false ∧
    VendorCall.LSV2Close 7 ∈ (CheckConnection loginFailsLibrary idleSession).2.calls :=
  CheckConnection_no_partial_state loginFailsLibrary idleSession idleSession "192.168.0.10"
    rfl rfl rfl rfl (by decide) (by decide)

/-- C4, the claim fails: with the PLC login established on handle 7 and the INSPECT logout
failing, the calls `Disconnect` makes are not only the logouts and the close: after the failed
logout `LogLsv2Error` calls `LSV2GetErrStringEx` and `LSV2GetTCPErrorDetails`. -/
theorem Disconnect_failed_logout_calls :
    (Disconnect logoutFailsLibrary plcSession).calls =
      [VendorCall.LSV2Logout 7 "PLCDEBUG", VendorCall.LSV2Logout 7 "INSPECT",
        VendorCall.LSV2GetErrStringEx 7 5, VendorCall.LSV2GetTCPErrorDetails,
        VendorCall.LSV2Logout 7 "", VendorCall.LSV2Close 7] ∧
    (Disconnect logoutFailsLibrary plcSession).calls ≠
      [VendorCall.LSV2Logout 7 "PLCDEBUG", VendorCall.LSV2Logout 7 "INSPECT",
        VendorCall.LSV2Logout 7 "", VendorCall.LSV2Close 7] := by
  decide

/-- C4 as amended: on a handle other than `INVALID_HANDLE_VALUE`, whatever the vendor calls return,
`Disconnect` appends to the history calls which, the error-text look-ups that `LogLsv2Error`
makes for the log after a failed step left aside, are exactly: logout DNC, FILE, PLCDEBUG, DATA,
each if its flag is set, then logout INSPECT, logout of the empty name, and `LSV2Close`;
afterwards the four login flags are false, the handle is `INVALID_HANDLE_VALUE` and
`m_connected` is false.  On the handle `INVALID_HANDLE_VALUE` it makes no call and only clears
`m_connected`.  `Disconnect` is idempotent. -/
theorem Disconnect_best_effort_ordered (lib : Lsv2Library) (s : HeidenhainLsv2) :
    (s.m_hPort ≠ INVALID_HANDLE_VALUE →
      (∃ appended : List VendorCall,
        (Disconnect lib s).calls = s.calls ++ appended ∧
        sessionCalls appended =
          (if s.m_isLoggedDnc then [VendorCall.LSV2Logout s.m_hPort "DNC"] else [])
            ++ (if s.m_isLoggedFile then [VendorCall.LSV2Logout s.m_hPort "FILE"] else [])
            ++ (if s.m_isLoggedPlc then [VendorCall.LSV2Logout s.m_hPort "PLCDEBUG"] else [])
            ++ (if s.m_isLoggedData then [VendorCall.LSV2Logout s.m_hPort "DATA"] else [])
            ++ [VendorCall.LSV2Logout s.m_hPort "INSPECT", VendorCall.LSV2Logout s.m_hPort "",
                VendorCall.LSV2Close s.m_hPort]) ∧
      (Disconnect lib s).m_isLoggedDnc = false ∧
      (Disconnect lib s).m_isLoggedFile = false ∧
      (Disconnect lib s).m_isLoggedPlc = false ∧
      (Disconnect lib s).m_isLoggedData = false ∧
      (Disconnect lib s).m_hPort = INVALID_HANDLE_VALUE ∧
      (Disconnect lib s).m_connected = false) ∧
    (s.m_hPort = INVALID_HANDLE_VALUE → Disconnect lib s = { s with m_connected := false }) ∧
    Disconnect lib (Disconnect lib s) = Disconnect lib s := by
  refine ⟨?_, Disconnect_of_invalid lib s, ?_⟩
  · intro h
    obtain ⟨tr, le, htr, q⟩ := Disconnect_of_valid lib s h
    rw [q]
    refine ⟨⟨tr, rfl, ?_⟩, rfl, rfl, rfl, rfl, rfl, rfl⟩
    rw [htr]
    simp [teardownCalls, List.append_assoc]
  · rw [Disconnect_of_invalid lib (Disconnect lib s) (Disconnect_m_hPort lib s)]
    have hc := Disconnect_m_connected lib s
    generalize Disconnect lib s = t at hc
    cases t
    simp only [] at hc
    subst hc
    rfl

/-- Witness of C4 as amended: with the PLC login established on handle 7 and the INSPECT logout failing,
the teardown still runs to `LSV2Close` and clears the session. -/
theorem Disconnect_best_effort_ordered_witness :
    (∃ appended : List VendorCall,
      (Disconnect logoutFailsLibrary plcSession).calls = plcSession.calls ++ appended ∧
      sessionCalls appended =
        (if plcSession.m_isLoggedDnc then [VendorCall.LSV2Logout plcSession.m_hPort "DNC"]
          else [])
          ++ (if plcSession.m_isLoggedFile then [VendorCall.LSV2Logout plcSession.m_hPort "FILE"]
            else [])
          ++ (if plcSession.m_isLoggedPlc then
              [VendorCall.LSV2Logout plcSession.m_hPort "PLCDEBUG"] else [])
          ++ (if plcSession.m_isLoggedData then [VendorCall.LSV2Logout plcSession.m_hPort "DATA"]
            else [])
          ++ [VendorCall.LSV2Logout plcSession.m_hPort "INSPECT",
              VendorCall.LSV2Logout plcSession.m_hPort "",
              VendorCall.LSV2Close plcSession.m_hPort]) ∧
    (Disconnect logoutFailsLibrary plcSession).m_isLoggedDnc = false ∧
    (Disconnect logoutFailsLibrary plcSession).m_isLoggedFile = false ∧
    (Disconnect logoutFailsLibrary plcSession).m_isLoggedPlc = false ∧
    (Disconnect logoutFailsLibrary plcSession).m_isLoggedData = false ∧
    (Disconnect logoutFailsLibrary plcSession).m_hPort = INVALID_HANDLE_VALUE ∧
    (Disconnect logoutFailsLibrary plcSession).m_connected = false :=
  (Disconnect_best_effort_ordered logoutFailsLibrary plcSession).1 (by decide)

/-- C5: when `m_connected` is true, `CheckConnection` returns true and leaves the object as it
was, the history of vendor calls included, so that it makes no vendor call; hence a call that
follows a call that returned true makes no call either: the handshake happens at most once. -/
theorem CheckConnection_idempotent (lib : Lsv2Library) (s : HeidenhainLsv2) :
    (s.m_connected = true → CheckConnection lib s = (.ok true, s)) ∧
    ((CheckConnection lib s).1 = .ok true →
      CheckConnection lib (CheckConnection lib s).2 = (.ok true, (CheckConnection lib s).2)) := by
  have fast : ∀ t : HeidenhainLsv2, t.m_connected = true → CheckConnection lib t = (.ok true, t) := by
    intro t ht
    unfold CheckConnection
    rw [if_neg (by simp [ht])]
  exact ⟨fast s, fun h => fast _ (CheckConnection_true_connected lib s h)⟩

/-- Witness of C5: on the connected session `plcSession` the call returns true and changes
nothing; after a first call that connected `idleSession`, a second call changes nothing. -/
theorem CheckConnection_idempotent_witness :
    CheckConnection healthyLibrary plcSession = (.ok true, plcSession) ∧
    CheckConnection healthyLibrary (CheckConnection healthyLibrary idleSession).2
      = (.ok true, (CheckConnection healthyLibrary idleSession).2) :=
  ⟨(CheckConnection_idempotent healthyLibrary plcSession).1 rfl,
    (CheckConnection_idempotent healthyLibrary idleSession).2 (by decide)⟩

/-- C6: when the PLC connection is established (the check returns true, leaving `s1`) and
`LSV2ReceiveMem` succeeds with the four bytes `b0 b1 b2 b3`, `GetPLCValue ('D', address)`
returns the signed 32-bit integer of big-endian value `b0*2^24 + b1*2^16 + b2*2^8 + b3` when
the flag `V_EX_INTEL` is clear, and of little-endian value `b3*2^24 + b2*2^16 + b1*2^8 + b0`
when it is set. -/
theorem GetPLCValue_D_decode (lib : Lsv2Library) (s s1 : HeidenhainLsv2) (address : Int)
    (b0 b1 b2 b3 : Nat) (h0 : b0 < 256) (h1 : b1 < 256) (h2 : b2 < 256) (h3 : b3 < 256)
    (hplc : CheckPLCConnection lib s = (.ok true, s1))
    (hok : (lib.reply s1 (VendorCall.LSV2ReceiveMem s1.m_hPort
      (toDWORD (s1.m_lsv2Para.wordstart + address)) 4)).ok = true)
    (hbytes : (lib.reply s1 (VendorCall.LSV2ReceiveMem s1.m_hPort
      (toDWORD (s1.m_lsv2Para.wordstart + address)) 4)).bytes = [b0, b1, b2, b3]) :
    (GetPLCValue lib s 'D' address).1 =
      .ok (if s1.m_lsv2Para.lsv2version_flags_ex &&& lib.V_EX_INTEL = 0 then
            (if (b0 : Int) * 2 ^ 24 + b1 * 2 ^ 16 + b2 * 2 ^ 8 + b3 < 2 ^ 31 then
              (b0 : Int) * 2 ^ 24 + b1 * 2 ^ 16 + b2 * 2 ^ 8 + b3
            else (b0 : Int) * 2 ^ 24 + b1 * 2 ^ 16 + b2 * 2 ^ 8 + b3 - 2 ^ 32)
          else
            (if (b3 : Int) * 2 ^ 24 + b2 * 2 ^ 16 + b1 * 2 ^ 8 + b0 < 2 ^ 31 then
              (b3 : Int) * 2 ^ 24 + b2 * 2 ^ 16 + b1 * 2 ^ 8 + b0
            else (b3 : Int) * 2 ^ 24 + b2 * 2 ^ 16 + b1 * 2 ^ 8 + b0 - 2 ^ 32)) := by
  have hinfo : GetPLCTypeInfo s1 'D' address = some (4, s1.m_lsv2Para.wordstart + address) := by
    unfold GetPLCTypeInfo
    rw [if_neg (by decide), if_neg (by decide), if_neg (by decide), if_neg (by decide),
      if_neg (by decide), if_neg (by decide), if_neg (by decide), if_pos rfl]
  unfold GetPLCValue
  rw [hplc]
  simp only [hinfo]
  rw [if_neg (by simp [hok]), hbytes, decodePLCValue_D _ b0 b1 b2 b3 h0 h1 h2 h3]
  by_cases hflag : s1.m_lsv2Para.lsv2version_flags_ex &&& lib.V_EX_INTEL = 0
  · simp [HeidenhainLsv2.issued, hflag]
  · simp [HeidenhainLsv2.issued, hflag]

/-- Witness of C6: the buffer `[0x00, 0x00, 0x01, 0x00]` decodes to 256 on a big-endian control
and to 65536 on a little-endian one. -/
theorem GetPLCValue_D_decode_witness :
    (GetPLCValue (memoryLibrary [0, 0, 1, 0]) plcSession 'D' 388).1 = .ok 256 ∧
    (GetPLCValue (memoryLibrary [0, 0, 1, 0]) plcSessionIntel 'D' 388).1 = .ok 65536 :=
  ⟨GetPLCValue_D_decode (memoryLibrary [0, 0, 1, 0]) plcSession plcSession 388 0 0 1 0
      (by decide) (by decide) (by decide) (by decide) rfl rfl rfl,
    GetPLCValue_D_decode (memoryLibrary [0, 0, 1, 0]) plcSessionIntel plcSessionIntel 388 0 0 1 0
      (by decide) (by decide) (by decide) (by decide) rfl rfl rfl⟩

/-- C7, evaluated at the all-0xFF word: with the little-endian flag set `GetPLCValue ('W', 0)`
returns -1, with the flag clear it returns 65535, which is outside the signed 16-bit range:
the big-endian branch converts the unsigned result of `_wswap` to `long`, while the
little-endian branch reads a `short`. -/
theorem GetPLCValue_W_big_endian_unsigned :
    (GetPLCValue (memoryLibrary [0xFF, 0xFF]) plcSessionIntel 'W' 0).1 = .ok (-1) ∧
    (GetPLCValue (memoryLibrary [0xFF, 0xFF]) plcSession 'W' 0).1 = .ok 65535 ∧
    ¬ ((65535 : Int) ≤ 32767) := by
  decide

/-- C8, the claim fails: on the established PLC connection `plcSession`, with
`LSV2ReceiveMem` ready to give a first byte 0x80, the tag `X` (none of `B`, `W`, `D`) does not
decode to 1: `GetPLCValue` raises `GetPLCTypeInfo failed`, without reading the memory. -/
theorem GetPLCValue_unknown_tag_raises :
    (GetPLCValue (memoryLibrary [0x80]) plcSession 'X' 0).1 = .error "GetPLCTypeInfo failed" ∧
    (GetPLCValue (memoryLibrary [0x80]) plcSession 'X' 0).1 ≠ .ok 1 ∧
    (∀ address length, VendorCall.LSV2ReceiveMem 7 address length
      ∉ (GetPLCValue (memoryLibrary [0x80]) plcSession 'X' 0).2.calls) := by
  refine ⟨by decide, by decide, ?_⟩
  intro address length
  have : (GetPLCValue (memoryLibrary [0x80]) plcSession 'X' 0).2.calls
      = [VendorCall.LSV2GetErrStringEx 7 0, VendorCall.LSV2GetTCPErrorDetails] := by decide
  rw [this]
  simp

/-- C8 as amended: on an established PLC connection (the check returns true, leaving `s1`),
for a tag among `M`, `I`, `O`, `T`, `C`, when `LSV2ReceiveMem` succeeds with a first byte `b0`,
`GetPLCValue` returns 1 if bit 0x80 of `b0` is set (`b0 ≥ 128`) and 0 otherwise; for a tag that
is none of `M`, `I`, `O`, `T`, `C`, `B`, `W`, `D` it raises `GetPLCTypeInfo failed`. -/
theorem GetPLCValue_boolean_tags (lib : Lsv2Library) (s s1 : HeidenhainLsv2) (type : Char)
    (address : Int) (hplc : CheckPLCConnection lib s = (.ok true, s1)) :
    (∀ (rawAddress : Int) (b0 : Nat) (rest : List Nat),
      type ∈ ['M', 'I', 'O', 'T', 'C'] →
      GetPLCTypeInfo s1 type address = some (1, rawAddress) →
      (lib.reply s1 (VendorCall.LSV2ReceiveMem s1.m_hPort (toDWORD rawAddress) 1)).ok = true →
      (lib.reply s1 (VendorCall.LSV2ReceiveMem s1.m_hPort (toDWORD rawAddress) 1)).bytes
        = b0 :: rest →
      b0 < 256 →
      (GetPLCValue lib s type address).1 = .ok (if 128 ≤ b0 then 1 else 0)) ∧
    (type ∉ ['M', 'I', 'O', 'T', 'C', 'B', 'W', 'D'] →
      (GetPLCValue lib s type address).1 = .error "GetPLCTypeInfo failed") := by
  constructor
  · intro rawAddress b0 rest htype hinfo hok hbytes hb0
    have hB : type ≠ 'B' := by
      intro h
      subst h
      revert htype
      decide
    have hW : type ≠ 'W' := by
      intro h
      subst h
      revert htype
      decide
    have hD : type ≠ 'D' := by
      intro h
      subst h
      revert htype
      decide
    unfold GetPLCValue
    rw [hplc]
    simp only [hinfo]
    rw [if_neg (by simp [hok]), hbytes]
    unfold decodePLCValue
    rw [if_neg hB, if_neg hW, if_neg hD]
    have hbit := bit7_iff b0 hb0
    have hbyte : byteAt (b0 :: rest) 0 = b0 % 2 ^ 8 := by
      simp [byteAt]
    rw [hbyte]
    by_cases h128 : 128 ≤ b0
    · rw [if_pos (hbit.mpr h128), if_pos h128]
    · rw [if_neg (fun h => h128 (hbit.mp h)), if_neg h128]
  · intro htype
    simp only [List.mem_cons, List.mem_singleton, List.not_mem_nil, or_false, not_or] at htype
    obtain ⟨hM, hI, hO, hT, hC, hB, hW, hD⟩ := htype
    have hinfo : GetPLCTypeInfo s1 type address = none := by
      unfold GetPLCTypeInfo
      rw [if_neg hM, if_neg hI, if_neg hO, if_neg hT, if_neg hC, if_neg hB, if_neg hW, if_neg hD]
    unfold GetPLCValue
    rw [hplc]
    simp only [hinfo]

/-- Witness of C8 as amended: the marker `M` with first byte 0x80 reads as 1, the tag `X` is
rejected. -/
theorem GetPLCValue_boolean_tags_witness :
    (GetPLCValue (memoryLibrary [0x80]) plcSession 'M' 5).1 = .ok 1 ∧
    (GetPLCValue (memoryLibrary [0x80]) plcSession 'X' 5).1 = .error "GetPLCTypeInfo failed" :=
  ⟨(GetPLCValue_boolean_tags (memoryLibrary [0x80]) plcSession plcSession 'M' 5 rfl).1
      5 0x80 [] (by decide) rfl rfl rfl (by decide),
    (GetPLCValue_boolean_tags (memoryLibrary [0x80]) plcSession plcSession 'X' 5 rfl).2
      (by decide)⟩

/-- C9, evaluated at the double payload 0.5: `GetBoolData` returns false although the value
is not zero, because the value is converted to `Int32` before it is compared with 0. -/
theorem GetBoolData_half_is_false :
    (GetBoolData (dataLibrary { DataType := GVT.GVT_R8, DataDouble := half }) dataSession
      "\\PLC\\memory\\D\\388").1 = .ok false ∧ half ≠ 0 := by
  decide

/-- C10: when `GetData` returns the payload `data`, `GetBoolData` returns, for the string
discriminant, true if and only if the text is not exactly `"0"` (so `"0"` gives false and
`"0.0"` gives true), and for a numeric discriminant whose value is 0 it returns false. -/
theorem GetBoolData_string_payload (lib : Lsv2Library) (s s1 : HeidenhainLsv2)
    (entryName : String) (data : LSV2DATA) (hdata : GetData lib s entryName = (.ok data, s1)) :
    (data.DataType = GVT.GVT_STRING →
      (GetBoolData lib s entryName).1 = .ok (decide (data.DataString ≠ "0"))) ∧
    (data.DataType = GVT.GVT_STRING → data.DataString = "0" →
      (GetBoolData lib s entryName).1 = .ok false) ∧
    (data.DataType = GVT.GVT_STRING → data.DataString = "0.0" →
      (GetBoolData lib s entryName).1 = .ok true) ∧
    ((data.DataType = GVT.GVT_I2 ∨ data.DataType = GVT.GVT_UI2) → data.DataWord = 0 →
      (GetBoolData lib s entryName).1 = .ok false) ∧
    ((data.DataType = GVT.GVT_I4 ∨ data.DataType = GVT.GVT_UI4) → data.DataLong = 0 →
      (GetBoolData lib s entryName).1 = .ok false) ∧
    ((data.DataType = GVT.GVT_R4 ∨ data.DataType = GVT.GVT_R8) → data.DataDouble = 0 →
      (GetBoolData lib s entryName).1 = .ok false) := by
  have hres : (GetBoolData lib s entryName).1 = boolOfData data := by
    unfold GetBoolData
    rw [hdata]
  rw [hres]
  refine ⟨?_, ?_, ?_, ?_, ?_, ?_⟩
  · intro ht
    by_cases hs : data.DataString = "0" <;> simp [boolOfData, ht, hs]
  · intro ht hs
    simp [boolOfData, ht, hs]
  · intro ht hs
    simp [boolOfData, ht, hs]
  · rintro (ht | ht) hv <;> simp [boolOfData, ht, hv]
  · rintro (ht | ht) hv <;> simp [boolOfData, ht, hv]
  · rintro (ht | ht) hv <;> simp [boolOfData, ht, hv, doubleToInt32]

/-- Witness of C10: the string `"0.0"` gives true and the string `"0"` gives false. -/
theorem GetBoolData_string_payload_witness :
    (GetBoolData (dataLibrary { DataType := GVT.GVT_STRING, DataString := "0.0" }) dataSession
      "\\PLC\\memory\\D\\388").1 = .ok true ∧
    (GetBoolData (dataLibrary { DataType := GVT.GVT_STRING, DataString := "0" }) dataSession
      "\\PLC\\memory\\D\\388").1 = .ok false :=
  ⟨(GetBoolData_string_payload (dataLibrary { DataType := GVT.GVT_STRING, DataString := "0.0" })
      dataSession _ "\\PLC\\memory\\D\\388" { DataType := GVT.GVT_STRING, DataString := "0.0" }
      rfl).2.2.1 rfl rfl,
    (GetBoolData_string_payload (dataLibrary { DataType := GVT.GVT_STRING, DataString := "0" })
      dataSession _ "\\PLC\\memory\\D\\388" { DataType := GVT.GVT_STRING, DataString := "0" }
      rfl).2.1 rfl rfl⟩

/-! ## Lemmas on the caches -/

theorem dictGet_cons {α : Type} (a : String × α) (d : List (String × α)) (k : String) :
    dictGet (a :: d) k = if a.1 = k then some a.2 else dictGet d k := by
  unfold dictGet
  by_cases h : a.1 = k
  · simp [List.find?_cons, h]
  · simp [List.find?_cons, h]

theorem dictGet_map_set {α : Type} (d : List (String × α)) (k k' : String) (v : α) :
    dictGet (d.map (fun entry => if entry.1 == k then (k, v) else entry)) k' =
      if k' = k then (if d.any (fun entry => entry.1 == k) then some v else none)
      else dictGet d k' := by
  induction d with
  | nil => simp [dictGet]
  | cons a d ih =>
    rw [List.map_cons, dictGet_cons, dictGet_cons, ih, List.any_cons]
    by_cases hak : a.1 = k
    · by_cases hk : k' = k
      · simp [hak, hk]
      · have hk2 : ¬ k = k' := fun h => hk h.symm
        simp [hak, hk, hk2]
    · by_cases hk : k' = k
      · subst hk
        simp only [hak, if_false, if_true, Bool.or_eq_true, beq_iff_eq, false_or]
      · simp [hak, hk]

theorem dictGet_append_single {α : Type} (d : List (String × α)) (k k' : String) (v : α) :
    dictGet (d ++ [(k, v)]) k' = (dictGet d k').or (if k = k' then some v else none) := by
  induction d with
  | nil => simp [dictGet_cons, dictGet]
  | cons a d ih =>
    rw [List.cons_append, dictGet_cons, dictGet_cons, ih]
    by_cases h : a.1 = k' <;> simp [h]

theorem dictGet_none_of_not_any {α : Type} (d : List (String × α)) (k : String)
    (h : d.any (fun entry => entry.1 == k) = false) : dictGet d k = none := by
  induction d with
  | nil => simp [dictGet]
  | cons a d ih =>
    rw [List.any_cons, Bool.or_eq_false_iff] at h
    rw [dictGet_cons, ih h.2]
    have : ¬ a.1 = k := by simpa using h.1
    simp [this]

theorem dictGet_dictSet_self {α : Type} (d : List (String × α)) (k : String) (v : α) :
    dictGet (dictSet d k v) k = some v := by
  unfold dictSet
  split
  · rename_i h
    rw [dictGet_map_set]
    simp [h]
  · rename_i h
    have h2 : d.any (fun entry => entry.1 == k) = false := by
      cases hb : d.any (fun entry => entry.1 == k) with
      | false => rfl
      | true => exact absurd hb h
    rw [dictGet_append_single, dictGet_none_of_not_any d k h2]
    simp

theorem dictGet_dictSet_other {α : Type} (d : List (String × α)) (k k' : String) (v : α)
    (h : k' ≠ k) : dictGet (dictSet d k v) k' = dictGet d k' := by
  unfold dictSet
  split
  · rw [dictGet_map_set]
    simp [h]
  · rw [dictGet_append_single]
    have : ¬ k = k' := fun e => h e.symm
    simp [this]

theorem cachesOf_issued (s : HeidenhainLsv2) (c : VendorCall) (r : Response) :
    cachesOf (s.issued c r) = cachesOf s := rfl

theorem cachesOf_LogLsv2Error (lib : Lsv2Library) (s : HeidenhainLsv2) :
    cachesOf (LogLsv2Error lib s).2 = cachesOf s := rfl

theorem cachesOf_Disconnect (lib : Lsv2Library) (s : HeidenhainLsv2) :
    cachesOf (Disconnect lib s) = cachesOf s := by
  by_cases h : s.m_hPort = INVALID_HANDLE_VALUE
  · rw [Disconnect_of_invalid lib s h]
    rfl
  · obtain ⟨tr, le, -, q⟩ := Disconnect_of_valid lib s h
    rw [q]
    rfl

theorem cachesOf_bindLsv2Api (lib : Lsv2Library) (ms : List String) (s : HeidenhainLsv2) :
    cachesOf (bindLsv2Api lib ms s).2 = cachesOf s := by
  induction ms generalizing s with
  | nil => rfl
  | cons m ms ih =>
    unfold bindLsv2Api
    simp only []
    split
    · rfl
    · rw [ih]
      rfl

theorem cachesOf_LoadLsv2Library (lib : Lsv2Library) (s : HeidenhainLsv2) :
    cachesOf (LoadLsv2Library lib s).2 = cachesOf s := by
  unfold LoadLsv2Library
  simp only []
  split
  · rfl
  · split
    · rfl
    · split
      · rfl
      · rw [cachesOf_bindLsv2Api]
        rfl

theorem cachesOf_ensureLsv2Library (lib : Lsv2Library) (s : HeidenhainLsv2) :
    cachesOf (ensureLsv2Library lib s).2 = cachesOf s := by
  unfold ensureLsv2Library
  split
  · exact cachesOf_LoadLsv2Library lib s
  · rfl

theorem cachesOf_openSession (lib : Lsv2Library) (s : HeidenhainLsv2) (ip : String) :
    cachesOf (openSession lib s ip).2 = cachesOf s := by
  unfold openSession
  simp only []
  split
  · rfl
  · split
    · exact (cachesOf_Disconnect lib _).trans (by simp only [cachesOf, LogLsv2Error, HeidenhainLsv2.issued])
    · split
      · exact (cachesOf_Disconnect lib _).trans (by simp only [cachesOf, LogLsv2Error, HeidenhainLsv2.issued])
      · split
        · exact (cachesOf_Disconnect lib _).trans (by simp only [cachesOf, LogLsv2Error, HeidenhainLsv2.issued])
        · simp only [cachesOf, LogLsv2Error, HeidenhainLsv2.issued]

theorem cachesOf_CheckConnection (lib : Lsv2Library) (s : HeidenhainLsv2) :
    cachesOf (CheckConnection lib s).2 = cachesOf s := by
  unfold CheckConnection
  split
  · cases hip : s.IPAddress with
    | none => rfl
    | some ip =>
      simp only []
      have hl := cachesOf_ensureLsv2Library lib s
      rcases hload : ensureLsv2Library lib s with ⟨res, s1⟩
      rw [hload] at hl
      cases res with
      | error e => exact hl
      | ok u =>
        simp only []
        rw [cachesOf_openSession]
        exact hl
  · rfl

theorem cachesOf_loginStep (lib : Lsv2Library) (s : HeidenhainLsv2) (capability : String) :
    cachesOf (loginStep lib s capability).2 = cachesOf s := by
  unfold loginStep
  simp only []
  split <;> rfl

theorem cachesOf_CheckFileConnection (lib : Lsv2Library) (s : HeidenhainLsv2) :
    cachesOf (CheckFileConnection lib s).2 = cachesOf s := by
  unfold CheckFileConnection
  have hc := cachesOf_CheckConnection lib s
  rcases hcc : CheckConnection lib s with ⟨res, s1⟩
  rw [hcc] at hc
  simp only [] at hc
  cases res with
  | error e => exact hc
  | ok b =>
    cases b with
    | false => exact hc
    | true =>
      simp only []
      split
      · exact hc
      · split
        · rw [cachesOf_loginStep]
          exact hc
        · show cachesOf (loginStep lib s1 "FILE").2 = _
          rw [cachesOf_loginStep]
          exact hc

theorem cachesOf_CheckDataConnection (lib : Lsv2Library) (s : HeidenhainLsv2) :
    cachesOf (CheckDataConnection lib s).2 = cachesOf s := by
  unfold CheckDataConnection
  have hc := cachesOf_CheckConnection lib s
  rcases hcc : CheckConnection lib s with ⟨res, s1⟩
  rw [hcc] at hc
  simp only [] at hc
  cases res with
  | error e => exact hc
  | ok b =>
    cases b with
    | false => exact hc
    | true =>
      simp only []
      split
      · exact hc
      · split
        · exact hc
        · split
          · exact hc
          · split
            · rw [cachesOf_loginStep]
              exact hc
            · show cachesOf (loginStep lib s1 "DATA").2 = _
              rw [cachesOf_loginStep]
              exact hc

theorem cachesOf_GetParameter (lib : Lsv2Library) (s : HeidenhainLsv2) (entryName : String) :
    cachesOf (GetParameter lib s entryName).2 = cachesOf s := by
  unfold GetParameter
  split
  · rfl
  · have hc := cachesOf_CheckDataConnection lib s
    rcases hcc : CheckDataConnection lib s with ⟨res, s1⟩
    rw [hcc] at hc
    simp only [] at hc
    cases res with
    | error e => exact hc
    | ok b =>
      cases b with
      | false => exact hc
      | true =>
        simp only []
        split
        · exact hc
        · exact hc

theorem cachesOf_foldl_issued (lib : Lsv2Library) (c : VendorCall) (l : List _finddata32_t)
    (s : HeidenhainLsv2) :
    cachesOf (l.foldl (fun t _ => t.issued c (lib.reply t c)) s) = cachesOf s := by
  induction l generalizing s with
  | nil => rfl
  | cons a l ih =>
    rw [List.foldl_cons, ih]
    rfl

theorem cachesOf_GetFileList (lib : Lsv2Library) (s : HeidenhainLsv2) (distantDir : String) :
    cachesOf (GetFileList lib s distantDir).2 = cachesOf s := by
  unfold GetFileList
  have hc := cachesOf_CheckFileConnection lib s
  rcases hcc : CheckFileConnection lib s with ⟨res, s1⟩
  rw [hcc] at hc
  simp only [] at hc
  cases res with
  | error e => exact hc
  | ok b =>
    cases b with
    | false => exact hc
    | true =>
      simp only []
      split
      · refine Eq.trans ?_ hc
        simp only [cachesOf, LogLsv2Error, HeidenhainLsv2.issued]
      · split
        · refine Eq.trans ?_ hc
          simp only [cachesOf, LogLsv2Error, HeidenhainLsv2.issued]
        · refine Eq.trans ?_ hc
          refine (cachesOf_issued _ _ _).trans ?_
          refine (cachesOf_foldl_issued _ _ _ _).trans ?_
          simp only [cachesOf, LogLsv2Error, HeidenhainLsv2.issued]

theorem cachesOf_DeleteFile (lib : Lsv2Library) (s : HeidenhainLsv2)
    (directoryPath fileName : String) :
    cachesOf (DeleteFile lib s directoryPath fileName) = cachesOf s := by
  unfold DeleteFile
  simp only []
  split
  · simp only [cachesOf, LogLsv2Error, HeidenhainLsv2.issued]
  · split
    · simp only [cachesOf, LogLsv2Error, HeidenhainLsv2.issued]
    · refine (cachesOf_issued _ _ _).trans ?_
      split <;> simp only [cachesOf, LogLsv2Error, HeidenhainLsv2.issued]

theorem cachesOf_DeleteRemoteFiles (lib : Lsv2Library) (s : HeidenhainLsv2)
    (directoryPath : String) (fileList : List String) (fileToKeep : String) :
    cachesOf (DeleteRemoteFiles lib s directoryPath fileList fileToKeep) = cachesOf s := by
  unfold DeleteRemoteFiles
  induction fileList generalizing s with
  | nil => rfl
  | cons a l ih =>
    simp only [List.foldl_cons]
    refine (ih _).trans ?_
    split
    · rfl
    · exact cachesOf_DeleteFile lib s directoryPath a

theorem prefix_issued (s : HeidenhainLsv2) (c : VendorCall) (r : Response) :
    s.calls <+: (s.issued c r).calls :=
  List.prefix_append _ _

theorem prefix_LogLsv2Error (lib : Lsv2Library) (s : HeidenhainLsv2) :
    s.calls <+: (LogLsv2Error lib s).2.calls := by
  obtain ⟨errs, le, -, q⟩ := LogLsv2Error_eq lib s
  rw [q]
  exact List.prefix_append _ _

theorem prefix_DeleteFile (lib : Lsv2Library) (s : HeidenhainLsv2)
    (directoryPath fileName : String) :
    s.calls <+: (DeleteFile lib s directoryPath fileName).calls := by
  unfold DeleteFile
  simp only []
  split
  · simp only [LogLsv2Error, HeidenhainLsv2.issued, List.append_assoc]
    exact List.prefix_append _ _
  · split
    · simp only [LogLsv2Error, HeidenhainLsv2.issued, List.append_assoc]
      exact List.prefix_append _ _
    · split
      · simp only [LogLsv2Error, HeidenhainLsv2.issued, List.append_assoc]
        exact List.prefix_append _ _
      · simp only [LogLsv2Error, HeidenhainLsv2.issued, List.append_assoc]
        exact List.prefix_append _ _

theorem prefix_DeleteRemoteFiles (lib : Lsv2Library) (s : HeidenhainLsv2)
    (directoryPath : String) (fileList : List String) (fileToKeep : String) :
    s.calls <+: (DeleteRemoteFiles lib s directoryPath fileList fileToKeep).calls := by
  unfold DeleteRemoteFiles
  induction fileList generalizing s with
  | nil => exact List.prefix_refl _
  | cons a l ih =>
    simp only [List.foldl_cons]
    refine List.IsPrefix.trans ?_ (ih _)
    split
    · exact List.prefix_refl _
    · exact prefix_DeleteFile lib s directoryPath a

theorem prefix_removeRemoteFiles (lib : Lsv2Library) (s : HeidenhainLsv2)
    (directoryPath : String) (maxFileNumber : Int) (fileList : List String)
    (fileToKeep : String) :
    s.calls <+: (removeRemoteFiles lib s directoryPath maxFileNumber fileList fileToKeep).calls := by
  unfold removeRemoteFiles
  split
  · exact prefix_DeleteRemoteFiles _ _ _ _ _
  · split
    · exact prefix_DeleteRemoteFiles _ _ _ _ _
    · exact List.prefix_refl _

theorem cachesOf_removeRemoteFiles (lib : Lsv2Library) (s : HeidenhainLsv2)
    (directoryPath : String) (maxFileNumber : Int) (fileList : List String)
    (fileToKeep : String) :
    cachesOf (removeRemoteFiles lib s directoryPath maxFileNumber fileList fileToKeep) =
      cachesOf s := by
  unfold removeRemoteFiles
  split
  · exact cachesOf_DeleteRemoteFiles _ _ _ _ _
  · split
    · exact cachesOf_DeleteRemoteFiles _ _ _ _ _
    · rfl

/-- What the refresh of `GetStringValueFromFileName` does: it runs `GetFileList` first and
raises its exception; an exception leaves the caches as they are; a returned value is stored
in both tables with the time of the call. -/
theorem refreshValueFromFileName_spec (lib : Lsv2Library) (s : HeidenhainLsv2)
    (directoryPath : String) (maxFileNumber : Int) (suffix : Option String) :
    (GetFileList lib s directoryPath).2.calls <+:
        (refreshValueFromFileName lib s directoryPath maxFileNumber suffix).2.calls ∧
    (∀ e, (GetFileList lib s directoryPath).1 = .error e →
      refreshValueFromFileName lib s directoryPath maxFileNumber suffix =
        (.error e, (GetFileList lib s directoryPath).2)) ∧
    (∀ e, (refreshValueFromFileName lib s directoryPath maxFileNumber suffix).1 = .error e →
      cachesOf (refreshValueFromFileName lib s directoryPath maxFileNumber suffix).2 =
        cachesOf s) ∧
    (∀ v, (refreshValueFromFileName lib s directoryPath maxFileNumber suffix).1 = .ok v →
      (refreshValueFromFileName lib s directoryPath maxFileNumber suffix).2.m_lastGetFromFileNameList
          = dictSet s.m_lastGetFromFileNameList directoryPath s.now ∧
      (refreshValueFromFileName lib s directoryPath maxFileNumber suffix).2.m_lastValueFromFileNameList
          = dictSet s.m_lastValueFromFileNameList directoryPath v) := by
  unfold refreshValueFromFileName
  have hc := cachesOf_GetFileList lib s directoryPath
  rcases hg : GetFileList lib s directoryPath with ⟨res, s1⟩
  rw [hg] at hc
  simp only [] at hc
  cases res with
  | error e =>
    refine ⟨List.prefix_refl _, ?_, ?_, ?_⟩
    · intro e' he
      simp only [Except.error.injEq] at he
      rw [he]
    · intro e' _
      exact hc
    · intro v hv
      simp at hv
  | ok files =>
    simp only []
    split
    · refine ⟨List.prefix_refl _, ?_, ?_, ?_⟩
      · intro e he
        simp at he
      · intro e _
        exact hc
      · intro v hv
        simp at hv
    · split
      · refine ⟨List.prefix_refl _, ?_, ?_, ?_⟩
        · intro e he
          simp at he
        · intro e _
          exact hc
        · intro v hv
          simp at hv
      · simp only [cachesOf, Prod.mk.injEq] at hc
        obtain ⟨-, -, -, h4, h5, h6, -⟩ := hc
        refine ⟨?_, ?_, ?_, ?_⟩
        · exact prefix_removeRemoteFiles lib
            { s1 with
              m_lastGetFromFileNameList :=
                dictSet s1.m_lastGetFromFileNameList directoryPath s1.now
              m_lastValueFromFileNameList :=
                dictSet s1.m_lastValueFromFileNameList directoryPath
                  (removeSuffix (files.getLastD "") suffix) }
            directoryPath maxFileNumber files (files.getLastD "")
        · intro e he
          simp at he
        · intro e he
          simp at he
        · intro v hv
          simp only [Except.ok.injEq] at hv
          have hk := cachesOf_removeRemoteFiles lib
            { s1 with
              m_lastGetFromFileNameList :=
                dictSet s1.m_lastGetFromFileNameList directoryPath s1.now
              m_lastValueFromFileNameList :=
                dictSet s1.m_lastValueFromFileNameList directoryPath
                  (removeSuffix (files.getLastD "") suffix) }
            directoryPath maxFileNumber files (files.getLastD "")
          simp only [cachesOf, Prod.mk.injEq] at hk
          rw [← hv, ← h4, ← h5, ← h6]
          exact ⟨hk.2.2.2.1, hk.2.2.2.2.1⟩

/-! ## Lemmas on the Selca connection -/

theorem Selca_Step_refl (s : Selca) : Selca.Step s s :=
  ⟨⟨[], by simp, by simp⟩, rfl, rfl, rfl⟩

theorem Selca_Step_trans {s t u : Selca} (h1 : Selca.Step s t) (h2 : Selca.Step t u) :
    Selca.Step s u := by
  obtain ⟨⟨tr1, e1, p1⟩, a1, b1, c1⟩ := h1
  obtain ⟨⟨tr2, e2, p2⟩, a2, b2, c2⟩ := h2
  refine ⟨⟨tr1 ++ tr2, by rw [e2, e1, List.append_assoc], ?_⟩, a2.trans a1, b2.trans b1,
    c2.trans c1⟩
  intro c hc
  rcases List.mem_append.mp hc with h | h
  · exact p1 c h
  · exact p2 c h

theorem Selca_Step_issued (s : Selca) (c : SelcaCall) (hc : c.isGetMessage = false) :
    Selca.Step s (s.issued c) :=
  ⟨⟨[c], rfl, by simpa using hc⟩, rfl, rfl, rfl⟩

theorem Selca_Step_slept (s : Selca) (ms : Nat) : Selca.Step s (s.slept ms) :=
  ⟨⟨[], by simp [Selca.slept], by simp⟩, rfl, rfl, rfl⟩

/-- `Disconnect (false)` in closed form. -/
theorem Selca_Disconnect_false (s : Selca) :
    Selca.Disconnect s false =
      if s.m_cookie = 0 then s
      else if s.m_connected = true then
        { s with
          calls := s.calls ++ [SelcaCall.SOLSetConnectionMode s.m_cookie false,
            SelcaCall.SOLCloseConnection s.m_cookie]
          m_connected := false
          m_ready := false
          m_values := [] }
      else { s with m_values := [] } := by
  unfold Selca.Disconnect
  split
  · rfl
  · split
    · simp [Selca.issued]
    · simp

/-- `Disconnect (true)` in closed form. -/
theorem Selca_Disconnect_true (s : Selca) :
    Selca.Disconnect s true =
      if s.m_cookie = 0 then s
      else if s.m_connected = true then
        { s with
          calls := s.calls ++ [SelcaCall.SOLSetConnectionMode s.m_cookie false,
            SelcaCall.SOLCloseConnection s.m_cookie, SelcaCall.SOLDelete s.m_cookie]
          m_connected := false
          m_ready := false
          m_cookie := 0
          m_values := [] }
      else
        { s with
          calls := s.calls ++ [SelcaCall.SOLDelete s.m_cookie]
          m_cookie := 0
          m_values := [] } := by
  unfold Selca.Disconnect
  split
  · rfl
  · split
    · simp [Selca.issued]
    · simp [Selca.issued]

theorem Selca_Step_Disconnect (s : Selca) (deleteConnection : Bool) :
    Selca.Step s (Selca.Disconnect s deleteConnection) := by
  cases deleteConnection
  · rw [Selca_Disconnect_false]
    split
    · exact Selca_Step_refl s
    · split
      · exact ⟨⟨_, rfl, by simp [SelcaCall.isGetMessage]⟩, rfl, rfl, rfl⟩
      · exact ⟨⟨[], by simp, by simp⟩, rfl, rfl, rfl⟩
  · rw [Selca_Disconnect_true]
    split
    · exact Selca_Step_refl s
    · split
      · exact ⟨⟨_, rfl, by simp [SelcaCall.isGetMessage]⟩, rfl, rfl, rfl⟩
      · exact ⟨⟨_, rfl, by simp [SelcaCall.isGetMessage]⟩, rfl, rfl, rfl⟩

theorem Selca_Invariant_Disconnect (s : Selca) (deleteConnection : Bool)
    (h : Selca.Invariant s) : Selca.Invariant (Selca.Disconnect s deleteConnection) := by
  obtain ⟨h1, h2⟩ := h
  cases deleteConnection
  · rw [Selca_Disconnect_false]
    split
    · exact ⟨h1, h2⟩
    · split
      · exact ⟨by simp, by simp⟩
      · rename_i hc
        have hc2 : s.m_connected = false := by simpa using hc
        exact ⟨by simp [hc2], fun _ => ⟨(h2 hc2).1, rfl⟩⟩
  · rw [Selca_Disconnect_true]
    split
    · exact ⟨h1, h2⟩
    · split
      · exact ⟨by simp, by simp⟩
      · rename_i hc
        have hc2 : s.m_connected = false := by simpa using hc
        exact ⟨by simp [hc2], fun _ => ⟨(h2 hc2).1, rfl⟩⟩

/-- After `Disconnect` on a session with a cookie, the session is not connected, not ready and
holds no value. -/
theorem Selca_Disconnect_disconnected (s : Selca) (deleteConnection : Bool)
    (h : Selca.Invariant s) :
    (Selca.Disconnect s deleteConnection).m_connected = false ∧
    (Selca.Disconnect s deleteConnection).m_ready = false ∧
    (Selca.Disconnect s deleteConnection).m_values = [] ∧
    (deleteConnection = false → (Selca.Disconnect s deleteConnection).m_cookie = s.m_cookie) := by
  obtain ⟨h1, h2⟩ := h
  have hz : s.m_cookie = 0 → s.m_connected = false := by
    intro hz
    cases hc : s.m_connected
    · rfl
    · exact absurd hz (h1 hc)
  cases deleteConnection
  · rw [Selca_Disconnect_false]
    split
    · rename_i hz0
      exact ⟨hz hz0, (h2 (hz hz0)).1, (h2 (hz hz0)).2, fun _ => rfl⟩
    · split
      · exact ⟨rfl, rfl, rfl, fun _ => rfl⟩
      · rename_i hc
        have hc2 : s.m_connected = false := by simpa using hc
        exact ⟨hc2, (h2 hc2).1, rfl, fun _ => rfl⟩
  · rw [Selca_Disconnect_true]
    split
    · rename_i hz0
      exact ⟨hz hz0, (h2 (hz hz0)).1, (h2 (hz hz0)).2, by simp⟩
    · split
      · exact ⟨rfl, rfl, rfl, by simp⟩
      · rename_i hc
        have hc2 : s.m_connected = false := by simpa using hc
        exact ⟨hc2, (h2 hc2).1, rfl, by simp⟩

theorem Selca_Step_DisconnectAndFreeLibrary (lib : SeLGeCLibrary) (s : Selca) :
    Selca.Step s (Selca.DisconnectAndFreeLibrary lib s) := by
  unfold Selca.DisconnectAndFreeLibrary
  simp only []
  refine Selca_Step_trans (Selca_Step_Disconnect s true) ?_
  generalize Selca.Disconnect s true = s1
  split
  · exact ⟨⟨[SelcaCall.FreeLibrary s1.m_SeLGeCLibrary,
        SelcaCall.UnmapViewOfFile s1.m_SeLGeCLibrary], by simp [Selca.issued],
      by simp [SelcaCall.isGetMessage]⟩, rfl, rfl, rfl⟩
  · exact ⟨⟨[SelcaCall.FreeLibrary s1.m_SeLGeCLibrary], by simp [Selca.issued],
      by simp [SelcaCall.isGetMessage]⟩, rfl, rfl, rfl⟩

theorem Selca_DisconnectAndFreeLibrary_disconnected (lib : SeLGeCLibrary) (s : Selca)
    (h : Selca.Invariant s) :
    (Selca.DisconnectAndFreeLibrary lib s).m_connected = false ∧
    (Selca.DisconnectAndFreeLibrary lib s).m_ready = false ∧
    (Selca.DisconnectAndFreeLibrary lib s).m_values = [] := by
  obtain ⟨d1, d2, d3, -⟩ := Selca_Disconnect_disconnected s true h
  unfold Selca.DisconnectAndFreeLibrary
  simp only []
  generalize Selca.Disconnect s true = s1 at d1 d2 d3
  split
  · exact ⟨d1, d2, d3⟩
  · exact ⟨d1, d2, d3⟩


/-- A session that is not connected, not ready and without value satisfies the invariant. -/
theorem Selca_Invariant_of_disconnected (s : Selca) (hc : s.m_connected = false)
    (hr : s.m_ready = false) (hv : s.m_values = []) : Selca.Invariant s :=
  ⟨fun h => by rw [hc] at h; exact absurd h (by decide), fun _ => ⟨hr, hv⟩⟩

/-- The retry loop on a session that is not connected: the session stays not connected, the
cookie is kept when the loop ends on a connection, no exception is raised, and the fuel
`NB_CONNECTION_ATTEMPT` is enough. -/
theorem Selca_tryConnection_spec (lib : SeLGeCLibrary) (ip : String) (fuel : Nat) :
    ∀ (attempt : Nat) (s : Selca), s.m_connected = false → s.m_ready = false →
      s.m_values = [] →
      Selca.Step s (Selca.tryConnection lib ip fuel attempt s).2 ∧
      (Selca.tryConnection lib ip fuel attempt s).2.m_connected = false ∧
      (Selca.tryConnection lib ip fuel attempt s).2.m_ready = false ∧
      (Selca.tryConnection lib ip fuel attempt s).2.m_values = [] ∧
      ((Selca.tryConnection lib ip fuel attempt s).1 = .returned true →
        (Selca.tryConnection lib ip fuel attempt s).2.m_cookie = s.m_cookie) ∧
      (∀ e, (Selca.tryConnection lib ip fuel attempt s).1 ≠ .raised e) ∧
      (NB_CONNECTION_ATTEMPT ≤ attempt + fuel →
        (Selca.tryConnection lib ip fuel attempt s).1 ≠ .outOfFuel) := by
  have hT : ∀ (c : Int) (a : String), (SelcaCall.SOLTryConnection c a).isGetMessage = false :=
    fun _ _ => rfl
  have hI : ∀ (c : Int), (SelcaCall.SOLisConnected c).isGetMessage = false := fun _ => rfl
  have hC : ∀ (c : Int), (SelcaCall.SOLCloseConnection c).isGetMessage = false := fun _ => rfl
  induction fuel with
  | zero =>
    intro attempt s hc hr hv
    unfold Selca.tryConnection
    simp only []
    split
    · exact ⟨Selca_Step_issued _ _ (hT _ _), hc, hr, hv, fun _ => rfl, by simp, by simp⟩
    · split
      · split
        · exact ⟨Selca_Step_trans (Selca_Step_trans (Selca_Step_issued _ _ (hT _ _))
              (Selca_Step_slept _ _)) (Selca_Step_issued _ _ (hI _)), hc, hr, hv,
            fun _ => rfl, by simp, by simp⟩
        · have hinv := Selca_Invariant_of_disconnected
            (((s.issued (SelcaCall.SOLTryConnection s.m_cookie ip)).slept
              CONNECTION_INIT_SLEEP_MS).issued (SelcaCall.SOLisConnected s.m_cookie)) hc hr hv
          obtain ⟨d1, d2, d3⟩ := Selca_DisconnectAndFreeLibrary_disconnected lib _ hinv
          exact ⟨Selca_Step_trans (Selca_Step_trans (Selca_Step_trans
              (Selca_Step_issued _ _ (hT _ _)) (Selca_Step_slept _ _))
              (Selca_Step_issued _ _ (hI _))) (Selca_Step_DisconnectAndFreeLibrary lib _),
            d1, d2, d3, by simp, by simp, by simp⟩
      · split
        · rename_i hlt
          refine ⟨Selca_Step_trans (Selca_Step_issued _ _ (hT _ _)) (Selca_Step_issued _ _ (hC _)),
            hc, hr, hv, by simp, by simp, ?_⟩
          intro hle
          exact absurd hlt (by omega)
        · have hinv := Selca_Invariant_of_disconnected
            ((s.issued (SelcaCall.SOLTryConnection s.m_cookie ip)).issued
              (SelcaCall.SOLCloseConnection s.m_cookie)) hc hr hv
          obtain ⟨d1, d2, d3, -⟩ := Selca_Disconnect_disconnected _ false hinv
          have hstep := Selca_Step_Disconnect
            ((s.issued (SelcaCall.SOLTryConnection s.m_cookie ip)).issued
              (SelcaCall.SOLCloseConnection s.m_cookie)) false
          have e12 : Selca.Step s ((s.issued (SelcaCall.SOLTryConnection s.m_cookie ip)).issued
              (SelcaCall.SOLCloseConnection s.m_cookie)) :=
            Selca_Step_trans (Selca_Step_issued _ _ (hT _ _)) (Selca_Step_issued _ _ (hC _))
          exact ⟨Selca_Step_trans e12 ⟨hstep.1, hstep.2.1, hstep.2.2.1, hstep.2.2.2⟩, d1, d2, d3, by simp, by simp, by simp⟩
  | succ n ih =>
    intro attempt s hc hr hv
    unfold Selca.tryConnection
    simp only []
    split
    · exact ⟨Selca_Step_issued _ _ (hT _ _), hc, hr, hv, fun _ => rfl, by simp, by simp⟩
    · split
      · split
        · exact ⟨Selca_Step_trans (Selca_Step_trans (Selca_Step_issued _ _ (hT _ _))
              (Selca_Step_slept _ _)) (Selca_Step_issued _ _ (hI _)), hc, hr, hv,
            fun _ => rfl, by simp, by simp⟩
        · have hinv := Selca_Invariant_of_disconnected
            (((s.issued (SelcaCall.SOLTryConnection s.m_cookie ip)).slept
              CONNECTION_INIT_SLEEP_MS).issued (SelcaCall.SOLisConnected s.m_cookie)) hc hr hv
          obtain ⟨d1, d2, d3⟩ := Selca_DisconnectAndFreeLibrary_disconnected lib _ hinv
          exact ⟨Selca_Step_trans (Selca_Step_trans (Selca_Step_trans
              (Selca_Step_issued _ _ (hT _ _)) (Selca_Step_slept _ _))
              (Selca_Step_issued _ _ (hI _))) (Selca_Step_DisconnectAndFreeLibrary lib _),
            d1, d2, d3, by simp, by simp, by simp⟩
      · split
        · obtain ⟨i1, i2, i3, i4, i5, i6, i7⟩ := ih (attempt + 1)
            (((s.issued (SelcaCall.SOLTryConnection s.m_cookie ip)).issued
              (SelcaCall.SOLCloseConnection s.m_cookie)).slept RECONNECT_SLEEP_MS) hc hr hv
          refine ⟨Selca_Step_trans (Selca_Step_trans (Selca_Step_trans
              (Selca_Step_issued _ _ (hT _ _)) (Selca_Step_issued _ _ (hC _)))
              (Selca_Step_slept _ _)) i1, i2, i3, i4, i5, i6, ?_⟩
          intro hle
          exact i7 (by omega)
        · have hinv := Selca_Invariant_of_disconnected
            ((s.issued (SelcaCall.SOLTryConnection s.m_cookie ip)).issued
              (SelcaCall.SOLCloseConnection s.m_cookie)) hc hr hv
          obtain ⟨d1, d2, d3, -⟩ := Selca_Disconnect_disconnected _ false hinv
          have hstep := Selca_Step_Disconnect
            ((s.issued (SelcaCall.SOLTryConnection s.m_cookie ip)).issued
              (SelcaCall.SOLCloseConnection s.m_cookie)) false
          have e12 : Selca.Step s ((s.issued (SelcaCall.SOLTryConnection s.m_cookie ip)).issued
              (SelcaCall.SOLCloseConnection s.m_cookie)) :=
            Selca_Step_trans (Selca_Step_issued _ _ (hT _ _)) (Selca_Step_issued _ _ (hC _))
          exact ⟨Selca_Step_trans e12 ⟨hstep.1, hstep.2.1, hstep.2.2.1, hstep.2.2.2⟩, d1, d2, d3, by simp, by simp, by simp⟩


theorem Selca_bindApi_spec (lib : SeLGeCLibrary) (ms : List String) :
    ∀ s : Selca, Selca.Step s (Selca.bindApi lib ms s).2 ∧
      (Selca.bindApi lib ms s).2.m_connected = s.m_connected ∧
      (Selca.bindApi lib ms s).2.m_ready = s.m_ready ∧
      (Selca.bindApi lib ms s).2.m_values = s.m_values ∧
      (Selca.bindApi lib ms s).2.m_cookie = s.m_cookie ∧
      ((Selca.bindApi lib ms s).1 = .returned () ∨
        ∃ e, (Selca.bindApi lib ms s).1 = .raised e) := by
  induction ms with
  | nil =>
    intro s
    exact ⟨Selca_Step_refl s, rfl, rfl, rfl, rfl, Or.inl rfl⟩
  | cons m ms ih =>
    intro s
    unfold Selca.bindApi
    simp only []
    split
    · exact ⟨Selca_Step_issued _ _ rfl, rfl, rfl, rfl, rfl, Or.inr ⟨_, rfl⟩⟩
    · obtain ⟨i1, i2, i3, i4, i5, i6⟩ := ih (s.issued (SelcaCall.GetProcAddress m))
      exact ⟨Selca_Step_trans (Selca_Step_issued s (SelcaCall.GetProcAddress m) rfl) i1,
        i2, i3, i4, i5, i6⟩

theorem Selca_LoadSeLGeCLibrary_spec (lib : SeLGeCLibrary) (s : Selca) :
    Selca.Step s (Selca.LoadSeLGeCLibrary lib s).2 ∧
      (Selca.LoadSeLGeCLibrary lib s).2.m_connected = s.m_connected ∧
      (Selca.LoadSeLGeCLibrary lib s).2.m_ready = s.m_ready ∧
      (Selca.LoadSeLGeCLibrary lib s).2.m_values = s.m_values ∧
      (Selca.LoadSeLGeCLibrary lib s).2.m_cookie = s.m_cookie ∧
      ((Selca.LoadSeLGeCLibrary lib s).1 = .returned () ∨
        ∃ e, (Selca.LoadSeLGeCLibrary lib s).1 = .raised e) := by
  have h0 : Selca.Step s
      { s.issued (SelcaCall.LoadLibraryW (DLL_NAME ++ ".dll")) with
        m_SeLGeCLibrary := (lib.reply s (SelcaCall.LoadLibraryW (DLL_NAME ++ ".dll"))).handle } :=
    ⟨⟨[SelcaCall.LoadLibraryW (DLL_NAME ++ ".dll")], rfl, by simp [SelcaCall.isGetMessage]⟩,
      rfl, rfl, rfl⟩
  unfold Selca.LoadSeLGeCLibrary
  simp only []
  split
  · exact ⟨h0, rfl, rfl, rfl, rfl, Or.inr ⟨_, rfl⟩⟩
  · obtain ⟨i1, i2, i3, i4, i5, i6⟩ := Selca_bindApi_spec lib lib.apiMethods
      { s.issued (SelcaCall.LoadLibraryW (DLL_NAME ++ ".dll")) with
        m_SeLGeCLibrary := (lib.reply s (SelcaCall.LoadLibraryW (DLL_NAME ++ ".dll"))).handle }
    exact ⟨Selca_Step_trans h0 i1, i2, i3, i4, i5, i6⟩

/-- The connection of a session that is not connected: the invariant holds afterwards, a true
result means the session is connected, and any other outcome leaves it not connected. -/
theorem Selca_connect_spec (lib : SeLGeCLibrary) (s : Selca) (hc : s.m_connected = false)
    (hr : s.m_ready = false) (hv : s.m_values = []) :
    Selca.Step s (Selca.connect lib s).2 ∧ Selca.Invariant (Selca.connect lib s).2 ∧
      ((Selca.connect lib s).1 = .returned true → (Selca.connect lib s).2.m_connected = true) ∧
      ((Selca.connect lib s).1 ≠ .returned true →
        (Selca.connect lib s).2.m_connected = false) ∧
      (Selca.connect lib s).1 ≠ .outOfFuel := by
  have hinv := Selca_Invariant_of_disconnected s hc hr hv
  unfold Selca.connect
  cases hip : s.m_ipAddress with
  | none => exact ⟨Selca_Step_refl s, hinv, by simp, fun _ => hc, by simp⟩
  | some ip =>
    simp only []
    split
    · exact ⟨Selca_Step_refl s, hinv, by simp, fun _ => hc, by simp⟩
    · have hload : Selca.Step s
            (if s.m_SeLGeCLibrary = NULL then Selca.LoadSeLGeCLibrary lib s
              else (Completion.returned (), s)).2 ∧
          (if s.m_SeLGeCLibrary = NULL then Selca.LoadSeLGeCLibrary lib s
              else (Completion.returned (), s)).2.m_connected = s.m_connected ∧
          (if s.m_SeLGeCLibrary = NULL then Selca.LoadSeLGeCLibrary lib s
              else (Completion.returned (), s)).2.m_ready = s.m_ready ∧
          (if s.m_SeLGeCLibrary = NULL then Selca.LoadSeLGeCLibrary lib s
              else (Completion.returned (), s)).2.m_values = s.m_values ∧
          ((if s.m_SeLGeCLibrary = NULL then Selca.LoadSeLGeCLibrary lib s
              else (Completion.returned (), s)).1 = .returned () ∨
            ∃ e, (if s.m_SeLGeCLibrary = NULL then Selca.LoadSeLGeCLibrary lib s
              else (Completion.returned (), s)).1 = .raised e) := by
        split
        · obtain ⟨i1, i2, i3, i4, -, i6⟩ := Selca_LoadSeLGeCLibrary_spec lib s
          exact ⟨i1, i2, i3, i4, i6⟩
        · exact ⟨Selca_Step_refl s, rfl, rfl, rfl, Or.inl rfl⟩
      rcases hl : (if s.m_SeLGeCLibrary = NULL then Selca.LoadSeLGeCLibrary lib s
              else (Completion.returned (), s)) with ⟨res, s1⟩
      rw [hl] at hload
      simp only [] at hload
      obtain ⟨l1, l2, l3, l4, l5⟩ := hload
      rw [hc] at l2
      rw [hr] at l3
      rw [hv] at l4
      have hinv1 := Selca_Invariant_of_disconnected s1 l2 l3 l4
      cases res with
      | raised e => exact ⟨l1, hinv1, by simp, fun _ => l2, by simp⟩
      | blocked => rcases l5 with h | ⟨e, h⟩ <;> simp at h
      | outOfFuel => rcases l5 with h | ⟨e, h⟩ <;> simp at h
      | returned u =>
        simp only []
        generalize hs2 : (if 0 ≠ s1.m_cookie then s1
          else { s1.issued SelcaCall.SOLCreate with
                 m_cookie := (lib.reply s1 SelcaCall.SOLCreate).cookie }) = s2
        have h2 : Selca.Step s1 s2 ∧ s2.m_connected = false ∧ s2.m_ready = false ∧
            s2.m_values = [] := by
          rw [← hs2]
          split
          · exact ⟨Selca_Step_refl s1, l2, l3, l4⟩
          · exact ⟨⟨⟨[SelcaCall.SOLCreate], rfl, by simp [SelcaCall.isGetMessage]⟩,
              rfl, rfl, rfl⟩, l2, l3, l4⟩
        obtain ⟨k1, k2, k3, k4⟩ := h2
        have hinv2 := Selca_Invariant_of_disconnected s2 k2 k3 k4
        split
        · exact ⟨Selca_Step_trans l1 k1, hinv2, by simp, fun _ => k2, by simp⟩
        · rename_i hcookie
          generalize hs4 : (if (s2.issued (SelcaCall.SOLSetConnectionMode s2.m_cookie false)).m_useMessages = true then
              (s2.issued (SelcaCall.SOLSetConnectionMode s2.m_cookie false)).issued
                (SelcaCall.SOLSetConnectionMode
                  (s2.issued (SelcaCall.SOLSetConnectionMode s2.m_cookie false)).m_cookie true)
            else s2.issued (SelcaCall.SOLSetConnectionMode s2.m_cookie false)) = s4
          have h4 : Selca.Step s2 s4 ∧ s4.m_connected = false ∧ s4.m_ready = false ∧
              s4.m_values = [] ∧ s4.m_cookie = s2.m_cookie := by
            rw [← hs4]
            split
            · exact ⟨Selca_Step_trans
                  (Selca_Step_issued s2 (SelcaCall.SOLSetConnectionMode s2.m_cookie false) rfl)
                  (Selca_Step_issued _ (SelcaCall.SOLSetConnectionMode s2.m_cookie true) rfl),
                k2, k3, k4, rfl⟩
            · exact ⟨Selca_Step_issued _ _ rfl, k2, k3, k4, rfl⟩
          obtain ⟨m1, m2, m3, m4, m5⟩ := h4
          have e5 : Selca.Step s (s4.issued (SelcaCall.SOLGoodTcpAddr s4.m_cookie ip)) :=
            Selca_Step_trans (Selca_Step_trans (Selca_Step_trans l1 k1) m1)
              (Selca_Step_issued _ _ rfl)
          split
          · exact ⟨e5, Selca_Invariant_of_disconnected _ m2 m3 m4, by simp, fun _ => m2,
              by simp⟩
          · obtain ⟨t1, t2, t3, t4, t5, t6, t7⟩ := Selca_tryConnection_spec lib ip
              NB_CONNECTION_ATTEMPT 0 (s4.issued (SelcaCall.SOLGoodTcpAddr s4.m_cookie ip))
              m2 m3 m4
            rcases htc : Selca.tryConnection lib ip NB_CONNECTION_ATTEMPT 0
              (s4.issued (SelcaCall.SOLGoodTcpAddr s4.m_cookie ip)) with ⟨res, s6⟩
            rw [htc] at t1 t2 t3 t4 t5 t6 t7
            simp only [] at t1 t2 t3 t4 t5 t6 t7
            have hinv6 := Selca_Invariant_of_disconnected s6 t2 t3 t4
            cases res with
            | raised e => exact absurd rfl (t6 e)
            | blocked => exact ⟨Selca_Step_trans e5 t1, hinv6, by simp, fun _ => t2, by simp⟩
            | outOfFuel => exact absurd rfl (t7 (by omega))
            | returned b =>
              cases b with
              | false => exact ⟨Selca_Step_trans e5 t1, hinv6, by simp, fun _ => t2, by simp⟩
              | true =>
                simp only []
                have hck : s6.m_cookie ≠ 0 := by
                  rw [t5 rfl]
                  show s4.m_cookie ≠ 0
                  rw [m5]
                  exact fun h => hcookie h.symm
                refine ⟨Selca_Step_trans (Selca_Step_trans e5 t1) ?_, ⟨fun _ => hck, ?_⟩,
                  by simp, fun h => absurd rfl h, by simp⟩
                · exact ⟨⟨[SelcaCall.SOLSendPPInfo s6.m_cookie s6.m_sloDB s6.m_sloDBSize], rfl,
                    by simp [SelcaCall.isGetMessage]⟩, rfl, rfl, rfl⟩
                · intro h
                  simp at h

/-- `Selca::CheckConnection` keeps the invariant; when it returns true the session is
connected, and for any other outcome it is not. -/
theorem Selca_CheckConnection_spec (lib : SeLGeCLibrary) (s : Selca) (h : Selca.Invariant s) :
    Selca.Step s (Selca.CheckConnection lib s).2 ∧
      Selca.Invariant (Selca.CheckConnection lib s).2 ∧
      ((Selca.CheckConnection lib s).1 = .returned true →
        (Selca.CheckConnection lib s).2.m_connected = true) ∧
      ((Selca.CheckConnection lib s).1 ≠ .returned true →
        (Selca.CheckConnection lib s).2.m_connected = false) ∧
      (Selca.CheckConnection lib s).1 ≠ .outOfFuel := by
  unfold Selca.CheckConnection
  simp only []
  generalize hs1 : (if s.m_disconnectRequested = true then Selca.Disconnect s false else s) = s1
  have h1 : Selca.Step s s1 ∧ Selca.Invariant s1 := by
    rw [← hs1]
    split
    · exact ⟨Selca_Step_Disconnect s false, Selca_Invariant_Disconnect s false h⟩
    · exact ⟨Selca_Step_refl s, h⟩
  obtain ⟨a1, a2⟩ := h1
  generalize hs2 : (if s1.m_connected = true then
      if (lib.reply s1 (SelcaCall.SOLisConnected s1.m_cookie)).flag = false then
        Selca.Disconnect (s1.issued (SelcaCall.SOLisConnected s1.m_cookie)) false
      else s1.issued (SelcaCall.SOLisConnected s1.m_cookie)
    else s1) = s2
  have h2 : Selca.Step s1 s2 ∧ Selca.Invariant s2 := by
    rw [← hs2]
    have hi : Selca.Invariant (s1.issued (SelcaCall.SOLisConnected s1.m_cookie)) := a2
    split
    · split
      · exact ⟨Selca_Step_trans
            (Selca_Step_issued s1 (SelcaCall.SOLisConnected s1.m_cookie) rfl)
            (Selca_Step_Disconnect _ false),
          Selca_Invariant_Disconnect _ false hi⟩
      · exact ⟨Selca_Step_issued _ _ rfl, hi⟩
    · exact ⟨Selca_Step_refl s1, a2⟩
  obtain ⟨b1, b2⟩ := h2
  split
  · rename_i hc2
    obtain ⟨c1, c2, c3, c4, c5⟩ := Selca_connect_spec lib s2 hc2 (b2.2 hc2).1 (b2.2 hc2).2
    exact ⟨Selca_Step_trans (Selca_Step_trans a1 b1) c1, c2, c3, c4, c5⟩
  · rename_i hc2
    have hc3 : s2.m_connected = true := by simpa using hc2
    exact ⟨Selca_Step_trans a1 b1, b2, fun _ => hc3, fun h => absurd rfl h, by simp⟩


theorem tryConnectionCount_issued (s : Selca) (c : SelcaCall) :
    tryConnectionCount (s.issued c).calls =
      tryConnectionCount s.calls + (if c.isTryConnection = true then 1 else 0) := by
  simp [tryConnectionCount, Selca.issued, List.countP_append, List.countP_cons]

/-- The retry loop when the control refuses every connection: the loop gives up after the
attempts numbered `attempt` to `NB_CONNECTION_ATTEMPT`, both included, and records the time. -/
theorem Selca_tryConnection_refused (lib : SeLGeCLibrary) (ip : String)
    (hfail : ∀ (h : List SelcaCall) (c : Int),
      (lib.respond (h ++ [SelcaCall.SOLTryConnection c ip])).code ≠ 0 ∧
      (lib.respond (h ++ [SelcaCall.SOLTryConnection c ip])).code ≠ ERROR_CLASS_ALREADY_EXISTS)
    (fuel : Nat) :
    ∀ (attempt : Nat) (s : Selca), s.m_connected = false → attempt ≤ NB_CONNECTION_ATTEMPT →
      NB_CONNECTION_ATTEMPT ≤ attempt + fuel →
      (Selca.tryConnection lib ip fuel attempt s).1 = .returned false ∧
      (Selca.tryConnection lib ip fuel attempt s).2.m_lastConnectionErrorDateTime =
        (Selca.tryConnection lib ip fuel attempt s).2.utcNow ∧
      (Selca.tryConnection lib ip fuel attempt s).2.m_cookie = s.m_cookie ∧
      (Selca.tryConnection lib ip fuel attempt s).2.m_connected = false ∧
      (Selca.tryConnection lib ip fuel attempt s).2.m_SeLGeCLibrary = s.m_SeLGeCLibrary ∧
      (Selca.tryConnection lib ip fuel attempt s).2.m_ipAddress = s.m_ipAddress ∧
      tryConnectionCount (Selca.tryConnection lib ip fuel attempt s).2.calls =
        tryConnectionCount s.calls + (NB_CONNECTION_ATTEMPT + 1 - attempt) := by
  have giveUp : ∀ (attempt : Nat) (s : Selca), s.m_connected = false →
      attempt = NB_CONNECTION_ATTEMPT →
      ∀ t : Selca, t = Selca.Disconnect ((s.issued (SelcaCall.SOLTryConnection s.m_cookie ip)).issued
        (SelcaCall.SOLCloseConnection s.m_cookie)) false →
      t.m_cookie = s.m_cookie ∧ t.m_connected = false ∧
      t.m_SeLGeCLibrary = s.m_SeLGeCLibrary ∧ t.m_ipAddress = s.m_ipAddress ∧
      tryConnectionCount t.calls =
        tryConnectionCount s.calls + (NB_CONNECTION_ATTEMPT + 1 - attempt) := by
    intro attempt s hc ha t ht
    rw [Selca_Disconnect_false] at ht
    have hcount : tryConnectionCount ((s.issued (SelcaCall.SOLTryConnection s.m_cookie ip)).issued
        (SelcaCall.SOLCloseConnection s.m_cookie)).calls = tryConnectionCount s.calls + 1 := by
      rw [tryConnectionCount_issued, tryConnectionCount_issued]
      simp [SelcaCall.isTryConnection]
    have hone : NB_CONNECTION_ATTEMPT + 1 - attempt = 1 := by omega
    rw [hone]
    split at ht
    · rw [ht]
      exact ⟨rfl, hc, rfl, rfl, hcount⟩
    · have hc2 : ((s.issued (SelcaCall.SOLTryConnection s.m_cookie ip)).issued
          (SelcaCall.SOLCloseConnection s.m_cookie)).m_connected = false := hc
      rw [if_neg (by rw [hc2]; decide)] at ht
      rw [ht]
      exact ⟨rfl, hc, rfl, rfl, hcount⟩
  induction fuel with
  | zero =>
    intro attempt s hc ha hle
    have hattempt : attempt = NB_CONNECTION_ATTEMPT := by omega
    unfold Selca.tryConnection
    simp only []
    have hf := hfail s.calls s.m_cookie
    rw [if_neg (fun h => hf.1 h.symm), if_neg (fun h => hf.2 h.symm)]
    rw [if_neg (by omega)]
    obtain ⟨g1, g2, g3, g4, g5⟩ := giveUp attempt s hc hattempt _ rfl
    exact ⟨rfl, rfl, g1, g2, g3, g4, g5⟩
  | succ n ih =>
    intro attempt s hc ha hle
    unfold Selca.tryConnection
    simp only []
    have hf := hfail s.calls s.m_cookie
    rw [if_neg (fun h => hf.1 h.symm), if_neg (fun h => hf.2 h.symm)]
    split
    · rename_i hlt
      obtain ⟨i1, i2, i3, i4, i5, i6, i7⟩ := ih (attempt + 1)
        (((s.issued (SelcaCall.SOLTryConnection s.m_cookie ip)).issued
          (SelcaCall.SOLCloseConnection s.m_cookie)).slept RECONNECT_SLEEP_MS) hc (by omega)
        (by omega)
      refine ⟨i1, i2, i3, i4, i5, i6, i7.trans ?_⟩
      have hcount : tryConnectionCount
          (((s.issued (SelcaCall.SOLTryConnection s.m_cookie ip)).issued
            (SelcaCall.SOLCloseConnection s.m_cookie)).slept RECONNECT_SLEEP_MS).calls =
          tryConnectionCount s.calls + 1 := by
        show tryConnectionCount ((s.issued (SelcaCall.SOLTryConnection s.m_cookie ip)).issued
            (SelcaCall.SOLCloseConnection s.m_cookie)).calls = _
        rw [tryConnectionCount_issued, tryConnectionCount_issued]
        simp [SelcaCall.isTryConnection]
      rw [hcount]
      omega
    · rename_i hlt
      have hattempt : attempt = NB_CONNECTION_ATTEMPT := by omega
      obtain ⟨g1, g2, g3, g4, g5⟩ := giveUp attempt s hc hattempt _ rfl
      exact ⟨rfl, rfl, g1, g2, g3, g4, g5⟩

theorem Selca_Step_calls {s t : Selca} (h : Selca.Step s t) : ∃ tr, t.calls = s.calls ++ tr := by
  obtain ⟨⟨tr, e, -⟩, -⟩ := h
  exact ⟨tr, e⟩

/-- The first call of the retry loop is `SOLTryConnection` on the cookie and the address. -/
theorem Selca_tryConnection_first_call (lib : SeLGeCLibrary) (ip : String) (fuel : Nat) :
    ∀ (attempt : Nat) (s : Selca),
      ∃ tr, (Selca.tryConnection lib ip fuel attempt s).2.calls =
        s.calls ++ SelcaCall.SOLTryConnection s.m_cookie ip :: tr := by
  have h1 : ∀ (s t : Selca), (∃ tr, t.calls = (s.issued (SelcaCall.SOLTryConnection s.m_cookie ip)).calls ++ tr) →
      ∃ tr, t.calls = s.calls ++ SelcaCall.SOLTryConnection s.m_cookie ip :: tr := by
    intro s t h
    obtain ⟨tr, e⟩ := h
    exact ⟨tr, by rw [e]; simp [Selca.issued]⟩
  induction fuel with
  | zero =>
    intro attempt s
    unfold Selca.tryConnection
    simp only []
    apply h1
    split
    · exact ⟨[], by simp⟩
    · split
      · split
        · exact ⟨[SelcaCall.SOLisConnected s.m_cookie], by simp [Selca.issued, Selca.slept]⟩
        · obtain ⟨tr, e⟩ := Selca_Step_calls (Selca_Step_DisconnectAndFreeLibrary lib
            (((s.issued (SelcaCall.SOLTryConnection s.m_cookie ip)).slept
              CONNECTION_INIT_SLEEP_MS).issued (SelcaCall.SOLisConnected s.m_cookie)))
          exact ⟨SelcaCall.SOLisConnected s.m_cookie :: tr, e.trans (by simp [Selca.issued, Selca.slept])⟩
      · split
        · exact ⟨[SelcaCall.SOLCloseConnection s.m_cookie], by simp [Selca.issued]⟩
        · obtain ⟨tr, e⟩ := Selca_Step_calls (Selca_Step_Disconnect
            ((s.issued (SelcaCall.SOLTryConnection s.m_cookie ip)).issued
              (SelcaCall.SOLCloseConnection s.m_cookie)) false)
          exact ⟨SelcaCall.SOLCloseConnection s.m_cookie :: tr, e.trans (by simp [Selca.issued])⟩
  | succ n ih =>
    intro attempt s
    unfold Selca.tryConnection
    simp only []
    apply h1
    split
    · exact ⟨[], by simp⟩
    · split
      · split
        · exact ⟨[SelcaCall.SOLisConnected s.m_cookie], by simp [Selca.issued, Selca.slept]⟩
        · obtain ⟨tr, e⟩ := Selca_Step_calls (Selca_Step_DisconnectAndFreeLibrary lib
            (((s.issued (SelcaCall.SOLTryConnection s.m_cookie ip)).slept
              CONNECTION_INIT_SLEEP_MS).issued (SelcaCall.SOLisConnected s.m_cookie)))
          exact ⟨SelcaCall.SOLisConnected s.m_cookie :: tr, e.trans (by simp [Selca.issued, Selca.slept])⟩
      · split
        · obtain ⟨tr, e⟩ := ih (attempt + 1)
            (((s.issued (SelcaCall.SOLTryConnection s.m_cookie ip)).issued
              (SelcaCall.SOLCloseConnection s.m_cookie)).slept RECONNECT_SLEEP_MS)
          exact ⟨SelcaCall.SOLCloseConnection s.m_cookie ::
            SelcaCall.SOLTryConnection s.m_cookie ip :: tr, e.trans (by simp [Selca.issued, Selca.slept])⟩
        · obtain ⟨tr, e⟩ := Selca_Step_calls (Selca_Step_Disconnect
            ((s.issued (SelcaCall.SOLTryConnection s.m_cookie ip)).issued
              (SelcaCall.SOLCloseConnection s.m_cookie)) false)
          exact ⟨SelcaCall.SOLCloseConnection s.m_cookie :: tr, e.trans (by simp [Selca.issued])⟩

/-- The state in which `CheckConnection` starts to connect a session that was not connected:
a requested disconnection has cleared the values and nothing else. -/
theorem Selca_requested_state (s : Selca) (hc : s.m_connected = false) :
    (if s.m_disconnectRequested = true then Selca.Disconnect s false else s) = s ∨
    (if s.m_disconnectRequested = true then Selca.Disconnect s false else s) =
      { s with m_values := [] } := by
  split
  · rw [Selca_Disconnect_false]
    split
    · exact Or.inl rfl
    · rw [if_neg (by rw [hc]; decide)]
      exact Or.inr rfl
  · exact Or.inl rfl

/-- On a session that is not connected `CheckConnection` is the connection, after the values
have been cleared when a disconnection was requested. -/
theorem Selca_CheckConnection_of_not_connected (lib : SeLGeCLibrary) (s : Selca)
    (hc : s.m_connected = false) :
    Selca.CheckConnection lib s =
      Selca.connect lib (if s.m_disconnectRequested = true then Selca.Disconnect s false else s) := by
  unfold Selca.CheckConnection
  simp only []
  have h1 : (if s.m_disconnectRequested = true then Selca.Disconnect s false else s).m_connected
      = false := by
    rcases Selca_requested_state s hc with h | h <;> rw [h] <;> exact hc
  generalize (if s.m_disconnectRequested = true then Selca.Disconnect s false else s) = s1 at h1
  have h2 : (if s1.m_connected = true then
      if (lib.reply s1 (SelcaCall.SOLisConnected s1.m_cookie)).flag = false then
        Selca.Disconnect (s1.issued (SelcaCall.SOLisConnected s1.m_cookie)) false
      else s1.issued (SelcaCall.SOLisConnected s1.m_cookie)
    else s1) = s1 := by
    rw [if_neg (by rw [h1]; decide)]
  rw [h2, if_pos h1]

/-- Within the time `CONNECTION_ERROR_SLEEP_MS` after the last error no connection is tried. -/
theorem Selca_connect_cooldown (lib : SeLGeCLibrary) (s : Selca)
    (h : s.utcNow - s.m_lastConnectionErrorDateTime <
      CONNECTION_ERROR_SLEEP_MS * ticksPerMillisecond) :
    Selca.connect lib s = (.returned false, s) := by
  unfold Selca.connect
  cases s.m_ipAddress with
  | none => rfl
  | some ip =>
    simp only []
    rw [if_pos h]

/-- With an address, a loaded library, a cookie and an address the library accepts, the
connection reaches the retry loop once the time `CONNECTION_ERROR_SLEEP_MS` has elapsed. -/
theorem Selca_connect_try (lib : SeLGeCLibrary) (s : Selca) (ip : String)
    (hip : s.m_ipAddress = some ip)
    (hcool : ¬ s.utcNow - s.m_lastConnectionErrorDateTime <
      CONNECTION_ERROR_SLEEP_MS * ticksPerMillisecond)
    (hlib : s.m_SeLGeCLibrary ≠ NULL) (hcookie : s.m_cookie ≠ 0)
    (hgood : ∀ (h : List SelcaCall) (c : Int),
      (lib.respond (h ++ [SelcaCall.SOLGoodTcpAddr c ip])).flag = true) :
    ∃ s5 : Selca, s5.m_connected = s.m_connected ∧ s5.m_cookie = s.m_cookie ∧
      s5.m_SeLGeCLibrary = s.m_SeLGeCLibrary ∧ s5.m_ipAddress = s.m_ipAddress ∧
      (∃ pre, s5.calls = s.calls ++ pre ∧ tryConnectionCount pre = 0) ∧
      Selca.connect lib s =
        (match Selca.tryConnection lib ip NB_CONNECTION_ATTEMPT 0 s5 with
          | (.returned true, s6) =>
            (.returned true,
              { s6.issued (SelcaCall.SOLSendPPInfo s6.m_cookie s6.m_sloDB s6.m_sloDBSize) with
                m_disconnectRequested := false, m_connected := true })
          | other => other) := by
  unfold Selca.connect
  rw [hip]
  simp only []
  rw [if_neg hcool, if_neg hlib]
  simp only []
  rw [if_pos (fun h => hcookie h.symm), if_neg (fun h => hcookie h.symm)]
  by_cases hm : s.m_useMessages = true
  · refine ⟨((s.issued (SelcaCall.SOLSetConnectionMode s.m_cookie false)).issued
        (SelcaCall.SOLSetConnectionMode s.m_cookie true)).issued
        (SelcaCall.SOLGoodTcpAddr s.m_cookie ip), rfl, rfl, rfl, hip,
      ⟨[SelcaCall.SOLSetConnectionMode s.m_cookie false,
        SelcaCall.SOLSetConnectionMode s.m_cookie true,
        SelcaCall.SOLGoodTcpAddr s.m_cookie ip], by simp [Selca.issued],
        by simp [tryConnectionCount, SelcaCall.isTryConnection]⟩, ?_⟩
    have hm2 : (s.issued (SelcaCall.SOLSetConnectionMode s.m_cookie false)).m_useMessages = true := hm
    rw [if_pos hm2]
    split
    · rename_i hbad
      exact Bool.noConfusion ((hgood _ _).symm.trans hbad)
    · rfl
  · refine ⟨(s.issued (SelcaCall.SOLSetConnectionMode s.m_cookie false)).issued
        (SelcaCall.SOLGoodTcpAddr s.m_cookie ip), rfl, rfl, rfl, hip,
      ⟨[SelcaCall.SOLSetConnectionMode s.m_cookie false,
        SelcaCall.SOLGoodTcpAddr s.m_cookie ip], by simp [Selca.issued],
        by simp [tryConnectionCount, SelcaCall.isTryConnection]⟩, ?_⟩
    have hm2 : ¬ (s.issued (SelcaCall.SOLSetConnectionMode s.m_cookie false)).m_useMessages = true := hm
    rw [if_neg hm2]
    split
    · rename_i hbad
      exact Bool.noConfusion ((hgood _ _).symm.trans hbad)
    · rfl

theorem tryConnectionCount_append (l₁ l₂ : List SelcaCall) :
    tryConnectionCount (l₁ ++ l₂) = tryConnectionCount l₁ + tryConnectionCount l₂ := by
  simp [tryConnectionCount, List.countP_append]

/-- `CheckConnection` on a session that is not connected, when the control refuses every
connection: `SOLTryConnection` is called `NB_CONNECTION_ATTEMPT + 1` times, then the method
records the time and returns false; the cookie and the library are kept. -/
theorem Selca_CheckConnection_refused (lib : SeLGeCLibrary) (s : Selca) (ip : String)
    (hc : s.m_connected = false) (hip : s.m_ipAddress = some ip)
    (hcool : ¬ s.utcNow - s.m_lastConnectionErrorDateTime <
      CONNECTION_ERROR_SLEEP_MS * ticksPerMillisecond)
    (hlib : s.m_SeLGeCLibrary ≠ NULL) (hcookie : s.m_cookie ≠ 0)
    (hgood : ∀ (h : List SelcaCall) (c : Int),
      (lib.respond (h ++ [SelcaCall.SOLGoodTcpAddr c ip])).flag = true)
    (hfail : ∀ (h : List SelcaCall) (c : Int),
      (lib.respond (h ++ [SelcaCall.SOLTryConnection c ip])).code ≠ 0 ∧
      (lib.respond (h ++ [SelcaCall.SOLTryConnection c ip])).code ≠ ERROR_CLASS_ALREADY_EXISTS) :
    (Selca.CheckConnection lib s).1 = .returned false ∧
    (Selca.CheckConnection lib s).2.m_lastConnectionErrorDateTime =
      (Selca.CheckConnection lib s).2.utcNow ∧
    (Selca.CheckConnection lib s).2.m_connected = false ∧
    (Selca.CheckConnection lib s).2.m_cookie = s.m_cookie ∧
    (Selca.CheckConnection lib s).2.m_SeLGeCLibrary = s.m_SeLGeCLibrary ∧
    (Selca.CheckConnection lib s).2.m_ipAddress = some ip ∧
    tryConnectionCount (Selca.CheckConnection lib s).2.calls =
      tryConnectionCount s.calls + (NB_CONNECTION_ATTEMPT + 1) := by
  rw [Selca_CheckConnection_of_not_connected lib s hc]
  have key : ∀ s1 : Selca, s1.m_connected = false → s1.m_ipAddress = some ip →
      ¬ s1.utcNow - s1.m_lastConnectionErrorDateTime <
        CONNECTION_ERROR_SLEEP_MS * ticksPerMillisecond →
      s1.m_SeLGeCLibrary ≠ NULL → s1.m_cookie ≠ 0 →
      (Selca.connect lib s1).1 = .returned false ∧
      (Selca.connect lib s1).2.m_lastConnectionErrorDateTime = (Selca.connect lib s1).2.utcNow ∧
      (Selca.connect lib s1).2.m_connected = false ∧
      (Selca.connect lib s1).2.m_cookie = s1.m_cookie ∧
      (Selca.connect lib s1).2.m_SeLGeCLibrary = s1.m_SeLGeCLibrary ∧
      (Selca.connect lib s1).2.m_ipAddress = some ip ∧
      tryConnectionCount (Selca.connect lib s1).2.calls =
        tryConnectionCount s1.calls + (NB_CONNECTION_ATTEMPT + 1) := by
    intro s1 hc1 hip1 hcool1 hlib1 hcookie1
    obtain ⟨s5, q1, q2, q3, q4, ⟨pre, q5, q6⟩, q7⟩ :=
      Selca_connect_try lib s1 ip hip1 hcool1 hlib1 hcookie1 hgood
    rw [q7]
    obtain ⟨r1, r2, r3, r4, r5, r6, r7⟩ := Selca_tryConnection_refused lib ip hfail
      NB_CONNECTION_ATTEMPT 0 s5 (q1.trans hc1) (Nat.zero_le _) (by omega)
    rcases htc : Selca.tryConnection lib ip NB_CONNECTION_ATTEMPT 0 s5 with ⟨res, s6⟩
    rw [htc] at r1 r2 r3 r4 r5 r6 r7
    simp only [] at r1 r2 r3 r4 r5 r6 r7
    subst r1
    simp only []
    refine ⟨trivial, r2, r4, r3.trans q2, r5.trans q3, (r6.trans q4).trans hip1, ?_⟩
    rw [r7, q5, tryConnectionCount_append, q6]
    omega
  rcases Selca_requested_state s hc with h | h
  · rw [h]
    exact key s hc hip hcool hlib hcookie
  · rw [h]
    exact key { s with m_values := [] } hc hip hcool hlib hcookie

theorem refusingSeLGeC_good : ∀ (h : List SelcaCall) (c : Int),
    (refusingSeLGeC.respond (h ++ [SelcaCall.SOLGoodTcpAddr c "10.0.0.1"])).flag = true :=
  fun _ _ => rfl

theorem refusingSeLGeC_fail : ∀ (h : List SelcaCall) (c : Int),
    (refusingSeLGeC.respond (h ++ [SelcaCall.SOLTryConnection c "10.0.0.1"])).code ≠ 0 ∧
    (refusingSeLGeC.respond (h ++ [SelcaCall.SOLTryConnection c "10.0.0.1"])).code ≠
      ERROR_CLASS_ALREADY_EXISTS :=
  fun _ _ => ⟨by show (1 : Int) ≠ 0; decide, by show (1 : Int) ≠ 1410; decide⟩

/-- On a connected session that the library reports connected, without a requested
disconnection, `CheckConnection` asks `SOLisConnected` and returns true. -/
theorem Selca_CheckConnection_connected (lib : SeLGeCLibrary) (s : Selca)
    (hc : s.m_connected = true) (hreq : s.m_disconnectRequested = false)
    (hflag : (lib.reply s (SelcaCall.SOLisConnected s.m_cookie)).flag = true) :
    Selca.CheckConnection lib s =
      (.returned true, s.issued (SelcaCall.SOLisConnected s.m_cookie)) := by
  unfold Selca.CheckConnection
  have e1 : (if s.m_disconnectRequested = true then Selca.Disconnect s false else s) = s := by
    rw [hreq]
    rfl
  simp only []
  rw [e1]
  simp [hc, hflag, Selca.issued]

/-! ## Lemmas on the Selca cycle -/

/-- Whenever the retry loop returns false it has recorded the time of the return as the time
of the last connection error. -/
theorem Selca_tryConnection_gives_up (lib : SeLGeCLibrary) (ip : String) (fuel : Nat) :
    ∀ (attempt : Nat) (s : Selca),
      (Selca.tryConnection lib ip fuel attempt s).1 = .returned false →
      (Selca.tryConnection lib ip fuel attempt s).2.m_lastConnectionErrorDateTime =
        (Selca.tryConnection lib ip fuel attempt s).2.utcNow := by
  induction fuel with
  | zero =>
    intro attempt s
    unfold Selca.tryConnection
    simp only []
    split
    · intro h
      simp at h
    · split
      · split
        · intro h
          simp at h
        · intro h
          simp at h
      · split
        · intro h
          simp at h
        · intro _
          rfl
  | succ n ih =>
    intro attempt s
    unfold Selca.tryConnection
    simp only []
    split
    · intro h
      simp at h
    · split
      · split
        · intro h
          simp at h
        · intro h
          simp at h
      · split
        · exact ih _ _
        · intro _
          rfl

theorem Selca_Invariant_new : Selca.Invariant Selca.new := by
  unfold Selca.Invariant
  decide

theorem Selca_Invariant_withMessages (useMessages : Bool) :
    Selca.Invariant (Selca.withMessages useMessages) :=
  ⟨fun h => absurd h (by simp [Selca.withMessages]), fun _ => ⟨rfl, rfl⟩⟩

theorem Selca_Invariant_Finish (s : Selca) (h : Selca.Invariant s) :
    Selca.Invariant (Selca.Finish s) := h

theorem Selca_Invariant_ProcessTcpMsg (s : Selca) (code : Int) (h : Selca.Invariant s) :
    Selca.Invariant (Selca.ProcessTcpMsg s code) := by
  unfold Selca.ProcessTcpMsg
  split
  · exact h
  · split
    · unfold Selca.CompareExchange
      simp only []
      split
      · exact h
      · exact h
    · exact h

theorem Selca_Invariant_GetString (lib : SeLGeCLibrary) (s : Selca) (parameter : String)
    (h : Selca.Invariant s) : Selca.Invariant (Selca.GetString lib s parameter).2 := by
  unfold Selca.GetString
  split
  · simp only []
    split
    · exact h
    · exact h
  · split
    · exact h
    · split
      · exact h
      · exact h

/-- The invariant reads `m_connected`, `m_cookie`, `m_ready` and `m_values` only. -/
theorem Selca_Invariant_congr {s t : Selca} (h1 : t.m_connected = s.m_connected)
    (h2 : t.m_cookie = s.m_cookie) (h3 : t.m_ready = s.m_ready) (h4 : t.m_values = s.m_values)
    (h : Selca.Invariant s) : Selca.Invariant t := by
  unfold Selca.Invariant at *
  rw [h1, h2, h3, h4]
  exact h

/-- What is done with a message on a connected session keeps the invariant, and either
returns or raises. -/
theorem Selca_processMessage_spec (lib : SeLGeCLibrary) (s : Selca) (message : SLMsg_t)
    (hc : s.m_connected = true) (hk : s.m_cookie ≠ 0) :
    Selca.Invariant (Selca.processMessage lib s message).2 ∧
      ((Selca.processMessage lib s message).1 = .returned () ∨
        ∃ e, (Selca.processMessage lib s message).1 = .raised e) := by
  have hinv : Selca.Invariant s := ⟨fun _ => hk, fun h => by rw [hc] at h; exact absurd h (by decide)⟩
  have hready : ∀ t : Selca, t.m_connected = true → t.m_cookie ≠ 0 → Selca.Invariant t :=
    fun t h1 h2 => ⟨fun _ => h2, fun h => by rw [h1] at h; exact absurd h (by decide)⟩
  unfold Selca.processMessage
  split
  · exact ⟨hinv, Or.inl rfl⟩
  · split
    · split
      · exact ⟨Selca_Invariant_Disconnect s false hinv, Or.inl rfl⟩
      · split
        · exact ⟨hinv, Or.inl rfl⟩
        · split
          · exact ⟨hready _ hc hk, Or.inl rfl⟩
          · split
            · exact ⟨hready _ hc hk, Or.inl rfl⟩
            · split
              · exact ⟨Selca_Invariant_Disconnect s false hinv, Or.inl rfl⟩
              · exact ⟨hinv, Or.inl rfl⟩
    · simp only []
      split
      · split
        · exact ⟨hready _ hc hk, Or.inl rfl⟩
        · exact ⟨hready _ hc hk, Or.inr ⟨_, rfl⟩⟩
      · split
        · split
          · refine ⟨hready _ ?_ ?_, Or.inl rfl⟩
            · simp only []
              split <;> split <;> split <;> exact hc
            · simp only []
              split <;> split <;> split <;> exact hk
          · exact ⟨hready _ hc hk, Or.inl rfl⟩
        · exact ⟨hready _ hc hk, Or.inl rfl⟩

/-- The drain loop keeps the invariant and never returns false. -/
theorem Selca_drain_spec (lib : SeLGeCLibrary) (fuel : Nat) :
    ∀ s : Selca, Selca.Invariant s →
      Selca.Invariant (Selca.drain lib fuel s).2 ∧
      (Selca.drain lib fuel s).1 ≠ .returned false := by
  induction fuel with
  | zero =>
    intro s h
    exact ⟨h, by simp [Selca.drain]⟩
  | succ n ih =>
    intro s h
    unfold Selca.drain
    obtain ⟨-, c2, c3, -, -⟩ := Selca_CheckConnection_spec lib s h
    rcases hcc : Selca.CheckConnection lib s with ⟨res, s1⟩
    rw [hcc] at c2 c3
    simp only [] at c2 c3
    cases res with
    | raised e => exact ⟨c2, by simp⟩
    | blocked => exact ⟨c2, by simp⟩
    | outOfFuel => exact ⟨c2, by simp⟩
    | returned b =>
      cases b with
      | false => exact ⟨Selca_Invariant_congr rfl rfl rfl rfl c2, by simp⟩
      | true =>
        simp only []
        have hc1 : s1.m_connected = true := c3 rfl
        have hk1 : s1.m_cookie ≠ 0 := c2.1 hc1
        obtain ⟨p1, p2⟩ := Selca_processMessage_spec lib
          (s1.issued (SelcaCall.SOLGetMessage s1.m_cookie))
          (lib.reply s1 (SelcaCall.SOLGetMessage s1.m_cookie)).message hc1 hk1
        rcases hpm : Selca.processMessage lib (s1.issued (SelcaCall.SOLGetMessage s1.m_cookie))
          (lib.reply s1 (SelcaCall.SOLGetMessage s1.m_cookie)).message with ⟨res2, s3⟩
        rw [hpm] at p1 p2
        simp only [] at p1 p2
        cases res2 with
        | raised e => exact ⟨p1, by simp⟩
        | blocked => exact ⟨p1, by simp⟩
        | outOfFuel => exact ⟨p1, by simp⟩
        | returned u =>
          simp only []
          have hinv4 : Selca.Invariant
              (s3.issued (SelcaCall.SOLisReceiveBufferEmpty s3.m_cookie)) :=
            Selca_Invariant_congr rfl rfl rfl rfl p1
          split
          · exact ih _ hinv4
          · exact ⟨hinv4, by simp⟩

theorem Selca_Invariant_initSloDB (lib : SeLGeCLibrary) (s : Selca) (h : Selca.Invariant s) :
    Selca.Invariant (Selca.initSloDB lib s) := by
  unfold Selca.initSloDB
  split
  · exact Selca_Invariant_congr rfl rfl rfl rfl h
  · exact h

/-- The `try` block of `Start` keeps the invariant and never returns false. -/
theorem Selca_startBody_spec (lib : SeLGeCLibrary) (fuel : Nat) (s : Selca)
    (h : Selca.Invariant s) :
    Selca.Invariant (Selca.startBody lib fuel s).2 ∧
      (Selca.startBody lib fuel s).1 ≠ .returned false := by
  unfold Selca.startBody
  simp only []
  obtain ⟨-, c2, -, -, -⟩ := Selca_CheckConnection_spec lib _ (Selca_Invariant_initSloDB lib s h)
  rcases hcc : Selca.CheckConnection lib (Selca.initSloDB lib s) with ⟨res, s2⟩
  rw [hcc] at c2
  simp only [] at c2
  cases res with
  | raised e => exact ⟨c2, by simp⟩
  | blocked => exact ⟨c2, by simp⟩
  | outOfFuel => exact ⟨c2, by simp⟩
  | returned b =>
    cases b with
    | false => exact ⟨Selca_Invariant_congr rfl rfl rfl rfl c2, by simp⟩
    | true =>
      simp only []
      have hx : Selca.Invariant (Selca.CompareExchange s2 0 1).2 := by
        unfold Selca.CompareExchange
        simp only []
        split
        · exact Selca_Invariant_congr rfl rfl rfl rfl c2
        · exact c2
      split
      · split
        · exact ⟨hx, by simp⟩
        · exact Selca_drain_spec lib fuel _ hx
      · exact Selca_drain_spec lib fuel s2 c2

theorem Selca_Invariant_resetErrors (s : Selca) (h : Selca.Invariant s) :
    Selca.Invariant (Selca.resetErrors s) :=
  Selca_Invariant_congr rfl rfl rfl rfl h

/-- `Selca::Start` keeps the invariant. -/
theorem Selca_Invariant_Start (lib : SeLGeCLibrary) (fuel : Nat) (s : Selca)
    (h : Selca.Invariant s) : Selca.Invariant (Selca.Start lib fuel s).2 := by
  unfold Selca.Start
  simp only []
  have h0 := Selca_Invariant_resetErrors s h
  split
  · exact h0
  · obtain ⟨b1, -⟩ := Selca_startBody_spec lib fuel _ h0
    rcases hsb : Selca.startBody lib fuel (Selca.resetErrors s) with ⟨res, s1⟩
    rw [hsb] at b1
    simp only [] at b1
    cases res with
    | raised e =>
      exact Selca_Invariant_congr rfl rfl rfl rfl (Selca_Invariant_Disconnect s1 false b1)
    | blocked => exact b1
    | outOfFuel => exact b1
    | returned b => exact b1

theorem Selca_Step_initSloDB (lib : SeLGeCLibrary) (s : Selca) :
    Selca.Step s (Selca.initSloDB lib (Selca.resetErrors s)) := by
  unfold Selca.initSloDB
  split
  · exact ⟨⟨[], by simp [Selca.resetErrors], by simp⟩, rfl, rfl, rfl⟩
  · exact ⟨⟨[], by simp [Selca.resetErrors], by simp⟩, rfl, rfl, rfl⟩

/-- One turn of the drain loop on a `BUSY` or `KILLED` message, the buffer being empty after
it: the loop returns true and the session is disconnected, with its cookie. -/
theorem Selca_drain_BUSY_KILLED (lib : SeLGeCLibrary) (fuel : Nat) (s : Selca)
    (hinv : Selca.Invariant s)
    (hcheck : (Selca.CheckConnection lib s).1 = .returned true)
    (hsloid : (lib.reply (Selca.CheckConnection lib s).2
      (SelcaCall.SOLGetMessage (Selca.CheckConnection lib s).2.m_cookie)).message.sloid = -2)
    (hdatas : (lib.reply (Selca.CheckConnection lib s).2
        (SelcaCall.SOLGetMessage (Selca.CheckConnection lib s).2.m_cookie)).message.datas = "BUSY" ∨
      (lib.reply (Selca.CheckConnection lib s).2
        (SelcaCall.SOLGetMessage (Selca.CheckConnection lib s).2.m_cookie)).message.datas = "KILLED")
    (hempty : (lib.reply
        (Selca.Disconnect ((Selca.CheckConnection lib s).2.issued
          (SelcaCall.SOLGetMessage (Selca.CheckConnection lib s).2.m_cookie)) false)
        (SelcaCall.SOLisReceiveBufferEmpty (Selca.CheckConnection lib s).2.m_cookie)).flag = true) :
    (Selca.drain lib (fuel + 1) s).1 = .returned true ∧
    (Selca.drain lib (fuel + 1) s).2.m_connected = false ∧
    (Selca.drain lib (fuel + 1) s).2.m_ready = false ∧
    (Selca.drain lib (fuel + 1) s).2.m_values = [] ∧
    (Selca.drain lib (fuel + 1) s).2.m_cookie = (Selca.CheckConnection lib s).2.m_cookie ∧
    (Selca.drain lib (fuel + 1) s).2.m_cookie ≠ 0 := by
  obtain ⟨-, c2, c3, -, -⟩ := Selca_CheckConnection_spec lib s hinv
  unfold Selca.drain
  rcases hcc : Selca.CheckConnection lib s with ⟨res, s1⟩
  rw [hcc] at c2 c3 hcheck hsloid hdatas hempty
  simp only [] at c2 c3 hcheck hsloid hdatas hempty
  subst hcheck
  simp only []
  have hc1 : s1.m_connected = true := c3 rfl
  have hk1 : s1.m_cookie ≠ 0 := c2.1 hc1
  have hinv2 : Selca.Invariant (s1.issued (SelcaCall.SOLGetMessage s1.m_cookie)) :=
    Selca_Invariant_congr rfl rfl rfl rfl c2
  obtain ⟨d1, d2, d3, d4⟩ := Selca_Disconnect_disconnected
    (s1.issued (SelcaCall.SOLGetMessage s1.m_cookie)) false hinv2
  have hpm : Selca.processMessage lib (s1.issued (SelcaCall.SOLGetMessage s1.m_cookie))
      (lib.reply s1 (SelcaCall.SOLGetMessage s1.m_cookie)).message =
      (.returned (), Selca.Disconnect (s1.issued (SelcaCall.SOLGetMessage s1.m_cookie)) false) := by
    unfold Selca.processMessage
    rw [hsloid]
    rw [if_neg (by decide), if_pos (by decide)]
    rcases hdatas with hd | hd
    · rw [hd, if_pos rfl]
    · rw [hd, if_neg (by decide), if_neg (by decide), if_neg (by decide), if_neg (by decide),
        if_pos rfl]
  rw [hpm]
  simp only []
  have hk : (Selca.Disconnect (s1.issued (SelcaCall.SOLGetMessage s1.m_cookie)) false).m_cookie
      = s1.m_cookie := d4 rfl
  rw [hk, if_neg (by rw [hempty]; decide)]
  exact ⟨rfl, d1, d2, d3, hk, fun h => hk1 (hk.symm.trans h)⟩

/-- The state in which `Start` checks the connection has the session of the state before. -/
theorem Selca_initSloDB_fields (lib : SeLGeCLibrary) (s : Selca) :
    (Selca.initSloDB lib (Selca.resetErrors s)).m_connected = s.m_connected ∧
    (Selca.initSloDB lib (Selca.resetErrors s)).m_cookie = s.m_cookie ∧
    (Selca.initSloDB lib (Selca.resetErrors s)).m_disconnectRequested =
      s.m_disconnectRequested ∧
    (Selca.initSloDB lib (Selca.resetErrors s)).calls = s.calls := by
  unfold Selca.initSloDB
  split
  · exact ⟨rfl, rfl, rfl, rfl⟩
  · exact ⟨rfl, rfl, rfl, rfl⟩

/-- Past the initialization, `Start` is its `try` block unless the block raises. -/
theorem Selca_Start_of_startBody (lib : SeLGeCLibrary) (fuel : Nat) (s : Selca)
    (hinit : s.m_parametersInitialization = false)
    (h : ∀ e, (Selca.startBody lib fuel (Selca.resetErrors s)).1 ≠ .raised e) :
    Selca.Start lib fuel s = Selca.startBody lib fuel (Selca.resetErrors s) := by
  unfold Selca.Start
  simp only []
  have h0 : (Selca.resetErrors s).m_parametersInitialization = false := hinit
  rw [if_neg (by rw [h0]; decide)]
  rcases hsb : Selca.startBody lib fuel (Selca.resetErrors s) with ⟨res, s1⟩
  rw [hsb] at h
  cases res with
  | raised e => exact absurd rfl (h e)
  | blocked => rfl
  | outOfFuel => rfl
  | returned b => rfl

/-- Once the first `CheckConnection` of `Start` has returned true, the `try` block is the test
of the pending flag, when the messages are used, and the drain loop.  The state after the
check extends the history by calls other than `SOLGetMessage` and keeps the two flags. -/
theorem Selca_startBody_gate (lib : SeLGeCLibrary) (fuel : Nat) (s : Selca)
    (hinv : Selca.Invariant s)
    (hcheck : (Selca.CheckConnection lib (Selca.initSloDB lib (Selca.resetErrors s))).1 =
      .returned true) :
    Selca.Step s (Selca.CheckConnection lib (Selca.initSloDB lib (Selca.resetErrors s))).2 ∧
    Selca.startBody lib fuel (Selca.resetErrors s) =
      (if (Selca.CheckConnection lib (Selca.initSloDB lib (Selca.resetErrors s))).2.m_useMessages
          = true then
        if 0 = (Selca.CompareExchange
            (Selca.CheckConnection lib (Selca.initSloDB lib (Selca.resetErrors s))).2 0 1).1 then
          (.returned true, (Selca.CompareExchange
            (Selca.CheckConnection lib (Selca.initSloDB lib (Selca.resetErrors s))).2 0 1).2)
        else Selca.drain lib fuel (Selca.CompareExchange
            (Selca.CheckConnection lib (Selca.initSloDB lib (Selca.resetErrors s))).2 0 1).2
      else Selca.drain lib fuel
        (Selca.CheckConnection lib (Selca.initSloDB lib (Selca.resetErrors s))).2) := by
  refine ⟨Selca_Step_trans (Selca_Step_initSloDB lib s)
      (Selca_CheckConnection_spec lib _
        (Selca_Invariant_initSloDB lib _ (Selca_Invariant_resetErrors s hinv))).1, ?_⟩
  unfold Selca.startBody
  simp only []
  rcases hcc : Selca.CheckConnection lib (Selca.initSloDB lib (Selca.resetErrors s)) with
    ⟨res, s2⟩
  rw [hcc] at hcheck
  simp only [] at hcheck
  subst hcheck
  rfl

/-! ## Claims C11 to C13 -/

/-- C12: when the tables hold for `directoryPath` the refresh time `lastGet` and the value
`value`, a call less than `skipTime` seconds after `lastGet` returns `value` and leaves the
object as it is (no call is made, both tables are unchanged); a call `skipTime` seconds or more
after `lastGet` runs `GetFileList` first (its calls start the history, its exception is
raised), and when it returns a value both tables hold for `directoryPath` this value and the
time of the call; the entries of the other directories are the same after the call as
before. -/
theorem GetStringValueFromFileName_skip_time (lib : Lsv2Library) (s : HeidenhainLsv2)
    (directoryPath : String) (maxFileNumber skipTime : Int) (suffix : Option String)
    (lastGet : Int) (value : String)
    (hT : dictGet s.m_lastGetFromFileNameList directoryPath = some lastGet)
    (hv : dictGet s.m_lastValueFromFileNameList directoryPath = some value) :
    (s.now - lastGet < skipTime * 10000000 →
      GetStringValueFromFileName lib s directoryPath maxFileNumber skipTime suffix =
        (.ok value, s)) ∧
    (skipTime * 10000000 ≤ s.now - lastGet →
      (GetFileList lib s directoryPath).2.calls <+:
        (GetStringValueFromFileName lib s directoryPath maxFileNumber skipTime suffix).2.calls ∧
      (∀ e, (GetFileList lib s directoryPath).1 = .error e →
        GetStringValueFromFileName lib s directoryPath maxFileNumber skipTime suffix =
          (.error e, (GetFileList lib s directoryPath).2)) ∧
      (∀ v s2, GetStringValueFromFileName lib s directoryPath maxFileNumber skipTime suffix =
          (.ok v, s2) →
        dictGet s2.m_lastValueFromFileNameList directoryPath = some v ∧
        dictGet s2.m_lastGetFromFileNameList directoryPath = some s.now)) ∧
    (∀ other, other ≠ directoryPath →
      dictGet (GetStringValueFromFileName lib s directoryPath maxFileNumber skipTime
          suffix).2.m_lastGetFromFileNameList other = dictGet s.m_lastGetFromFileNameList other ∧
      dictGet (GetStringValueFromFileName lib s directoryPath maxFileNumber skipTime
          suffix).2.m_lastValueFromFileNameList other =
        dictGet s.m_lastValueFromFileNameList other) := by
  obtain ⟨r1, r2, r3, r4⟩ := refreshValueFromFileName_spec lib s directoryPath maxFileNumber suffix
  have hother : ∀ other, other ≠ directoryPath →
      dictGet (refreshValueFromFileName lib s directoryPath maxFileNumber
          suffix).2.m_lastGetFromFileNameList other = dictGet s.m_lastGetFromFileNameList other ∧
      dictGet (refreshValueFromFileName lib s directoryPath maxFileNumber
          suffix).2.m_lastValueFromFileNameList other =
        dictGet s.m_lastValueFromFileNameList other := by
    intro other ho
    cases hres : (refreshValueFromFileName lib s directoryPath maxFileNumber suffix).1 with
    | error e =>
      have := r3 e hres
      simp only [cachesOf, Prod.mk.injEq] at this
      rw [this.2.2.2.1, this.2.2.2.2.1]
      exact ⟨rfl, rfl⟩
    | ok v =>
      obtain ⟨h1, h2⟩ := r4 v hres
      rw [h1, h2, dictGet_dictSet_other _ _ _ _ ho, dictGet_dictSet_other _ _ _ _ ho]
      exact ⟨rfl, rfl⟩
  unfold GetStringValueFromFileName
  rw [hT, hv]
  simp only []
  by_cases hf : s.now - lastGet < skipTime * 10000000
  · rw [if_pos hf]
    refine ⟨fun _ => rfl, fun h => absurd hf (not_lt.mpr h), fun other _ => ⟨rfl, rfl⟩⟩
  · rw [if_neg hf]
    refine ⟨fun h => absurd h hf, fun _ => ⟨r1, r2, ?_⟩, hother⟩
    intro v s2 h
    have h1 : (refreshValueFromFileName lib s directoryPath maxFileNumber suffix).1 = .ok v := by
      rw [h]
    obtain ⟨q1, q2⟩ := r4 v h1
    rw [h] at q1 q2
    simp only [] at q1 q2
    rw [q1, q2, dictGet_dictSet_self, dictGet_dictSet_self]
    exact ⟨rfl, rfl⟩

/-- Witness of C12, skip time 10 s: 5 s after the refresh the cached `42` is returned and the
object is unchanged; 10 s after it the directory is listed, the latest file `100.5` without the
suffix `.5` is returned and stored with the time of the call, and the entry of the other
directory stays. -/
theorem GetStringValueFromFileName_skip_time_witness :
    GetStringValueFromFileName directoryLibrary (fileSession 50001000) "TNC:\\STAMP" 10 10
        (some ".5") = (.ok "42", fileSession 50001000) ∧
    (GetStringValueFromFileName directoryLibrary (fileSession 100001000) "TNC:\\STAMP" 10 10
        (some ".5")).1 = .ok "100" ∧
    dictGet (GetStringValueFromFileName directoryLibrary (fileSession 100001000) "TNC:\\STAMP" 10 10
        (some ".5")).2.m_lastValueFromFileNameList "TNC:\\STAMP" = some "100" ∧
    dictGet (GetStringValueFromFileName directoryLibrary (fileSession 100001000) "TNC:\\STAMP" 10 10
        (some ".5")).2.m_lastGetFromFileNameList "TNC:\\STAMP" = some 100001000 ∧
    dictGet (GetStringValueFromFileName directoryLibrary (fileSession 100001000) "TNC:\\STAMP" 10 10
        (some ".5")).2.m_lastGetFromFileNameList "TNC:\\OTHER" = some 7 :=
  ⟨(GetStringValueFromFileName_skip_time directoryLibrary (fileSession 50001000) "TNC:\\STAMP"
      10 10 (some ".5") 1000 "42" (by decide) (by decide)).1 (by decide),
   by decide,
   ((GetStringValueFromFileName_skip_time directoryLibrary (fileSession 100001000) "TNC:\\STAMP"
      10 10 (some ".5") 1000 "42" (by decide) (by decide)).2.1 (by decide)).2.2 "100" _
        (by decide) |>.1,
   ((GetStringValueFromFileName_skip_time directoryLibrary (fileSession 100001000) "TNC:\\STAMP"
      10 10 (some ".5") 1000 "42" (by decide) (by decide)).2.1 (by decide)).2.2 "100" _
        (by decide) |>.2,
   ((GetStringValueFromFileName_skip_time directoryLibrary (fileSession 100001000) "TNC:\\STAMP"
      10 10 (some ".5") 1000 "42" (by decide) (by decide)).2.2 "TNC:\\OTHER" (by decide)).1⟩

/-- C13, evaluated: a parameter read from the control stays in `m_parameterCache` after
`Disconnect`, and `GetStringParameter` then returns it without any call; a downloaded table and
its date stay after `Disconnect` too. -/
theorem GetStringParameter_cached_after_Disconnect :
    (GetStringParameter parameterLibrary dataSession "CfgAxis").1 = .ok "4711" ∧
    (Disconnect parameterLibrary
      (GetStringParameter parameterLibrary dataSession "CfgAxis").2).m_connected = false ∧
    (Disconnect parameterLibrary
      (GetStringParameter parameterLibrary dataSession "CfgAxis").2).m_parameterCache =
        [("CfgAxis", "4711")] ∧
    GetStringParameter parameterLibrary
      (Disconnect parameterLibrary (GetStringParameter parameterLibrary dataSession "CfgAxis").2)
      "CfgAxis" =
      (.ok "4711",
        Disconnect parameterLibrary (GetStringParameter parameterLibrary dataSession "CfgAxis").2) ∧
    (Disconnect parameterLibrary cachedSession).m_downloadTableValues = [("X", half)] ∧
    (Disconnect parameterLibrary cachedSession).m_downloadDateTime = some 5 := by
  decide

/-- C13, amended: `Disconnect` leaves the parameter cache, the downloaded table and its date as
they are, so that `GetStringParameter` after a disconnect returns a value cached before it and
leaves the object as it is (no call is made). -/
theorem Disconnect_keeps_caches (lib : Lsv2Library) (s : HeidenhainLsv2) :
    (Disconnect lib s).m_parameterCache = s.m_parameterCache ∧
    (Disconnect lib s).m_downloadTableValues = s.m_downloadTableValues ∧
    (Disconnect lib s).m_downloadDateTime = s.m_downloadDateTime ∧
    (∀ name v, dictGet s.m_parameterCache name = some v →
      GetStringParameter lib (Disconnect lib s) name = (.ok v, Disconnect lib s)) := by
  have hc := cachesOf_Disconnect lib s
  simp only [cachesOf, Prod.mk.injEq] at hc
  obtain ⟨h1, h2, h3, -⟩ := hc
  refine ⟨h1, h3, h2, ?_⟩
  intro name v hv
  unfold GetStringParameter
  rw [h1, hv]

/-- Witness of C13: the cached parameter of `cachedSession` is returned after `Disconnect`. -/
theorem Disconnect_keeps_caches_witness :
    (Disconnect parameterLibrary cachedSession).m_parameterCache = [("CfgAxis", "old")] ∧
    GetStringParameter parameterLibrary (Disconnect parameterLibrary cachedSession) "CfgAxis" =
      (.ok "old", Disconnect parameterLibrary cachedSession) :=
  ⟨(Disconnect_keeps_caches parameterLibrary cachedSession).1,
   (Disconnect_keeps_caches parameterLibrary cachedSession).2.2.2 "CfgAxis" "old" (by decide)⟩

/-! ## Claims C14 to C18 -/

/-- C14, evaluated on a session with a library, a cookie and an address whose connection the
control refuses at every attempt: `CheckConnection` returns false after 6 calls of
`SOLTryConnection`, one more than `NB_CONNECTION_ATTEMPT`, which is 5. -/
theorem Selca_CheckConnection_six_attempts :
    (Selca.CheckConnection refusingSeLGeC selcaLoaded).1 = .returned false ∧
    tryConnectionCount (Selca.CheckConnection refusingSeLGeC selcaLoaded).2.calls = 6 ∧
    NB_CONNECTION_ATTEMPT = 5 := by
  obtain ⟨r1, -, -, -, -, -, r7⟩ := Selca_CheckConnection_refused refusingSeLGeC selcaLoaded
    "10.0.0.1" rfl rfl (by decide) (by decide) (by decide) refusingSeLGeC_good
    refusingSeLGeC_fail
  exact ⟨r1, r7, rfl⟩

/-- C15: whenever the retry loop gives up, it records the time of the return in
`m_lastConnectionErrorDateTime`; this is what `CheckConnection` does, returning false and
keeping cookie, library and address, on a session that is not connected whose connection is
refused at every attempt.  On a session that is not connected, a `CheckConnection` less than
`CONNECTION_ERROR_SLEEP_MS` after that time returns false and makes no call; once that time has
elapsed, with an address, a library, a cookie and an address the library accepts,
`CheckConnection` calls `SOLTryConnection`. -/
theorem Selca_reconnection_cooldown (lib : SeLGeCLibrary) :
    (∀ (ip : String) (fuel attempt : Nat) (s : Selca),
      (Selca.tryConnection lib ip fuel attempt s).1 = .returned false →
      (Selca.tryConnection lib ip fuel attempt s).2.m_lastConnectionErrorDateTime =
        (Selca.tryConnection lib ip fuel attempt s).2.utcNow) ∧
    (∀ (s : Selca) (ip : String), s.m_connected = false → s.m_ipAddress = some ip →
      ¬ s.utcNow - s.m_lastConnectionErrorDateTime <
        CONNECTION_ERROR_SLEEP_MS * ticksPerMillisecond →
      s.m_SeLGeCLibrary ≠ NULL → s.m_cookie ≠ 0 →
      (∀ (h : List SelcaCall) (c : Int),
        (lib.respond (h ++ [SelcaCall.SOLGoodTcpAddr c ip])).flag = true) →
      (∀ (h : List SelcaCall) (c : Int),
        (lib.respond (h ++ [SelcaCall.SOLTryConnection c ip])).code ≠ 0 ∧
        (lib.respond (h ++ [SelcaCall.SOLTryConnection c ip])).code ≠
          ERROR_CLASS_ALREADY_EXISTS) →
      (Selca.CheckConnection lib s).1 = .returned false ∧
      (Selca.CheckConnection lib s).2.m_lastConnectionErrorDateTime =
        (Selca.CheckConnection lib s).2.utcNow ∧
      (Selca.CheckConnection lib s).2.m_connected = false ∧
      (Selca.CheckConnection lib s).2.m_cookie = s.m_cookie ∧
      (Selca.CheckConnection lib s).2.m_SeLGeCLibrary = s.m_SeLGeCLibrary ∧
      (Selca.CheckConnection lib s).2.m_ipAddress = some ip) ∧
    (∀ s : Selca, s.m_connected = false →
      s.utcNow - s.m_lastConnectionErrorDateTime <
        CONNECTION_ERROR_SLEEP_MS * ticksPerMillisecond →
      (Selca.CheckConnection lib s).1 = .returned false ∧
      (Selca.CheckConnection lib s).2.calls = s.calls) ∧
    (∀ (s : Selca) (ip : String), s.m_connected = false → s.m_ipAddress = some ip →
      ¬ s.utcNow - s.m_lastConnectionErrorDateTime <
        CONNECTION_ERROR_SLEEP_MS * ticksPerMillisecond →
      s.m_SeLGeCLibrary ≠ NULL → s.m_cookie ≠ 0 →
      (∀ (h : List SelcaCall) (c : Int),
        (lib.respond (h ++ [SelcaCall.SOLGoodTcpAddr c ip])).flag = true) →
      ∃ before after, (Selca.CheckConnection lib s).2.calls =
        s.calls ++ before ++ SelcaCall.SOLTryConnection s.m_cookie ip :: after) := by
  refine ⟨fun ip fuel attempt s => Selca_tryConnection_gives_up lib ip fuel attempt s, ?_, ?_, ?_⟩
  · intro s ip hc hip hcool hlib hcookie hgood hfail
    obtain ⟨r1, r2, r3, r4, r5, r6, -⟩ :=
      Selca_CheckConnection_refused lib s ip hc hip hcool hlib hcookie hgood hfail
    exact ⟨r1, r2, r3, r4, r5, r6⟩
  · intro s hc hcool
    rw [Selca_CheckConnection_of_not_connected lib s hc]
    rcases Selca_requested_state s hc with h | h
    · rw [h, Selca_connect_cooldown lib s hcool]
      exact ⟨rfl, rfl⟩
    · rw [h, Selca_connect_cooldown lib { s with m_values := [] } hcool]
      exact ⟨rfl, rfl⟩
  · intro s ip hc hip hcool hlib hcookie hgood
    rw [Selca_CheckConnection_of_not_connected lib s hc]
    have key : ∀ s1 : Selca, s1.m_ipAddress = some ip →
        ¬ s1.utcNow - s1.m_lastConnectionErrorDateTime <
          CONNECTION_ERROR_SLEEP_MS * ticksPerMillisecond →
        s1.m_SeLGeCLibrary ≠ NULL → s1.m_cookie ≠ 0 →
        ∃ before after, (Selca.connect lib s1).2.calls =
          s1.calls ++ before ++ SelcaCall.SOLTryConnection s1.m_cookie ip :: after := by
      intro s1 hip1 hcool1 hlib1 hcookie1
      obtain ⟨s5, -, q2, -, -, ⟨pre, q5, -⟩, q7⟩ :=
        Selca_connect_try lib s1 ip hip1 hcool1 hlib1 hcookie1 hgood
      rw [q7]
      obtain ⟨tr, e⟩ := Selca_tryConnection_first_call lib ip NB_CONNECTION_ATTEMPT 0 s5
      rcases htc : Selca.tryConnection lib ip NB_CONNECTION_ATTEMPT 0 s5 with ⟨res, s6⟩
      rw [htc] at e
      simp only [] at e
      rw [q5, q2] at e
      cases res with
      | raised x => exact ⟨pre, tr, e⟩
      | blocked => exact ⟨pre, tr, e⟩
      | outOfFuel => exact ⟨pre, tr, e⟩
      | returned b =>
        cases b with
        | false => exact ⟨pre, tr, e⟩
        | true =>
          refine ⟨pre, tr ++ [SelcaCall.SOLSendPPInfo s6.m_cookie s6.m_sloDB s6.m_sloDBSize], ?_⟩
          show s6.calls ++ [_] = _
          rw [e]
          simp
    rcases Selca_requested_state s hc with h | h
    · rw [h]
      exact key s hip hcool hlib hcookie
    · rw [h]
      exact key { s with m_values := [] } hip hcool hlib hcookie

/-- Witness of C15: the refused connection of `selcaLoaded` records the time; one second after an
error no call is made; long after the last error `SOLTryConnection` is called. -/
theorem Selca_reconnection_cooldown_witness :
    (Selca.CheckConnection refusingSeLGeC selcaLoaded).1 = .returned false ∧
    (Selca.CheckConnection refusingSeLGeC selcaLoaded).2.m_lastConnectionErrorDateTime =
      (Selca.CheckConnection refusingSeLGeC selcaLoaded).2.utcNow ∧
    (Selca.CheckConnection refusingSeLGeC selcaCooling).2.calls = selcaCooling.calls ∧
    (∃ before after, (Selca.CheckConnection refusingSeLGeC selcaLoaded).2.calls =
      selcaLoaded.calls ++ before ++ SelcaCall.SOLTryConnection 9 "10.0.0.1" :: after) :=
  ⟨((Selca_reconnection_cooldown refusingSeLGeC).2.1 selcaLoaded "10.0.0.1" rfl rfl (by decide)
      (by decide) (by decide) refusingSeLGeC_good refusingSeLGeC_fail).1,
   ((Selca_reconnection_cooldown refusingSeLGeC).2.1 selcaLoaded "10.0.0.1" rfl rfl (by decide)
      (by decide) (by decide) refusingSeLGeC_good refusingSeLGeC_fail).2.1,
   ((Selca_reconnection_cooldown refusingSeLGeC).2.2.1 selcaCooling rfl (by decide)).2,
   (Selca_reconnection_cooldown refusingSeLGeC).2.2.2 selcaLoaded "10.0.0.1" rfl rfl (by decide)
      (by decide) (by decide) refusingSeLGeC_good⟩

/-- C16, evaluated on an object of the public constructor whose pending flag is 0: after a
successful `CheckConnection`, `Start` calls `SOLGetMessage`. -/
theorem Selca_Start_drains_without_pending_flag :
    selcaIdle = Selca.Finish { Selca.new with
      m_ipAddress := some "10.0.0.1", m_parameters := ["PLC:100:WORD"],
      utcNow := 638000000000000000 } ∧
    selcaIdle.m_pendingMessages = 0 ∧
    (Selca.CheckConnection (messageSeLGeC { sloid := -1 })
      (Selca.initSloDB (messageSeLGeC { sloid := -1 }) (Selca.resetErrors selcaIdle))).1 =
        .returned true ∧
    (Selca.Start (messageSeLGeC { sloid := -1 }) 1 selcaIdle).1 = .returned true ∧
    SelcaCall.SOLGetMessage 9 ∈ (Selca.Start (messageSeLGeC { sloid := -1 }) 1 selcaIdle).2.calls := by
  decide

/-- C16, amended: past the initialization and after a successful `CheckConnection`, an object
that uses the messages and whose pending flag is 0 returns true from `Start` without a call of
`SOLGetMessage`, the flag staying 0; with a pending flag other than 0 the `try` block is the
drain loop, entered after the flag 1 was exchanged for 0; an object that does not use the
messages, as the public constructor builds it, enters the drain loop whatever the flag. -/
theorem Selca_Start_pending_gate (lib : SeLGeCLibrary) (fuel : Nat) (s : Selca)
    (hinv : Selca.Invariant s) (hinit : s.m_parametersInitialization = false)
    (hcheck : (Selca.CheckConnection lib (Selca.initSloDB lib (Selca.resetErrors s))).1 =
      .returned true) :
    (s.m_useMessages = true → s.m_pendingMessages = 0 →
      Selca.Start lib fuel s =
        (.returned true,
          (Selca.CheckConnection lib (Selca.initSloDB lib (Selca.resetErrors s))).2) ∧
      (∃ tr, (Selca.Start lib fuel s).2.calls = s.calls ++ tr ∧
        ∀ c ∈ tr, SelcaCall.isGetMessage c = false) ∧
      (Selca.Start lib fuel s).2.m_pendingMessages = 0) ∧
    (s.m_useMessages = true → s.m_pendingMessages ≠ 0 →
      Selca.startBody lib fuel (Selca.resetErrors s) =
        Selca.drain lib fuel (Selca.CompareExchange
          (Selca.CheckConnection lib (Selca.initSloDB lib (Selca.resetErrors s))).2 0 1).2) ∧
    (s.m_useMessages = false →
      Selca.startBody lib fuel (Selca.resetErrors s) =
        Selca.drain lib fuel
          (Selca.CheckConnection lib (Selca.initSloDB lib (Selca.resetErrors s))).2) := by
  obtain ⟨⟨hcalls, -, huse, hpend⟩, hbody⟩ := Selca_startBody_gate lib fuel s hinv hcheck
  generalize hs2 : (Selca.CheckConnection lib (Selca.initSloDB lib (Selca.resetErrors s))).2 = s2
    at hcalls huse hpend hbody
  refine ⟨?_, ?_, ?_⟩
  · intro hu hp
    have hstart : Selca.startBody lib fuel (Selca.resetErrors s) = (.returned true, s2) := by
      rw [hbody, if_pos (huse.trans hu)]
      have hx : Selca.CompareExchange s2 0 1 = (0, s2) := by
        unfold Selca.CompareExchange
        rw [hpend, hp, if_neg (by decide)]
      rw [hx]
      rfl
    have hS : Selca.Start lib fuel s = (.returned true, s2) := by
      rw [Selca_Start_of_startBody lib fuel s hinit (by rw [hstart]; simp), hstart]
    rw [hS]
    exact ⟨rfl, hcalls, hpend.trans hp⟩
  · intro hu hp
    rw [hbody, if_pos (huse.trans hu)]
    have hx : (Selca.CompareExchange s2 0 1).1 = s.m_pendingMessages := hpend
    rw [if_neg (by rw [hx]; exact fun h => hp h.symm)]
  · intro hu
    rw [hbody, if_neg (by rw [huse, hu]; decide)]

/-- Witness of C16: with the messages in use and the flag 0, `Start` ends after the connection
and `SOLGetMessage` is not called. -/
theorem Selca_Start_pending_gate_witness :
    Selca.Start (messageSeLGeC { sloid := -1 }) 1 selcaIdleWithMessages =
      (.returned true,
        (Selca.CheckConnection (messageSeLGeC { sloid := -1 })
          (Selca.initSloDB (messageSeLGeC { sloid := -1 })
            (Selca.resetErrors selcaIdleWithMessages))).2) ∧
    (Selca.Start (messageSeLGeC { sloid := -1 }) 1 selcaIdleWithMessages).2.m_pendingMessages
      = 0 ∧
    SelcaCall.SOLGetMessage 9 ∉
      (Selca.Start (messageSeLGeC { sloid := -1 }) 1 selcaIdleWithMessages).2.calls :=
  ⟨((Selca_Start_pending_gate (messageSeLGeC { sloid := -1 }) 1 selcaIdleWithMessages
      (by unfold Selca.Invariant; decide) rfl (by decide)).1 rfl rfl).1,
   ((Selca_Start_pending_gate (messageSeLGeC { sloid := -1 }) 1 selcaIdleWithMessages
      (by unfold Selca.Invariant; decide) rfl (by decide)).1 rfl rfl).2.2,
   by decide⟩

/-- When `SOLTryConnection` returns `ERROR_CLASS_ALREADY_EXISTS` and `SOLisConnected` false,
`Start` on `selcaIdle` does not return, whatever the fuel. -/
theorem Selca_Start_ambiguous_blocks :
    ∀ fuel : Nat, (Selca.Start ambiguousSeLGeC fuel selcaIdle).1 = .blocked ∧
      (Selca.Start ambiguousSeLGeC fuel selcaIdle).1 ≠ .returned true := by
  intro fuel
  have h1 : (Selca.CheckConnection ambiguousSeLGeC
      (Selca.initSloDB ambiguousSeLGeC (Selca.resetErrors selcaIdle))).1 = .blocked := by
    decide
  have h2 : (Selca.Start ambiguousSeLGeC fuel selcaIdle).1 = .blocked := by
    unfold Selca.Start
    simp only []
    rw [if_neg (by decide)]
    unfold Selca.startBody
    simp only []
    rcases hcc : Selca.CheckConnection ambiguousSeLGeC
      (Selca.initSloDB ambiguousSeLGeC (Selca.resetErrors selcaIdle)) with ⟨res, s2⟩
    rw [hcc] at h1
    simp only [] at h1
    subst h1
    rfl
  rw [h2]
  exact ⟨rfl, by simp⟩

/-- C17, evaluated when `SOLTryConnection` returns `ERROR_CLASS_ALREADY_EXISTS` and
`SOLisConnected` false: with fuel for one message or for a million, `Start` does not return,
the thread sleeps without limit in `CheckConnection`. -/
theorem Selca_Start_blocks_forever :
    (Selca.Start ambiguousSeLGeC 1 selcaIdle).1 = .blocked ∧
    (Selca.Start ambiguousSeLGeC 1000000 selcaIdle).1 = .blocked ∧
    (Selca.Start ambiguousSeLGeC 1 selcaIdle).1 ≠ .returned true :=
  ⟨(Selca_Start_ambiguous_blocks 1).1, (Selca_Start_ambiguous_blocks 1000000).1,
    (Selca_Start_ambiguous_blocks 1).2⟩

/-- C17, amended: when the `try` block of `Start` raises, `Start` returns true and the session is
disconnected (`m_connected` false, `m_ready` false, `m_values` empty) with the cookie it had,
`m_pendingMessages` 1 and `m_errorConnection` true; and `Start` never raises and never returns
false: it returns true, or does not return (the thread sleeps without limit, or the loop has
not ended within the fuel). -/
theorem Selca_Start_contains_exception (lib : SeLGeCLibrary) (fuel : Nat) (s : Selca)
    (hinv : Selca.Invariant s) :
    (∀ e, s.m_parametersInitialization = false →
      (Selca.startBody lib fuel (Selca.resetErrors s)).1 = .raised e →
      (Selca.Start lib fuel s).1 = .returned true ∧
      (Selca.Start lib fuel s).2.m_connected = false ∧
      (Selca.Start lib fuel s).2.m_ready = false ∧
      (Selca.Start lib fuel s).2.m_values = [] ∧
      (Selca.Start lib fuel s).2.m_cookie =
        (Selca.startBody lib fuel (Selca.resetErrors s)).2.m_cookie ∧
      (Selca.Start lib fuel s).2.m_pendingMessages = 1 ∧
      (Selca.Start lib fuel s).2.m_errorConnection = true) ∧
    ((Selca.Start lib fuel s).1 = .returned true ∨ (Selca.Start lib fuel s).1 = .blocked ∨
      (Selca.Start lib fuel s).1 = .outOfFuel) := by
  obtain ⟨b1, b2⟩ := Selca_startBody_spec lib fuel _ (Selca_Invariant_resetErrors s hinv)
  unfold Selca.Start
  simp only []
  rcases hsb : Selca.startBody lib fuel (Selca.resetErrors s) with ⟨res, s1⟩
  rw [hsb] at b1 b2
  simp only [] at b1 b2
  refine ⟨?_, ?_⟩
  · intro e hinit he
    have h0 : (Selca.resetErrors s).m_parametersInitialization = false := hinit
    rw [if_neg (by rw [h0]; decide)]
    simp only [] at he
    subst he
    simp only []
    obtain ⟨d1, d2, d3, d4⟩ := Selca_Disconnect_disconnected s1 false b1
    exact ⟨trivial, d1, d2, d3, d4 rfl, trivial, trivial⟩
  · split
    · exact Or.inl rfl
    · cases res with
      | raised e => exact Or.inl rfl
      | blocked => exact Or.inr (Or.inl rfl)
      | outOfFuel => exact Or.inr (Or.inr rfl)
      | returned b =>
        cases b with
        | true => exact Or.inl rfl
        | false => exact absurd rfl b2

/-- Witness of C17: a data message whose `sloid` 5 is not an index of the one registered
parameter raises in the drain loop, and `Start` returns true on a disconnected session. -/
theorem Selca_Start_contains_exception_witness :
    (Selca.startBody (messageSeLGeC { sloid := 5, dest := 1, datas := "12" }) 1
      (Selca.resetErrors selcaIdle)).1 = .raised "ArgumentOutOfRangeException" ∧
    (Selca.Start (messageSeLGeC { sloid := 5, dest := 1, datas := "12" }) 1 selcaIdle).1 =
      .returned true ∧
    (Selca.Start (messageSeLGeC { sloid := 5, dest := 1, datas := "12" }) 1
      selcaIdle).2.m_connected = false ∧
    (Selca.Start (messageSeLGeC { sloid := 5, dest := 1, datas := "12" }) 1
      selcaIdle).2.m_pendingMessages = 1 :=
  ⟨by decide,
   ((Selca_Start_contains_exception (messageSeLGeC { sloid := 5, dest := 1, datas := "12" }) 1
      selcaIdle (by unfold Selca.Invariant; decide)).1 "ArgumentOutOfRangeException" rfl
      (by decide)).1,
   ((Selca_Start_contains_exception (messageSeLGeC { sloid := 5, dest := 1, datas := "12" }) 1
      selcaIdle (by unfold Selca.Invariant; decide)).1 "ArgumentOutOfRangeException" rfl
      (by decide)).2.1,
   ((Selca_Start_contains_exception (messageSeLGeC { sloid := 5, dest := 1, datas := "12" }) 1
      selcaIdle (by unfold Selca.Invariant; decide)).1 "ArgumentOutOfRangeException" rfl
      (by decide)).2.2.2.2.2.1⟩

/-- C18: in a turn of the drain loop whose message has `sloid` -2 and the text `BUSY` or
`KILLED`, the buffer being empty after it, the loop returns true with `m_connected` false,
`m_ready` false, `m_values` empty and the cookie unchanged, not 0; and so does `Start` on a
connected session, past the initialization, when this message is the first of the cycle. -/
theorem Selca_Start_BUSY_KILLED (lib : SeLGeCLibrary) (fuel : Nat) :
    (∀ s : Selca, Selca.Invariant s →
      (Selca.CheckConnection lib s).1 = .returned true →
      (lib.reply (Selca.CheckConnection lib s).2
        (SelcaCall.SOLGetMessage (Selca.CheckConnection lib s).2.m_cookie)).message.sloid = -2 →
      ((lib.reply (Selca.CheckConnection lib s).2
          (SelcaCall.SOLGetMessage (Selca.CheckConnection lib s).2.m_cookie)).message.datas
            = "BUSY" ∨
        (lib.reply (Selca.CheckConnection lib s).2
          (SelcaCall.SOLGetMessage (Selca.CheckConnection lib s).2.m_cookie)).message.datas
            = "KILLED") →
      (lib.reply
        (Selca.Disconnect ((Selca.CheckConnection lib s).2.issued
          (SelcaCall.SOLGetMessage (Selca.CheckConnection lib s).2.m_cookie)) false)
        (SelcaCall.SOLisReceiveBufferEmpty (Selca.CheckConnection lib s).2.m_cookie)).flag
          = true →
      (Selca.drain lib (fuel + 1) s).1 = .returned true ∧
      (Selca.drain lib (fuel + 1) s).2.m_connected = false ∧
      (Selca.drain lib (fuel + 1) s).2.m_ready = false ∧
      (Selca.drain lib (fuel + 1) s).2.m_values = [] ∧
      (Selca.drain lib (fuel + 1) s).2.m_cookie = (Selca.CheckConnection lib s).2.m_cookie ∧
      (Selca.drain lib (fuel + 1) s).2.m_cookie ≠ 0) ∧
    (∀ s : Selca, s.m_parametersInitialization = false → s.m_connected = true →
      s.m_cookie ≠ 0 → s.m_disconnectRequested = false →
      (s.m_useMessages = true → s.m_pendingMessages ≠ 0) →
      (∀ h : List SelcaCall,
        (lib.respond (h ++ [SelcaCall.SOLisConnected s.m_cookie])).flag = true) →
      (∀ h : List SelcaCall,
        (lib.respond (h ++ [SelcaCall.SOLGetMessage s.m_cookie])).message.sloid = -2 ∧
        ((lib.respond (h ++ [SelcaCall.SOLGetMessage s.m_cookie])).message.datas = "BUSY" ∨
          (lib.respond (h ++ [SelcaCall.SOLGetMessage s.m_cookie])).message.datas = "KILLED")) →
      (∀ h : List SelcaCall,
        (lib.respond (h ++ [SelcaCall.SOLisReceiveBufferEmpty s.m_cookie])).flag = true) →
      (Selca.Start lib (fuel + 1) s).1 = .returned true ∧
      (Selca.Start lib (fuel + 1) s).2.m_connected = false ∧
      (Selca.Start lib (fuel + 1) s).2.m_ready = false ∧
      (Selca.Start lib (fuel + 1) s).2.m_values = [] ∧
      (Selca.Start lib (fuel + 1) s).2.m_cookie = s.m_cookie) := by
  refine ⟨fun s hinv h1 h2 h3 h4 => Selca_drain_BUSY_KILLED lib fuel s hinv h1 h2 h3 h4, ?_⟩
  intro s hinit hconn hcookie hreq hgate hisc hmsg hempty
  have hinv : Selca.Invariant s :=
    ⟨fun _ => hcookie, fun h => by rw [hconn] at h; exact absurd h (by decide)⟩
  obtain ⟨f1, f2, f3, -⟩ := Selca_initSloDB_fields lib s
  have hcheck0 := Selca_CheckConnection_connected lib
    (Selca.initSloDB lib (Selca.resetErrors s)) (f1.trans hconn) (f3.trans hreq)
    (by rw [f2]; exact hisc _)
  have hcheck1 : (Selca.CheckConnection lib (Selca.initSloDB lib (Selca.resetErrors s))).1 =
      .returned true := by rw [hcheck0]
  obtain ⟨⟨-, -, huse, hpend⟩, hgateEq⟩ := Selca_startBody_gate lib (fuel + 1) s hinv hcheck1
  -- the state in which the drain loop starts
  have key : ∀ t : Selca, t.m_connected = true → t.m_cookie = s.m_cookie →
      t.m_disconnectRequested = false →
      (Selca.drain lib (fuel + 1) t).1 = .returned true ∧
      (Selca.drain lib (fuel + 1) t).2.m_connected = false ∧
      (Selca.drain lib (fuel + 1) t).2.m_ready = false ∧
      (Selca.drain lib (fuel + 1) t).2.m_values = [] ∧
      (Selca.drain lib (fuel + 1) t).2.m_cookie = s.m_cookie := by
    intro t tc tk tr
    have tinv : Selca.Invariant t :=
      ⟨fun _ => by rw [tk]; exact hcookie, fun h => by rw [tc] at h; exact absurd h (by decide)⟩
    have hct := Selca_CheckConnection_connected lib t tc tr (by rw [tk]; exact hisc _)
    have e2 : (Selca.CheckConnection lib t).2.m_cookie = s.m_cookie := by rw [hct]; exact tk
    obtain ⟨r1, r2, r3, r4, r5, -⟩ := Selca_drain_BUSY_KILLED lib fuel t tinv (by rw [hct])
      (by rw [e2]; exact (hmsg _).1) (by rw [e2]; exact (hmsg _).2)
      (by rw [e2]; exact hempty _)
    exact ⟨r1, r2, r3, r4, r5.trans e2⟩
  have hbody : (Selca.startBody lib (fuel + 1) (Selca.resetErrors s)).1 = .returned true ∧
      (Selca.startBody lib (fuel + 1) (Selca.resetErrors s)).2.m_connected = false ∧
      (Selca.startBody lib (fuel + 1) (Selca.resetErrors s)).2.m_ready = false ∧
      (Selca.startBody lib (fuel + 1) (Selca.resetErrors s)).2.m_values = [] ∧
      (Selca.startBody lib (fuel + 1) (Selca.resetErrors s)).2.m_cookie = s.m_cookie := by
    rw [hgateEq]
    by_cases hu : s.m_useMessages = true
    · rw [if_pos (huse.trans hu)]
      have hx : (Selca.CompareExchange
          (Selca.CheckConnection lib (Selca.initSloDB lib (Selca.resetErrors s))).2 0 1).1 =
          s.m_pendingMessages := hpend
      rw [if_neg (by rw [hx]; exact fun h => hgate hu h.symm), hcheck0]
      apply key
      · unfold Selca.CompareExchange
        simp only []
        split
        · exact f1.trans hconn
        · exact f1.trans hconn
      · unfold Selca.CompareExchange
        simp only []
        split
        · exact f2
        · exact f2
      · unfold Selca.CompareExchange
        simp only []
        split
        · exact f3.trans hreq
        · exact f3.trans hreq
    · rw [if_neg (by rw [huse]; exact hu), hcheck0]
      exact key _ (f1.trans hconn) f2 (f3.trans hreq)
  rw [Selca_Start_of_startBody lib (fuel + 1) s hinit (by rw [hbody.1]; simp)]
  exact hbody

/-- Witness of C18: a connected session that holds a value receives `BUSY`. -/
theorem Selca_Start_BUSY_KILLED_witness :
    selcaRunning.m_values ≠ [] ∧
    (Selca.Start (messageSeLGeC { sloid := -2, datas := "BUSY" }) 1 selcaRunning).1 =
      .returned true ∧
    (Selca.Start (messageSeLGeC { sloid := -2, datas := "BUSY" }) 1 selcaRunning).2.m_connected
      = false ∧
    (Selca.Start (messageSeLGeC { sloid := -2, datas := "BUSY" }) 1 selcaRunning).2.m_ready
      = false ∧
    (Selca.Start (messageSeLGeC { sloid := -2, datas := "BUSY" }) 1 selcaRunning).2.m_values
      = [] ∧
    (Selca.Start (messageSeLGeC { sloid := -2, datas := "BUSY" }) 1 selcaRunning).2.m_cookie
      = 9 :=
  ⟨by decide,
   (Selca_Start_BUSY_KILLED (messageSeLGeC { sloid := -2, datas := "BUSY" }) 0).2 selcaRunning
     rfl rfl (by decide) rfl (fun h => absurd h (by decide)) (fun _ => rfl)
     (fun _ => ⟨rfl, Or.inl rfl⟩) (fun _ => rfl)⟩

/-! ## Claims C19 and C20 -/

/-- C19: `Finish` changes the two login flags to (old flag and keep option), appends to the
history calls whose session calls are the logout of PLCDEBUG, made exactly when that login was
established and its keep option is false, then the logout of DNC under the same condition, and
leaves every other member as it is (`m_connected`, the handle, `m_isLoggedFile` and
`m_isLoggedData` among them); both keep options are false after the constructor. -/
theorem Finish_applies_teardown_policy (lib : Lsv2Library) (s : HeidenhainLsv2) :
    (∃ tr le,
      sessionCalls tr =
        (if s.m_isLoggedPlc = true ∧ s.m_keepPlcConnection = false then
          [VendorCall.LSV2Logout s.m_hPort "PLCDEBUG"] else []) ++
        (if s.m_isLoggedDnc = true ∧ s.m_keepDncConnection = false then
          [VendorCall.LSV2Logout s.m_hPort "DNC"] else []) ∧
      Finish lib s =
        { s with m_isLoggedPlc := s.m_isLoggedPlc && s.m_keepPlcConnection,
                 m_isLoggedDnc := s.m_isLoggedDnc && s.m_keepDncConnection,
                 calls := s.calls ++ tr, lastError := le }) ∧
    HeidenhainLsv2.new.m_keepPlcConnection = false ∧
    HeidenhainLsv2.new.m_keepDncConnection = false := by
  refine ⟨?_, rfl, rfl⟩
  have c1 : ∀ (c : VendorCall) (e : List VendorCall), c.isErrorText = false →
      (∀ x ∈ e, x.isErrorText = true) → sessionCalls ([c] ++ e) = [c] := by
    intro c e hc he
    rw [sessionCalls_append, sessionCalls_errorText e he]
    simp [sessionCalls, hc]
  have step1 : ∃ tr le,
      sessionCalls tr = (if s.m_isLoggedPlc = true ∧ s.m_keepPlcConnection = false then
          [VendorCall.LSV2Logout s.m_hPort "PLCDEBUG"] else []) ∧
      (if s.m_keepPlcConnection = false ∧ s.m_isLoggedPlc = true then LogoutPlc lib s else s) =
        { s with m_isLoggedPlc := s.m_isLoggedPlc && s.m_keepPlcConnection,
                 calls := s.calls ++ tr, lastError := le } := by
    by_cases hc : s.m_keepPlcConnection = false ∧ s.m_isLoggedPlc = true
    · obtain ⟨e, l, he, q⟩ := LogoutPlc_eq lib s
      refine ⟨[VendorCall.LSV2Logout s.m_hPort "PLCDEBUG"] ++ e, l, ?_, ?_⟩
      · rw [if_pos ⟨hc.2, hc.1⟩]
        exact c1 (VendorCall.LSV2Logout s.m_hPort "PLCDEBUG") e rfl he
      · rw [if_pos hc, q]
        simp [hc.1, hc.2]
    · refine ⟨[], s.lastError, ?_, ?_⟩
      · rw [if_neg (fun h => hc ⟨h.2, h.1⟩)]
        rfl
      · rw [if_neg hc]
        have hb : (s.m_isLoggedPlc && s.m_keepPlcConnection) = s.m_isLoggedPlc := by
          cases hk : s.m_keepPlcConnection <;> cases hl : s.m_isLoggedPlc <;> simp_all
        rw [hb, List.append_nil]
  obtain ⟨tr1, le1, ht1, q1⟩ := step1
  unfold Finish
  simp only []
  rw [q1]
  generalize hs1 :
    ({ s with m_isLoggedPlc := s.m_isLoggedPlc && s.m_keepPlcConnection,
              calls := s.calls ++ tr1, lastError := le1 } : HeidenhainLsv2) = s1
  have f1 : s1.m_keepDncConnection = s.m_keepDncConnection := by rw [← hs1]
  have f2 : s1.m_isLoggedDnc = s.m_isLoggedDnc := by rw [← hs1]
  have f3 : s1.m_hPort = s.m_hPort := by rw [← hs1]
  by_cases hc : s1.m_keepDncConnection = false ∧ s1.m_isLoggedDnc = true
  · obtain ⟨e, l, he, q⟩ := LogoutDnc_eq lib s1
    refine ⟨tr1 ++ ([VendorCall.LSV2Logout s.m_hPort "DNC"] ++ e), l, ?_, ?_⟩
    · have hd : s.m_isLoggedDnc = true ∧ s.m_keepDncConnection = false :=
        ⟨f2 ▸ hc.2, f1 ▸ hc.1⟩
      rw [sessionCalls_append, ht1, c1 (VendorCall.LSV2Logout s.m_hPort "DNC") e rfl he,
        if_pos hd]
    · rw [if_pos hc, q]
      subst hs1
      simp only [] at hc
      simp [hc.1, hc.2]
  · refine ⟨tr1, le1, ?_, ?_⟩
    · have hd : ¬(s.m_isLoggedDnc = true ∧ s.m_keepDncConnection = false) :=
        fun h => hc ⟨f1 ▸ h.2, f2 ▸ h.1⟩
      rw [ht1, if_neg hd]
      simp
    · rw [if_neg hc]
      subst hs1
      simp only [not_and, Bool.not_eq_true] at hc
      congr
      cases hk : s.m_keepDncConnection <;> cases hl : s.m_isLoggedDnc <;> simp_all

/-- C20: on a connected session without the DATA login whose model is below `HEID_530` or whose
version compares below `340490 03`, `CheckDataConnection` returns false and leaves the object
as it is: no call is made, `m_isLoggedData` stays false, `m_connected` and the other login
flags are untouched. -/
theorem CheckDataConnection_gated (lib : Lsv2Library) (s : HeidenhainLsv2)
    (hc : s.m_connected = true) (hd : s.m_isLoggedData = false)
    (hg : s.m_model < Model.HEID_530 ∨ String_Compare s.version "340490 03" < 0) :
    CheckDataConnection lib s = (.ok false, s) := by
  unfold CheckDataConnection CheckConnection
  simp only [hc, hd, Bool.true_eq_false, if_false, Bool.false_eq_true]
  rcases hg with hg | hg
  · rw [if_pos hg]
  · split
    · rfl
    · rfl

/-- Witness of C20: an iTNC 530 of version `340422 01`, and a TNC 430. -/
theorem CheckDataConnection_gated_witness :
    CheckDataConnection healthyLibrary gatedSession = (.ok false, gatedSession) ∧
    CheckDataConnection healthyLibrary { gatedSession with m_model := Model.HEID_430 } =
      (.ok false, { gatedSession with m_model := Model.HEID_430 }) :=
  ⟨CheckDataConnection_gated healthyLibrary gatedSession rfl rfl (Or.inr (by decide)),
   CheckDataConnection_gated healthyLibrary { gatedSession with m_model := Model.HEID_430 } rfl rfl
     (Or.inl (by decide))⟩

/-! ## Lemmas on the settings of the readers -/

theorem settingsOf_issued (s : HeidenhainLsv2) (c : VendorCall) (r : Response) :
    settingsOf (s.issued c r) = settingsOf s := rfl

theorem settingsOf_LogLsv2Error (lib : Lsv2Library) (s : HeidenhainLsv2) :
    settingsOf (LogLsv2Error lib s).2 = settingsOf s := rfl

theorem settingsOf_Disconnect (lib : Lsv2Library) (s : HeidenhainLsv2) :
    settingsOf (Disconnect lib s) = settingsOf s := by
  by_cases h : s.m_hPort = INVALID_HANDLE_VALUE
  · rw [Disconnect_of_invalid lib s h]
    rfl
  · obtain ⟨tr, le, -, q⟩ := Disconnect_of_valid lib s h
    rw [q]
    rfl

theorem settingsOf_bindLsv2Api (lib : Lsv2Library) (ms : List String) (s : HeidenhainLsv2) :
    settingsOf (bindLsv2Api lib ms s).2 = settingsOf s := by
  induction ms generalizing s with
  | nil => rfl
  | cons m ms ih =>
    unfold bindLsv2Api
    simp only []
    split
    · rfl
    · rw [ih]
      rfl

theorem settingsOf_LoadLsv2Library (lib : Lsv2Library) (s : HeidenhainLsv2) :
    settingsOf (LoadLsv2Library lib s).2 = settingsOf s := by
  unfold LoadLsv2Library
  simp only []
  split
  · rfl
  · split
    · rfl
    · split
      · rfl
      · rw [settingsOf_bindLsv2Api]
        rfl

theorem settingsOf_ensureLsv2Library (lib : Lsv2Library) (s : HeidenhainLsv2) :
    settingsOf (ensureLsv2Library lib s).2 = settingsOf s := by
  unfold ensureLsv2Library
  split
  · exact settingsOf_LoadLsv2Library lib s
  · rfl

theorem settingsOf_openSession (lib : Lsv2Library) (s : HeidenhainLsv2) (ip : String) :
    settingsOf (openSession lib s ip).2 = settingsOf s := by
  unfold openSession
  simp only []
  split
  · rfl
  · split
    · exact (settingsOf_Disconnect lib _).trans
        (by simp only [settingsOf, LogLsv2Error, HeidenhainLsv2.issued])
    · split
      · exact (settingsOf_Disconnect lib _).trans
          (by simp only [settingsOf, LogLsv2Error, HeidenhainLsv2.issued])
      · split
        · exact (settingsOf_Disconnect lib _).trans
            (by simp only [settingsOf, LogLsv2Error, HeidenhainLsv2.issued])
        · simp only [settingsOf, LogLsv2Error, HeidenhainLsv2.issued]

theorem settingsOf_CheckConnection (lib : Lsv2Library) (s : HeidenhainLsv2) :
    settingsOf (CheckConnection lib s).2 = settingsOf s := by
  unfold CheckConnection
  split
  · cases hip : s.IPAddress with
    | none => rfl
    | some ip =>
      simp only []
      have hl := settingsOf_ensureLsv2Library lib s
      rcases hload : ensureLsv2Library lib s with ⟨res, s1⟩
      rw [hload] at hl
      cases res with
      | error e => exact hl
      | ok u =>
        simp only []
        rw [settingsOf_openSession]
        exact hl
  · rfl

theorem settingsOf_GetTableLine (lib : Lsv2Library) (s : HeidenhainLsv2)
    (tableName condition : String) :
    settingsOf (GetTableLine lib s tableName condition).2 = settingsOf s := by
  unfold GetTableLine
  have hc := settingsOf_CheckConnection lib s
  rcases hcc : CheckConnection lib s with ⟨res, s1⟩
  rw [hcc] at hc
  simp only [] at hc
  cases res with
  | error e => exact hc
  | ok b =>
    cases b with
    | false => exact hc
    | true =>
      simp only []
      split
      · exact hc
      · split
        · exact hc
        · exact hc

/-- When one of the texts looked for occurs, the model is decided by the two texts alone. -/
theorem classifyModel_of_match (modelString version : String) (previous other : Model)
    (h : String_Contains modelString "426" = true ∨ String_Contains modelString "430" = true ∨
      String_Contains modelString "530" = true ∨ String_Contains modelString "6000i" = true ∨
      String_Contains version "530" = true ∨ String_Contains modelString "640" = true) :
    classifyModel modelString version previous = classifyModel modelString version other := by
  unfold classifyModel
  split
  · rfl
  · split
    · rfl
    · split
      · rfl
      · split
        · rfl
        · split
          · rfl
          · split
            · rfl
            · rename_i h1 h2 h3 h4 h5 h6
              rcases h with h | h | h | h | h | h
              · exact absurd h h1
              · exact absurd h h2
              · exact absurd h h3
              · exact absurd h h4
              · exact absurd h h5
              · exact absurd h h6

/-- When none of the texts looked for occurs, the model is the one the object had before. -/
theorem classifyModel_of_no_match (modelString version : String) (previous : Model)
    (h1 : String_Contains modelString "426" = false)
    (h2 : String_Contains modelString "430" = false)
    (h3 : String_Contains modelString "530" = false)
    (h4 : String_Contains modelString "6000i" = false)
    (h5 : String_Contains version "530" = false)
    (h6 : String_Contains modelString "640" = false) :
    classifyModel modelString version previous = previous := by
  unfold classifyModel
  simp [h1, h2, h3, h4, h5, h6]

theorem m_model_bindLsv2Api (lib : Lsv2Library) (ms : List String) (s : HeidenhainLsv2) :
    (bindLsv2Api lib ms s).2.m_model = s.m_model := by
  induction ms generalizing s with
  | nil => rfl
  | cons m ms ih =>
    unfold bindLsv2Api
    simp only []
    split
    · rfl
    · rw [ih]
      rfl

theorem m_model_ensureLsv2Library (lib : Lsv2Library) (s : HeidenhainLsv2) :
    (ensureLsv2Library lib s).2.m_model = s.m_model := by
  unfold ensureLsv2Library
  split
  · unfold LoadLsv2Library
    simp only []
    split
    · rfl
    · split
      · rfl
      · split
        · rfl
        · rw [m_model_bindLsv2Api]
          rfl
  · rfl

/-- A handshake that succeeds stores the texts of `LSV2ReceiveVersions` and the model that the
chain of tests gives for these texts and the model the object had before. -/
theorem openSession_model (lib : Lsv2Library) (s : HeidenhainLsv2) (ip : String)
    (h : (openSession lib s ip).1 = .ok true) :
    (openSession lib s ip).2.m_model =
      classifyModel (openSession lib s ip).2.modelString (openSession lib s ip).2.version
        s.m_model := by
  unfold openSession at h ⊢
  simp only [] at h ⊢
  split
  · rename_i h1
    rw [if_pos h1] at h
    exact absurd h (by simp)
  · rename_i h1
    rw [if_neg h1] at h
    split
    · rename_i h2
      rw [if_pos h2] at h
      exact absurd h (by simp)
    · rename_i h2
      rw [if_neg h2] at h
      split
      · rename_i h3
        rw [if_pos h3] at h
        exact absurd h (by simp)
      · rename_i h3
        rw [if_neg h3] at h
        split
        · rename_i h4
          rw [if_pos h4] at h
          exact absurd h (by simp)
        · rfl

/-- The model after a `CheckConnection` that performs the handshake with success. -/
theorem CheckConnection_model (lib : Lsv2Library) (s : HeidenhainLsv2)
    (hc : s.m_connected = false) (h : (CheckConnection lib s).1 = .ok true) :
    (CheckConnection lib s).2.m_model =
      classifyModel (CheckConnection lib s).2.modelString (CheckConnection lib s).2.version
        s.m_model := by
  unfold CheckConnection at h ⊢
  rw [if_pos hc] at h ⊢
  cases hip : s.IPAddress with
  | none =>
    rw [hip] at h
    exact absurd h (by simp)
  | some ip =>
    rw [hip] at h
    simp only [] at h ⊢
    have hm := m_model_ensureLsv2Library lib s
    rcases hload : ensureLsv2Library lib s with ⟨res, s1⟩
    rw [hload] at h hm
    cases res with
    | error e => exact absurd h (by simp)
    | ok u =>
      simp only [] at h hm ⊢
      rw [openSession_model lib s1 ip h, hm]

theorem cachesOf_ReceiveFile (lib : Lsv2Library) (s : HeidenhainLsv2)
    (distantFile localFile : String) (binary : Bool) :
    cachesOf (ReceiveFile lib s distantFile localFile binary).2 = cachesOf s := by
  unfold ReceiveFile
  have hc := cachesOf_CheckFileConnection lib s
  rcases hcc : CheckFileConnection lib s with ⟨res, s1⟩
  rw [hcc] at hc
  simp only [] at hc
  cases res with
  | error e => exact hc
  | ok b =>
    cases b with
    | false => exact hc
    | true =>
      simp only []
      split
      · exact (cachesOf_issued s1 _ _).trans hc
      · split
        · exact (cachesOf_LogLsv2Error lib _).trans
            ((cachesOf_issued _ _ _).trans ((cachesOf_issued s1 _ _).trans hc))
        · exact (cachesOf_issued _ _ _).trans ((cachesOf_issued s1 _ _).trans hc)

/-- When the file is not received, `DownloadReadTable` returns false and leaves the date of
the download as it was, so that the next call attempts the download again. -/
theorem DownloadReadTable_not_received (lib : Lsv2Library) (s s2 : HeidenhainLsv2)
    (tableName : String) (skipTime : Int) (hstale : downloadIsRecent s skipTime = false)
    (hreceive : ReceiveFile lib { s with m_downloadTableValues := [] } tableName
      (localTableFile { s with m_downloadTableValues := [] } tableName) false = (.ok false, s2)) :
    DownloadReadTable lib s tableName skipTime = (.ok false, s2) ∧
    s2.m_downloadDateTime = s.m_downloadDateTime ∧
    (∀ later : Int, s.now ≤ later → 0 ≤ skipTime →
      downloadIsRecent { s2 with now := later } skipTime = false) := by
  have hcaches := cachesOf_ReceiveFile lib { s with m_downloadTableValues := [] } tableName
    (localTableFile { s with m_downloadTableValues := [] } tableName) false
  rw [hreceive] at hcaches
  have hdate : s2.m_downloadDateTime = s.m_downloadDateTime :=
    congrArg (fun t => t.2.1) hcaches
  refine ⟨?_, hdate, ?_⟩
  · unfold DownloadReadTable
    rw [hstale]
    simp only [Bool.false_eq_true, if_false, hreceive]
  · intro later hlater _
    unfold downloadIsRecent at hstale ⊢
    simp only [hdate]
    cases hd : s.m_downloadDateTime with
    | none => rfl
    | some t =>
      rw [hd] at hstale
      simp only [decide_eq_false_iff_not, not_lt] at hstale ⊢
      omega

/-! ## Claims C21, C25, C27, C29 and C30 -/

/-- `GetData` on a session whose model is at least the 530 and whose connection cannot be
established raises `No Data connection`, in the state `CheckConnection` leaves. -/
theorem GetData_no_connection (lib : Lsv2Library) (s s1 : HeidenhainLsv2) (entryName : String)
    (hmodel : ¬ s.m_model < Model.HEID_530) (hcheck : CheckConnection lib s = (.ok false, s1)) :
    GetData lib s entryName = (.error "No Data connection", s1) ∧
    GetParameter lib s entryName = (.error "No Data connection", s1) := by
  constructor
  · unfold GetData CheckDataConnection
    rw [if_neg hmodel, hcheck]
  · unfold GetParameter CheckDataConnection
    rw [if_neg hmodel, hcheck]

/-- `GetData` and `GetParameter` on a session whose model is below the 530 raise
`Model not supported`, whatever the connection is, and leave the object as it is. -/
theorem GetData_model_first (lib : Lsv2Library) (s : HeidenhainLsv2) (entryName : String)
    (hmodel : s.m_model < Model.HEID_530) :
    GetData lib s entryName = (.error "Model not supported for GetData", s) ∧
    GetParameter lib s entryName = (.error "Model not supported for GetParameter", s) := by
  constructor
  · unfold GetData
    rw [if_pos hmodel]
  · unfold GetParameter
    rw [if_pos hmodel]

/-- C21, evaluated on a configured object that never connected, when `LSV2Open` fails:
`CheckConnection` returns false, and `GetData`, the typed readers and `GetParameter` raise
`Model not supported`, not `No Data connection`, and make no call; the same object with the
model 530 of a former connection gets `No Data connection` after the attempt to connect. -/
theorem GetData_model_before_connection :
    (CheckConnection unreachableLibrary idleSession).1 = .ok false ∧
    GetData unreachableLibrary idleSession "\\PLC\\memory\\D\\388" =
      (.error "Model not supported for GetData", idleSession) ∧
    (GetIntData unreachableLibrary idleSession "\\PLC\\memory\\D\\388").1 =
      .error "Model not supported for GetData" ∧
    (GetDoubleData unreachableLibrary idleSession "\\PLC\\memory\\D\\388").1 =
      .error "Model not supported for GetData" ∧
    (GetBoolData unreachableLibrary idleSession "\\PLC\\memory\\D\\388").1 =
      .error "Model not supported for GetData" ∧
    GetParameter unreachableLibrary idleSession "CfgAxis" =
      (.error "Model not supported for GetParameter", idleSession) ∧
    (GetData unreachableLibrary { idleSession with m_model := Model.HEID_530 }
      "\\PLC\\memory\\D\\388").1 = .error "No Data connection" ∧
    (GetData unreachableLibrary { idleSession with m_model := Model.HEID_530 }
      "\\PLC\\memory\\D\\388").2.calls = [VendorCall.LSV2Open "192.168.0.10"] := by
  decide

/-- With exactly three fields the one-string form of `GetStringValueFromFileName` raises the
exception of the indexer, and makes no call. -/
theorem GetStringValueFromFileNameParameters_three_fields (lib : Lsv2Library)
    (s : HeidenhainLsv2) (parameters : String) (h : (splitParameters parameters).length = 3) :
    GetStringValueFromFileNameParameters lib s (some parameters) =
      (.error "IndexOutOfRangeException", s) := by
  unfold GetStringValueFromFileNameParameters
  simp only []
  have hne : parameters ≠ "" := by
    intro he
    rw [he] at h
    revert h
    decide
  rw [if_neg hne, if_neg (by omega), if_pos (by omega)]
  have ha : arrayGet (splitParameters parameters) 3 = .error "IndexOutOfRangeException" := by
    unfold arrayGet
    rw [if_neg]
    rw [h]
    decide
  rw [ha]

/-- C25, evaluated at the documented example `TNC:\LEMOINE;MODE;-` on a session logged in to
FILE: the three fields are split, and the call raises the exception of the indexer instead of
taking the default skip time; no call is made.  With a fourth field the folder listed is the
second field. -/
theorem GetStringValueFromFileName_three_fields_raise :
    splitParameters "TNC:\\LEMOINE;MODE;-" = ["TNC:\\LEMOINE", "MODE", "-"] ∧
    GetStringValueFromFileNameParameters directoryLibrary (fileSession 0)
      (some "TNC:\\LEMOINE;MODE;-") = (.error "IndexOutOfRangeException", fileSession 0) ∧
    (GetStringValueFromFileNameParameters directoryLibrary (fileSession 100001000)
      (some "TNC:\\LEMOINE;TNC:\\STAMP;5;10")).1 = .ok "100.5" ∧
    VendorCall.LSV2ChangeDir 7 "TNC:\\STAMP" ∈
      (GetStringValueFromFileNameParameters directoryLibrary (fileSession 100001000)
        (some "TNC:\\LEMOINE;TNC:\\STAMP;5;10")).2.calls ∧
    VendorCall.LSV2ChangeDir 7 "TNC:\\LEMOINE" ∉
      (GetStringValueFromFileNameParameters directoryLibrary (fileSession 100001000)
        (some "TNC:\\LEMOINE;TNC:\\STAMP;5;10")).2.calls := by
  decide

/-- Every `Slo_t` that `ParseParameter` writes has `addr2` 0. -/
theorem Selca_ParseParameter_addr2 (lib : SeLGeCLibrary) (parameter : String) (slo : Slo_t)
    (h : Selca.ParseParameter lib parameter = .ok slo) : slo.addr2 = 0 := by
  unfold Selca.ParseParameter at h
  split at h
  · simp only [] at h
    split at h
    · exact absurd h (by simp)
    · split at h
      · exact absurd h (by simp)
      · split at h
        · exact absurd h (by simp)
        · simp only [Except.ok.injEq] at h
          rw [← h]
  · exact absurd h (by simp)

/-- C27, evaluated at `DISPL:100:WORD` and `GENERAL:100:WORD`: the address and the nature are
those of the text, and `addr2` is 0, not 1 or 2. -/
theorem Selca_ParseParameter_addr2_is_zero :
    Selca.ParseParameter (sampleSeLGeC (fun _ => {})) "DISPL:100:WORD" =
      .ok { flag := 7, nature := 2, device := 0, addr1 := 100, addr2 := 0, addr3 := 0, mask := 1,
            dfo := -1, name := "" } ∧
    (Selca.ParseParameter (sampleSeLGeC (fun _ => {})) "GENERAL:100:WORD").map
      (fun slo => slo.addr2) = .ok 0 ∧
    (Selca.ParseParameter (sampleSeLGeC (fun _ => {})) "PLC:100:WORD").map
      (fun slo => slo.addr2) = .ok 0 := by
  decide

/-- C30, evaluated on two sessions that differ in `m_model` alone and connect to a control
whose model `TNC320` and version `771851 04` hold none of the texts looked for: both
handshakes succeed and store the same texts, the session that never connected keeps
`HEID_UNKNOWN`, and the session that was connected to an iTNC 530 before keeps `HEID_530`. -/
theorem CheckConnection_model_keeps_previous :
    (CheckConnection healthyLibrary idleSession).2.m_model = Model.HEID_530 ∧
    (Disconnect healthyLibrary (CheckConnection healthyLibrary idleSession).2).m_model =
      Model.HEID_530 ∧
    (Disconnect healthyLibrary (CheckConnection healthyLibrary idleSession).2).m_connected =
      false ∧
    (CheckConnection tnc320Library idleSession).1 = .ok true ∧
    (CheckConnection tnc320Library
      (Disconnect healthyLibrary (CheckConnection healthyLibrary idleSession).2)).1 = .ok true ∧
    (CheckConnection tnc320Library idleSession).2.modelString = "TNC320" ∧
    (CheckConnection tnc320Library
      (Disconnect healthyLibrary (CheckConnection healthyLibrary idleSession).2)).2.modelString =
        "TNC320" ∧
    (CheckConnection tnc320Library idleSession).2.version = "771851 04" ∧
    (CheckConnection tnc320Library
      (Disconnect healthyLibrary (CheckConnection healthyLibrary idleSession).2)).2.version =
        "771851 04" ∧
    (CheckConnection tnc320Library idleSession).2.m_model = Model.HEID_UNKNOWN ∧
    (CheckConnection tnc320Library
      (Disconnect healthyLibrary (CheckConnection healthyLibrary idleSession).2)).2.m_model =
        Model.HEID_530 := by
  decide

/-- Within the skip time after `m_downloadDateTime`, `DownloadReadTable` returns true and
leaves the object as it is, whatever the table holds. -/
theorem DownloadReadTable_fresh (lib : Lsv2Library) (s : HeidenhainLsv2) (tableName : String)
    (skipTime downloadDateTime : Int) (hdate : s.m_downloadDateTime = some downloadDateTime)
    (hfresh : s.now - downloadDateTime < skipTime * 10000000) :
    DownloadReadTable lib s tableName skipTime = (.ok true, s) := by
  unfold DownloadReadTable
  have hf : downloadIsRecent s skipTime = true := by
    unfold downloadIsRecent
    rw [hdate]
    exact decide_eq_true hfresh
  rw [if_pos hf]

/-- Once `ReceiveFile` has returned true, `DownloadReadTable` leaves the time of the call in
`m_downloadDateTime`, whether the file read gives the values or not. -/
theorem DownloadReadTable_date (lib : Lsv2Library) (s s2 : HeidenhainLsv2) (tableName : String)
    (skipTime : Int)
    (hstale : ∀ downloadDateTime, s.m_downloadDateTime = some downloadDateTime →
      skipTime * 10000000 ≤ s.now - downloadDateTime)
    (hreceive : ReceiveFile lib { s with m_downloadTableValues := [] } tableName
      (localTableFile { s with m_downloadTableValues := [] } tableName) false = (.ok true, s2)) :
    (DownloadReadTable lib s tableName skipTime).2.m_downloadDateTime = some s2.now := by
  unfold DownloadReadTable
  have hf : ¬ downloadIsRecent s skipTime = true := by
    unfold downloadIsRecent
    cases hd : s.m_downloadDateTime with
    | none => simp
    | some t =>
      have := hstale t hd
      simp only [decide_eq_true_eq, not_lt]
      exact this
  rw [if_neg hf]
  simp only [hreceive]
  split <;> rfl

/-- C29, evaluated on a session logged in to FILE that never downloaded a table, at the time
100.  When the file received has no line that starts with `NR`, the first call returns false
and leaves the time 100 in `m_downloadDateTime` with an empty table; the call made one second
later with the skip time 15 returns true without any call to the control, and
`GetValueFromDownloadedTable` finds no value.  When the second value is not a number, the first
call raises, and the call made one second later returns true on the table that holds the first
column alone.  When the line of the values is the last line of the file the first call returns
false and the next one true in the same way. -/
theorem DownloadReadTable_failure_marks_fresh :
    (DownloadReadTable (fileLibrary ["BEGIN OPID.TAB", "[END]"]) (fileSession 100)
      "TNC:\\LEMOINE\\OPID.TAB" 15).1 = .ok false ∧
    (DownloadReadTable (fileLibrary ["BEGIN OPID.TAB", "[END]"]) (fileSession 100)
      "TNC:\\LEMOINE\\OPID.TAB" 15).2.m_downloadDateTime = some 100 ∧
    (DownloadReadTable (fileLibrary ["BEGIN OPID.TAB", "[END]"]) (fileSession 100)
      "TNC:\\LEMOINE\\OPID.TAB" 15).2.m_downloadTableValues = [] ∧
    DownloadReadTable (fileLibrary ["BEGIN OPID.TAB", "[END]"])
      { (DownloadReadTable (fileLibrary ["BEGIN OPID.TAB", "[END]"]) (fileSession 100)
          "TNC:\\LEMOINE\\OPID.TAB" 15).2 with now := 10000100 }
      "TNC:\\LEMOINE\\OPID.TAB" 15 =
      (.ok true,
        { (DownloadReadTable (fileLibrary ["BEGIN OPID.TAB", "[END]"]) (fileSession 100)
            "TNC:\\LEMOINE\\OPID.TAB" 15).2 with now := 10000100 }) ∧
    (GetValueFromDownloadedTable (fileLibrary ["BEGIN OPID.TAB", "[END]"])
      { (DownloadReadTable (fileLibrary ["BEGIN OPID.TAB", "[END]"]) (fileSession 100)
          "TNC:\\LEMOINE\\OPID.TAB" 15).2 with now := 10000100 }
      "TNC:\\LEMOINE\\OPID.TAB" "OPID" 15).1 = .error "Value is undefined" ∧
    (DownloadReadTable (fileLibrary ["NR OPID X", "12 abc", "[END]"]) (fileSession 100)
      "TNC:\\LEMOINE\\OPID.TAB" 15).1 = .error "FormatException" ∧
    (DownloadReadTable (fileLibrary ["NR OPID X", "12 abc", "[END]"])
      { (DownloadReadTable (fileLibrary ["NR OPID X", "12 abc", "[END]"]) (fileSession 100)
          "TNC:\\LEMOINE\\OPID.TAB" 15).2 with now := 10000100 }
      "TNC:\\LEMOINE\\OPID.TAB" 15).1 = .ok true ∧
    (DownloadReadTable (fileLibrary ["NR OPID X", "12 abc", "[END]"])
      { (DownloadReadTable (fileLibrary ["NR OPID X", "12 abc", "[END]"]) (fileSession 100)
          "TNC:\\LEMOINE\\OPID.TAB" 15).2 with now := 10000100 }
      "TNC:\\LEMOINE\\OPID.TAB" 15).2.m_downloadTableValues = [("NR", 12)] ∧
    (DownloadReadTable (fileLibrary ["NR X", "0 12"]) (fileSession 100)
      "TNC:\\LEMOINE\\OPID.TAB" 15).1 = .ok false ∧
    (DownloadReadTable (fileLibrary ["NR X", "0 12"])
      { (DownloadReadTable (fileLibrary ["NR X", "0 12"]) (fileSession 100)
          "TNC:\\LEMOINE\\OPID.TAB" 15).2 with now := 10000100 }
      "TNC:\\LEMOINE\\OPID.TAB" 15).1 = .ok true := by
  decide

/-! ## Lemmas on the table lines -/

/-- The distance of `Math::Round (x)` to `x` is at most one half. -/
theorem Math_Round_near (x : ℚ) : |((Math_Round x : Int) : ℚ) - x| ≤ 1 / 2 := by
  have hd : (0 : Int) < x.den := by exact_mod_cast x.den_pos
  have hdq : (0 : ℚ) < (x.den : ℚ) := by exact_mod_cast x.den_pos
  have hx : x = (x.num : ℚ) / (x.den : ℚ) := (Rat.num_div_den x).symm
  have hf : Int.fdiv x.num x.den = x.num / (x.den : Int) :=
    Int.fdiv_eq_ediv _ (le_of_lt hd)
  have hr0 : 0 ≤ x.num - x.num / (x.den : Int) * x.den := by
    have := Int.emod_nonneg x.num (ne_of_gt hd)
    have e := Int.emod_def x.num x.den
    rw [mul_comm] at e
    linarith
  have hr1 : x.num - x.num / (x.den : Int) * x.den < x.den := by
    have := Int.emod_lt_of_pos x.num hd
    have e := Int.emod_def x.num x.den
    rw [mul_comm] at e
    linarith
  have key : ∀ m : Int, |2 * (m * x.den - x.num)| ≤ x.den → |((m : Int) : ℚ) - x| ≤ 1 / 2 := by
    intro m hm
    have hm2 : |2 * ((m : ℚ) * x.den - x.num)| ≤ (x.den : ℚ) := by exact_mod_cast hm
    have e : (m : ℚ) - x = ((m : ℚ) * x.den - x.num) / x.den := by
      conv_lhs => rw [hx]
      field_simp
    rw [e, abs_div, abs_of_pos hdq, div_le_iff₀ hdq]
    have : |2 * ((m : ℚ) * x.den - x.num)| = 2 * |(m : ℚ) * x.den - x.num| := by
      rw [abs_mul]
      norm_num
    rw [this] at hm2
    linarith
  unfold Math_Round
  simp only [hf]
  split
  · rename_i h1
    apply key
    rw [abs_le]
    constructor <;> linarith
  · split
    · rename_i h1 h2
      apply key
      rw [abs_le]
      constructor <;> linarith
    · split
      · rename_i h1 h2 h3
        apply key
        rw [abs_le]
        constructor <;> linarith
      · rename_i h1 h2 h3
        apply key
        rw [abs_le]
        constructor <;> linarith

theorem notNullScan_true_cons (host : HostLibrary) (first : String) (values : List String) :
    notNullScan host true (first :: values) = notNullScan host false values := rfl

theorem notNullScan_false_cons (host : HostLibrary) (v : String) (values : List String) :
    notNullScan host false (v :: values) =
      match host.Double_TryParse v with
      | some doubleValue =>
        if doubleValue.ne (.finite 0) = true then doubleValue else notNullScan host false values
      | none => notNullScan host false values := rfl

/-- A value of type `double` does not differ from 0 exactly when it is 0. -/
theorem Double_ne_zero_eq_false (value : Double) :
    value.ne (.finite 0) = false ↔ value = .finite 0 := by
  cases value with
  | finite x => simp [Double.ne]
  | infinity negative => simp [Double.ne]
  | nan => simp [Double.ne]

/-- The loop after the first token: the first of the numbers of the tokens that differs from 0. -/
theorem notNullScan_false (host : HostLibrary) (values : List String) :
    notNullScan host false values =
      ((values.filterMap host.Double_TryParse).find?
        (fun value => value.ne (.finite 0))).getD (.finite 0) := by
  induction values with
  | nil => rfl
  | cons v values ih =>
    rw [notNullScan_false_cons]
    cases hv : host.Double_TryParse v with
    | none =>
      simp only [List.filterMap_cons, hv]
      exact ih
    | some value =>
      simp only [List.filterMap_cons, hv, List.find?_cons]
      cases hne : value.ne (.finite 0) with
      | true => simp
      | false =>
        simp only [Bool.false_eq_true, if_false]
        exact ih

/-- The loop of `GetTableLineNotNullValue` computes the scan of the specification. -/
theorem notNullScan_eq_firstNotNullAfterFirst (host : HostLibrary) (tokens : List String) :
    notNullScan host true tokens = firstNotNullAfterFirst host tokens := by
  unfold firstNotNullAfterFirst
  cases tokens with
  | nil => rfl
  | cons first rest =>
    rw [notNullScan_true_cons, notNullScan_false]
    rfl

/-- Tokens that are no number or 0 are passed over. -/
theorem notNullScan_skip (host : HostLibrary) (skipped rest : List String)
    (h : ∀ t ∈ skipped,
      host.Double_TryParse t = none ∨ host.Double_TryParse t = some (.finite 0)) :
    notNullScan host false (skipped ++ rest) = notNullScan host false rest := by
  induction skipped with
  | nil => rfl
  | cons t skipped ih =>
    rw [List.cons_append, notNullScan_false_cons]
    rcases h t (List.mem_cons_self _ _) with ht | ht
    · rw [ht]
      exact ih (fun u hu => h u (List.mem_cons_of_mem _ hu))
    · rw [ht]
      simp only [Double.ne, ne_eq, not_true_eq_false, decide_False, Bool.false_eq_true, if_false]
      exact ih (fun u hu => h u (List.mem_cons_of_mem _ hu))

/-- The conversion `(Int32)` of an integer is this integer. -/
theorem doubleToInt32_intCast (n : Int) : doubleToInt32 ((n : Int) : ℚ) = n := by
  unfold doubleToInt32
  simp

/-- The conversion `(Int32)` gives a 32-bit integer, whatever the host leaves unspecified. -/
theorem Double_toInt32_range (host : HostLibrary) (d : Double) :
    -(2 ^ 31) ≤ Double.toInt32 host d ∧ Double.toInt32 host d < 2 ^ 31 := by
  have hu : -(2 ^ 31) ≤ (host.conv_i4_unspecified d + 2 ^ 31) % 2 ^ 32 - 2 ^ 31 ∧
      (host.conv_i4_unspecified d + 2 ^ 31) % 2 ^ 32 - 2 ^ 31 < 2 ^ 31 := by
    have h1 := Int.emod_nonneg (host.conv_i4_unspecified d + 2 ^ 31)
      (show ((2 : Int) ^ 32) ≠ 0 by norm_num)
    have h2 := Int.emod_lt_of_pos (host.conv_i4_unspecified d + 2 ^ 31)
      (show (0 : Int) < 2 ^ 32 by norm_num)
    constructor <;> omega
  unfold Double.toInt32
  cases d with
  | finite x =>
    simp only []
    split
    · assumption
    · exact hu
  | infinity negative => exact hu
  | nan => exact hu

/-- The conversion `(Int32)` of a rounded finite `double` in the range of `Int32` is the
rounded value. -/
theorem Double_toInt32_Round (host : HostLibrary) (product : ℚ)
    (hlow : -(2 ^ 31) ≤ Math_Round product) (hhigh : Math_Round product < 2 ^ 31) :
    Double.toInt32 host (Double.Round (.finite product)) = Math_Round product := by
  unfold Double.Round Double.toInt32
  simp only [doubleToInt32_intCast]
  rw [if_pos ⟨hlow, hhigh⟩]

/-- The product of a finite `double` and an `int` is the exact product rounded to a `double`. -/
theorem Double_mul_ofInt32 (rawResult : ℚ) (multiplier : Int) :
    Double.mul (.finite rawResult) (Double.ofInt32 multiplier) =
      Double.ofRat (rawResult * multiplier) := rfl

/-! ## Claims C22 and C23 -/

/-- C22: when `GetTableLine` returns the line `line`, `GetTableLineNotNullValue` returns the
scan of the tokens of the line: the first of the tokens after the first one that
`Double::TryParse` reads as a number different from 0, and 0 when there is none.  So the value
is 0 when every token after the first is no number or 0, whatever the first token is, and it is
`value` when a token after the first is read as the number `value`, different from 0, and every
token between the first and this one is no number or 0. -/
theorem GetTableLineNotNullValue_first_not_null (host : HostLibrary) (lib : Lsv2Library)
    (s s1 : HeidenhainLsv2) (tableName condition line : String)
    (hline : GetTableLine lib s tableName condition = (.ok line, s1)) :
    GetTableLineNotNullValue host lib s tableName condition =
      (.ok (firstNotNullAfterFirst host (splitWhiteSpace line)), s1) ∧
    (∀ first rest, splitWhiteSpace line = first :: rest →
      (∀ t ∈ rest,
        host.Double_TryParse t = none ∨ host.Double_TryParse t = some (.finite 0)) →
      GetTableLineNotNullValue host lib s tableName condition = (.ok (.finite 0), s1)) ∧
    (∀ first skipped v rest value, splitWhiteSpace line = first :: (skipped ++ v :: rest) →
      (∀ t ∈ skipped,
        host.Double_TryParse t = none ∨ host.Double_TryParse t = some (.finite 0)) →
      host.Double_TryParse v = some value → value.ne (.finite 0) = true →
      GetTableLineNotNullValue host lib s tableName condition = (.ok value, s1)) := by
  have h0 : GetTableLineNotNullValue host lib s tableName condition =
      (.ok (notNullScan host true (splitWhiteSpace line)), s1) := by
    unfold GetTableLineNotNullValue
    rw [hline]
  refine ⟨?_, ?_, ?_⟩
  · rw [h0, notNullScan_eq_firstNotNullAfterFirst]
  · intro first rest hsplit hrest
    rw [h0, hsplit, notNullScan_true_cons]
    have := notNullScan_skip host rest [] hrest
    rw [List.append_nil] at this
    rw [this]
    rfl
  · intro first skipped v rest value hsplit hskipped hv hne
    rw [h0, hsplit, notNullScan_true_cons, notNullScan_skip host skipped (v :: rest) hskipped,
      notNullScan_false_cons, hv]
    simp only [hne, if_true]

/-- Witness of C22, on a host that rounds a numeral to the nearest `double`: the line
`0001 0.0 0.0 7.25 0.0` has the tokens of the scenario and gives 7.25; a line whose tokens
after the first are all zero gives 0, and so does a line whose first token is the only number
different from 0; the numeral `1e-400`, which is read as the `double` 0, is passed over. -/
theorem GetTableLineNotNullValue_first_not_null_witness :
    splitWhiteSpace "0001 0.0 0.0 7.25 0.0" = ["0001", "0.0", "0.0", "7.25", "0.0"] ∧
    GetTableLineNotNullValue ieeeHost (tableLibrary "0001 0.0 0.0 7.25 0.0") plcSession
        "TNC:\\TOOL.T" "WHERE NR=1" =
      (.ok (.finite (mkRat 725 100)),
        (GetTableLine (tableLibrary "0001 0.0 0.0 7.25 0.0") plcSession "TNC:\\TOOL.T"
          "WHERE NR=1").2) ∧
    GetTableLineNotNullValue ieeeHost (tableLibrary "0001 0.0 0 0.00") plcSession
        "TNC:\\TOOL.T" "WHERE NR=1" =
      (.ok (.finite 0),
        (GetTableLine (tableLibrary "0001 0.0 0 0.00") plcSession "TNC:\\TOOL.T"
          "WHERE NR=1").2) ∧
    GetTableLineNotNullValue ieeeHost (tableLibrary "5 0.0 abc") plcSession
        "TNC:\\TOOL.T" "WHERE NR=1" =
      (.ok (.finite 0),
        (GetTableLine (tableLibrary "5 0.0 abc") plcSession "TNC:\\TOOL.T" "WHERE NR=1").2) ∧
    GetTableLineNotNullValue ieeeHost (tableLibrary "0001 1e-400 7.25") plcSession
        "TNC:\\TOOL.T" "WHERE NR=1" =
      (.ok (.finite (mkRat 725 100)),
        (GetTableLine (tableLibrary "0001 1e-400 7.25") plcSession "TNC:\\TOOL.T"
          "WHERE NR=1").2) :=
  ⟨by decide,
   (GetTableLineNotNullValue_first_not_null ieeeHost (tableLibrary "0001 0.0 0.0 7.25 0.0")
      plcSession _ "TNC:\\TOOL.T" "WHERE NR=1" "0001 0.0 0.0 7.25 0.0" rfl).2.2
      "0001" ["0.0", "0.0"] "7.25" ["0.0"] (.finite (mkRat 725 100)) (by decide) (by decide)
      (by decide) (by decide),
   (GetTableLineNotNullValue_first_not_null ieeeHost (tableLibrary "0001 0.0 0 0.00")
      plcSession _ "TNC:\\TOOL.T" "WHERE NR=1" "0001 0.0 0 0.00" rfl).2.1
      "0001" ["0.0", "0", "0.00"] (by decide) (by decide),
   (GetTableLineNotNullValue_first_not_null ieeeHost (tableLibrary "5 0.0 abc")
      plcSession _ "TNC:\\TOOL.T" "WHERE NR=1" "5 0.0 abc" rfl).2.1
      "5" ["0.0", "abc"] (by decide) (by decide),
   (GetTableLineNotNullValue_first_not_null ieeeHost (tableLibrary "0001 1e-400 7.25")
      plcSession _ "TNC:\\TOOL.T" "WHERE NR=1" "0001 1e-400 7.25" rfl).2.2
      "0001" ["1e-400"] "7.25" [] (.finite (mkRat 725 100)) (by decide) (by decide!)
      (by decide) (by decide)⟩

/-- C23, the claim fails on a host that rounds a numeral to the nearest `double`.  The token
`1.015` writes the decimal value 1.015, which is no `double`: `GetTableLineDoubleValue` returns
the `double` next to it, and with the multiplier 100 `GetTableLineValueWithMultiplier` returns
101, where 1.015 times 100, which is 101.5, rounds to 102.  The token `3000000000` with the
multiplier 1 does not give 3000000000, which is no `Int32`. -/
theorem GetTableLineValueWithMultiplier_not_the_decimal_product :
    parseFloat "1.015" = some (mkRat 1015 1000) ∧
    GetTableLineDoubleValue ieeeHost (tableLibrary "0001 1.015 3000000000")
        { plcSession with m_multiplier := 100 } "TNC:\\TOOL.T" "WHERE NR=1" 1 =
      (.ok (.finite (mkRat 4571153621781053 4503599627370496)),
        (GetTableLine (tableLibrary "0001 1.015 3000000000")
          { plcSession with m_multiplier := 100 } "TNC:\\TOOL.T" "WHERE NR=1").2) ∧
    mkRat 4571153621781053 4503599627370496 ≠ mkRat 1015 1000 ∧
    (GetTableLineValueWithMultiplier ieeeHost (tableLibrary "0001 1.015 3000000000")
        { plcSession with m_multiplier := 100 } "TNC:\\TOOL.T" "WHERE NR=1" 1).1 = .ok 101 ∧
    Math_Round (mkRat 1015 1000 * 100) = 102 ∧
    parseFloat "3000000000" = some (mkRat 3000000000 1) ∧
    (GetTableLineValueWithMultiplier ieeeHost (tableLibrary "0001 1.015 3000000000")
        { plcSession with m_multiplier := 1 } "TNC:\\TOOL.T" "WHERE NR=1" 2).1 =
      .ok (-2147483648) := by
  decide!

/-- C23 as amended: when `GetTableLine` returns the line `line` and `column` is the index of
the token `token` of the line, counted from 0, `GetTableLineValue` returns `token` and
`GetTableLineDoubleValue` returns the `double` `Double::Parse` reads from `token`, or raises
its exception.  When `Double::Parse` reads the `double` `value`,
`GetTableLineValueWithMultiplier` returns the conversion to `Int32` of `Math::Round` of the
product of `value` and the multiplier in double precision, a 32-bit integer; when `value` is
the finite number `rawResult`, the product, which is the exact product rounded to a `double`,
is the finite number `product`, and `product` rounded to the nearest integer, the even one at a
tie, is in the range of `Int32`, the method returns this integer, at most one half away from
`product`.  When `column` is negative or not less than the number of tokens, the three methods
raise the exception of the indexer. -/
theorem GetTableLineValue_positional (host : HostLibrary) (lib : Lsv2Library)
    (s s1 : HeidenhainLsv2) (tableName condition line : String) (column : Int)
    (hline : GetTableLine lib s tableName condition = (.ok line, s1)) :
    (∀ token, 0 ≤ column → (splitWhiteSpace line)[column.toNat]? = some token →
      GetTableLineValue lib s tableName condition column = (.ok token, s1) ∧
      GetTableLineDoubleValue host lib s tableName condition column =
        (host.Double_Parse token, s1) ∧
      (∀ value, host.Double_Parse token = .ok value →
        GetTableLineValueWithMultiplier host lib s tableName condition column =
          (.ok (Double.toInt32 host
            (Double.Round (Double.mul value (Double.ofInt32 s.m_multiplier)))), s1) ∧
        -(2 ^ 31) ≤ Double.toInt32 host
          (Double.Round (Double.mul value (Double.ofInt32 s.m_multiplier))) ∧
        Double.toInt32 host
          (Double.Round (Double.mul value (Double.ofInt32 s.m_multiplier))) < 2 ^ 31 ∧
        (∀ rawResult product : ℚ, value = .finite rawResult →
          Double.ofRat (rawResult * s.m_multiplier) = .finite product →
          -(2 ^ 31) ≤ Math_Round product → Math_Round product < 2 ^ 31 →
          GetTableLineValueWithMultiplier host lib s tableName condition column =
            (.ok (Math_Round product), s1) ∧
          |((Math_Round product : Int) : ℚ) - product| ≤ 1 / 2))) ∧
    ((column < 0 ∨ ((splitWhiteSpace line).length : Int) ≤ column) →
      GetTableLineValue lib s tableName condition column =
        (.error "IndexOutOfRangeException", s1) ∧
      GetTableLineDoubleValue host lib s tableName condition column =
        (.error "IndexOutOfRangeException", s1) ∧
      GetTableLineValueWithMultiplier host lib s tableName condition column =
        (.error "IndexOutOfRangeException", s1)) := by
  have hm : s1.m_multiplier = s.m_multiplier := by
    have h := settingsOf_GetTableLine lib s tableName condition
    rw [hline] at h
    exact congrArg (fun t => t.1) h
  constructor
  · intro token hcol htoken
    have hlt : column.toNat < (splitWhiteSpace line).length := by
      rcases List.getElem?_eq_some_iff.mp htoken with ⟨hlt, -⟩
      exact hlt
    have hget : arrayGet (splitWhiteSpace line) column = .ok token := by
      unfold arrayGet
      have hc : 0 ≤ column ∧ column < ((splitWhiteSpace line).length : Int) := by
        constructor
        · exact hcol
        · omega
      rw [if_pos hc]
      have : (splitWhiteSpace line).getD column.toNat "" = token := by
        rw [List.getD_eq_getElem?_getD, htoken]
        rfl
      rw [this]
    have hv : GetTableLineValue lib s tableName condition column = (.ok token, s1) := by
      unfold GetTableLineValue
      rw [hline]
      simp only [hget]
    have hdv : GetTableLineDoubleValue host lib s tableName condition column =
        (host.Double_Parse token, s1) := by
      unfold GetTableLineDoubleValue
      rw [hv]
    refine ⟨hv, hdv, ?_⟩
    intro value hvalue
    have hwm : GetTableLineValueWithMultiplier host lib s tableName condition column =
        (.ok (Double.toInt32 host
          (Double.Round (Double.mul value (Double.ofInt32 s.m_multiplier)))), s1) := by
      unfold GetTableLineValueWithMultiplier
      rw [hdv, hvalue]
      simp only [hm]
    refine ⟨hwm, (Double_toInt32_range host _).1, (Double_toInt32_range host _).2, ?_⟩
    intro rawResult product hfinite hproduct hlow hhigh
    refine ⟨?_, Math_Round_near product⟩
    rw [hwm, hfinite, Double_mul_ofInt32, hproduct, Double_toInt32_Round host product hlow hhigh]
  · intro hout
    have hget : arrayGet (splitWhiteSpace line) column = .error "IndexOutOfRangeException" := by
      unfold arrayGet
      rw [if_neg]
      omega
    have hv : GetTableLineValue lib s tableName condition column =
        (.error "IndexOutOfRangeException", s1) := by
      unfold GetTableLineValue
      rw [hline]
      simp only [hget]
    have hdv : GetTableLineDoubleValue host lib s tableName condition column =
        (.error "IndexOutOfRangeException", s1) := by
      unfold GetTableLineDoubleValue
      rw [hv]
    refine ⟨hv, hdv, ?_⟩
    unfold GetTableLineValueWithMultiplier
    rw [hdv]

/-- Witness of C23 as amended, on a host that rounds a numeral to the nearest `double`: on the
line `0001 10.500 2.000 300.0` with the multiplier 100, the column 1 gives the token `10.500`,
the number 10.5 and the integer 1050; the columns 4 and -1 raise. -/
theorem GetTableLineValue_positional_witness :
    GetTableLineValue (tableLibrary "0001 10.500 2.000 300.0")
        { plcSession with m_multiplier := 100 } "TNC:\\TOOL.T" "WHERE NR=1" 1 =
      (.ok "10.500",
        (GetTableLine (tableLibrary "0001 10.500 2.000 300.0")
          { plcSession with m_multiplier := 100 } "TNC:\\TOOL.T" "WHERE NR=1").2) ∧
    GetTableLineDoubleValue ieeeHost (tableLibrary "0001 10.500 2.000 300.0")
        { plcSession with m_multiplier := 100 } "TNC:\\TOOL.T" "WHERE NR=1" 1 =
      (.ok (.finite (mkRat 105 10)),
        (GetTableLine (tableLibrary "0001 10.500 2.000 300.0")
          { plcSession with m_multiplier := 100 } "TNC:\\TOOL.T" "WHERE NR=1").2) ∧
    GetTableLineValueWithMultiplier ieeeHost (tableLibrary "0001 10.500 2.000 300.0")
        { plcSession with m_multiplier := 100 } "TNC:\\TOOL.T" "WHERE NR=1" 1 =
      (.ok 1050,
        (GetTableLine (tableLibrary "0001 10.500 2.000 300.0")
          { plcSession with m_multiplier := 100 } "TNC:\\TOOL.T" "WHERE NR=1").2) ∧
    GetTableLineValue (tableLibrary "0001 10.500 2.000 300.0")
        { plcSession with m_multiplier := 100 } "TNC:\\TOOL.T" "WHERE NR=1" 4 =
      (.error "IndexOutOfRangeException",
        (GetTableLine (tableLibrary "0001 10.500 2.000 300.0")
          { plcSession with m_multiplier := 100 } "TNC:\\TOOL.T" "WHERE NR=1").2) ∧
    GetTableLineValueWithMultiplier ieeeHost (tableLibrary "0001 10.500 2.000 300.0")
        { plcSession with m_multiplier := 100 } "TNC:\\TOOL.T" "WHERE NR=1" (-1) =
      (.error "IndexOutOfRangeException",
        (GetTableLine (tableLibrary "0001 10.500 2.000 300.0")
          { plcSession with m_multiplier := 100 } "TNC:\\TOOL.T" "WHERE NR=1").2) := by
  have h1 := (GetTableLineValue_positional ieeeHost (tableLibrary "0001 10.500 2.000 300.0")
    { plcSession with m_multiplier := 100 } _ "TNC:\\TOOL.T" "WHERE NR=1"
    "0001 10.500 2.000 300.0" 1 rfl).1 "10.500" (by decide) (by decide)
  have hparse : ieeeHost.Double_Parse "10.500" = .ok (.finite (mkRat 105 10)) := by decide
  have h2 := (h1.2.2 (.finite (mkRat 105 10)) hparse).2.2.2 (mkRat 105 10) 1050 rfl
    (by decide!) (by decide) (by decide)
  have h4 := (GetTableLineValue_positional ieeeHost (tableLibrary "0001 10.500 2.000 300.0")
    { plcSession with m_multiplier := 100 } _ "TNC:\\TOOL.T" "WHERE NR=1"
    "0001 10.500 2.000 300.0" 4 rfl).2 (Or.inr (by decide))
  have h5 := (GetTableLineValue_positional ieeeHost (tableLibrary "0001 10.500 2.000 300.0")
    { plcSession with m_multiplier := 100 } _ "TNC:\\TOOL.T" "WHERE NR=1"
    "0001 10.500 2.000 300.0" (-1) rfl).2 (Or.inl (by decide))
  have h3 := h1.2.1
  rw [hparse] at h3
  have h6 := h2.1
  have hround : Math_Round 1050 = 1050 := by decide
  rw [hround] at h6
  exact ⟨h1.1, h3, h6, h4.1, h5.2.2⟩

/-! ## Lemmas on the decode of the axes -/

/-- A character of a text is white space or a character of the trimmed text. -/
theorem mem_trimWhite_or_white (cs : List Char) (c : Char) (h : c ∈ cs) :
    isParseWhite c = true ∨ c ∈ trimWhite cs := by
  unfold trimWhite
  rw [← List.takeWhile_append_dropWhile isParseWhite cs] at h
  rcases List.mem_append.mp h with h1 | h1
  · exact Or.inl (List.mem_takeWhile_imp h1)
  · have h2 : c ∈ (cs.dropWhile isParseWhite).reverse := List.mem_reverse.mpr h1
    rw [← List.takeWhile_append_dropWhile isParseWhite (cs.dropWhile isParseWhite).reverse] at h2
    rcases List.mem_append.mp h2 with h3 | h3
    · exact Or.inl (List.mem_takeWhile_imp h3)
    · exact Or.inr (List.mem_reverse.mpr h3)

/-- A text that writes an integer holds no colon. -/
theorem colon_not_mem_of_parseInteger (text : String) (n : Int)
    (h : parseInteger text = some n) : ':' ∉ text.data := by
  intro hmem
  unfold parseInteger at h
  simp only [] at h
  split at h
  · rename_i hd
    rcases mem_trimWhite_or_white text.data ':' hmem with hw | ht
    · exact absurd hw (by decide)
    · have hall := hd.2
      generalize trimWhite text.data = trimmed at ht hall
      have hin : ':' ∈ (splitSign trimmed).2 := by
        unfold splitSign
        split
        · rename_i rest
          rcases List.mem_cons.mp ht with h1 | h1
          · exact absurd h1 (by decide)
          · exact h1
        · rename_i rest
          rcases List.mem_cons.mp ht with h1 | h1
          · exact absurd h1 (by decide)
          · exact h1
        · exact ht
      have := List.all_eq_true.mp hall ':' hin
      exact absurd this (by decide)
  · exact absurd h (by simp)

/-- The first part of a split: a text without the separator, followed by the separator. -/
theorem span_of_not_mem (separator : Char) (part rest : List Char) (h : separator ∉ part) :
    (part ++ separator :: rest).span (fun c => c != separator) = (part, separator :: rest) := by
  rw [List.span_eq_take_drop]
  induction part with
  | nil => simp
  | cons c part ih =>
    have hc : c ≠ separator := fun e => h (e ▸ List.mem_cons_self _ _)
    have hp : separator ∉ part := fun m => h (List.mem_cons_of_mem _ m)
    have ih2 := ih hp
    simp only [Prod.mk.injEq] at ih2
    simp only [List.cons_append, Prod.mk.injEq]
    rw [List.takeWhile_cons_of_pos (by simpa using hc),
      List.dropWhile_cons_of_pos (by simpa using hc)]
    exact ⟨by rw [ih2.1], ih2.2⟩

/-- A text made of three parts, the first two without a colon, splits into these parts. -/
theorem splitMax_of_parts (domain address type : List Char) (hd : ':' ∉ domain)
    (ha : ':' ∉ address) :
    splitMax ':' 3 (domain ++ ':' :: (address ++ ':' :: type)) = [domain, address, type] := by
  unfold splitMax
  rw [span_of_not_mem ':' domain _ hd]
  simp only []
  unfold splitMax
  rw [span_of_not_mem ':' address _ ha]
  simp only []
  unfold splitMax
  rfl

/-- The parts of a text split in three, put together, are the text. -/
theorem parts_of_splitMax (cs domain address type : List Char)
    (h : splitMax ':' 3 cs = [domain, address, type]) :
    cs = domain ++ ':' :: (address ++ ':' :: type) := by
  unfold splitMax at h
  rw [List.span_eq_take_drop] at h
  have e1 := List.takeWhile_append_dropWhile (fun c => c != ':') cs
  cases hd1 : cs.dropWhile (fun c => c != ':') with
  | nil =>
    rw [hd1] at h
    simp at h
  | cons c rest =>
    rw [hd1] at h e1
    simp only [List.cons.injEq] at h
    obtain ⟨hdom, h2⟩ := h
    have hc : c = ':' := by
      have := List.head_dropWhile_not (fun c => c != ':') cs (by rw [hd1]; simp)
      simp only [hd1, List.head_cons] at this
      simpa using this
    unfold splitMax at h2
    rw [List.span_eq_take_drop] at h2
    have e2 := List.takeWhile_append_dropWhile (fun c => c != ':') rest
    cases hd2 : rest.dropWhile (fun c => c != ':') with
    | nil =>
      rw [hd2] at h2
      simp at h2
    | cons c2 rest2 =>
      rw [hd2] at h2 e2
      simp only [List.cons.injEq] at h2
      obtain ⟨haddr, h3⟩ := h2
      have hc2 : c2 = ':' := by
        have := List.head_dropWhile_not (fun c => c != ':') rest (by rw [hd2]; simp)
        simp only [hd2, List.head_cons] at this
        simpa using this
      unfold splitMax at h3
      simp only [List.cons.injEq, and_true] at h3
      rw [← e1, ← e2, hdom, haddr, hc, hc2, h3]


/-- `ParseParameter` accepts exactly the texts whose three parts are a domain, an integer of 16
bits and a type. -/
theorem Selca_ParseParameter_isOk (lib : SeLGeCLibrary) (parameter : String) :
    (∃ slo, Selca.ParseParameter lib parameter = .ok slo) ↔
      ∃ domain address type : String, ∃ n : Int,
        (splitMax ':' 3 parameter.data).map String.mk = [domain, address, type] ∧
        (domain = "PLC" ∨ domain = "DISPL" ∨ domain = "GENERAL") ∧
        (type = "NONE" ∨ type = "BOOL" ∨ type = "WORD" ∨ type = "DWORD" ∨ type = "FLOAT" ∨
          type = "STRING") ∧
        Int16_Parse address = .ok n := by
  unfold Selca.ParseParameter
  constructor
  · rintro ⟨slo, h⟩
    split at h
    · rename_i domain address type hsplit
      refine ⟨domain, address, type, ?_⟩
      simp only [] at h
      cases hparse : Int16_Parse address with
      | error e =>
        rw [hparse] at h
        split at h <;> simp at h
      | ok n =>
        refine ⟨n, hsplit, ?_, ?_, rfl⟩
        · by_contra hdom
          simp only [not_or] at hdom
          rw [hparse] at h
          simp only [hdom.1, hdom.2.1, hdom.2.2, if_false] at h
          split at h <;> simp at h
        · by_contra htype
          simp only [not_or] at htype
          simp only [htype.1, htype.2.1, htype.2.2.1, htype.2.2.2.1, htype.2.2.2.2.1,
            htype.2.2.2.2.2, if_false] at h
          simp at h
    · simp at h
  · rintro ⟨domain, address, type, n, hsplit, hdom, htype, hparse⟩
    rw [hsplit]
    simp only [hparse]
    rcases htype with h | h | h | h | h | h <;> rcases hdom with g | g | g <;> subst h <;>
      subst g <;> simp

/-- The characters of a text made of three parts and two colons. -/
theorem data_of_parts (domain address type : String) :
    (domain ++ ":" ++ address ++ ":" ++ type).data =
      domain.data ++ ':' :: (address.data ++ ':' :: type.data) := by
  simp [String.data_append]

/-- A decimal digit is no white space and no sign. -/
theorem isDigit_not_white (c : Char) (h : c.isDigit = true) :
    isParseWhite c = false ∧ c ≠ '-' ∧ c ≠ '+' := by
  have h48 : 48 ≤ c.toNat := by
    unfold Char.isDigit at h
    simp only [Bool.and_eq_true, decide_eq_true_eq] at h
    have := h.1
    exact UInt32.le_def.mp this
  refine ⟨?_, ?_, ?_⟩
  · unfold isParseWhite
    simp only [decide_eq_false_iff_not, not_or, not_and, not_le]
    constructor
    · intro e
      rw [e] at h48
      exact absurd h48 (by decide)
    · intro _
      omega
  · intro e
    rw [e] at h48
    exact absurd h48 (by decide)
  · intro e
    rw [e] at h48
    exact absurd h48 (by decide)

/-- A text of decimal digits writes the number of its digits, when it is not empty. -/
theorem parseInteger_of_digits (text : String) (h : text.data.all Char.isDigit = true) :
    parseInteger text = if text.data = [] then none else some (digitsToNat text.data : Int) := by
  have hall := List.all_eq_true.mp h
  have hdrop : ∀ l : List Char, (∀ c ∈ l, c.isDigit = true) → l.dropWhile isParseWhite = l := by
    intro l hl
    cases l with
    | nil => rfl
    | cons c l =>
      rw [List.dropWhile_cons_of_neg]
      rw [(isDigit_not_white c (hl c (List.mem_cons_self _ _))).1]
      simp
  have htrim : trimWhite text.data = text.data := by
    unfold trimWhite
    rw [hdrop _ hall, hdrop _ (fun c hc => hall c (List.mem_reverse.mp hc)), List.reverse_reverse]
  have hsign : splitSign text.data = (false, text.data) := by
    cases hd : text.data with
    | nil => rfl
    | cons c l =>
      have hc := isDigit_not_white c (hall c (by rw [hd]; exact List.mem_cons_self _ _))
      unfold splitSign
      split
      · rename_i heq
        simp only [List.cons.injEq] at heq
        exact absurd heq.1 hc.2.1
      · rename_i heq
        simp only [List.cons.injEq] at heq
        exact absurd heq.1 hc.2.2
      · rfl
  unfold parseInteger
  simp only [htrim, hsign, h, and_true, ne_eq, Bool.false_eq_true, if_false, ite_not]

/-! ## Claim C26 -/

/-- C26, evaluated on the code: `PLC:-5:WORD` does not have the syntax
`(PLC|DISPL|GENERAL):[0-9]*:(NONE|BOOL|WORD|DWORD|FLOAT|STRING)` the comment of `CheckParameter`
documents, and `CheckParameter` returns true for it, so that `GetString` registers it during the
initialization; `PLC::WORD` and `PLC:40000:WORD` have the documented syntax and `CheckParameter`
returns false for them, so that `GetString` does not register `PLC::WORD`. -/
theorem Selca_CheckParameter_differs_from_pattern :
    matchesDocumentedPattern "PLC::WORD" = true ∧
    Selca.CheckParameter (sampleSeLGeC (fun _ => {})) "PLC::WORD" = false ∧
    matchesDocumentedPattern "PLC:40000:WORD" = true ∧
    Selca.CheckParameter (sampleSeLGeC (fun _ => {})) "PLC:40000:WORD" = false ∧
    matchesDocumentedPattern "PLC:-5:WORD" = false ∧
    Selca.CheckParameter (sampleSeLGeC (fun _ => {})) "PLC:-5:WORD" = true ∧
    (Selca.GetString (sampleSeLGeC (fun _ => {})) Selca.new "PLC:-5:WORD").2.m_parameters =
      ["PLC:-5:WORD"] ∧
    (Selca.GetString (sampleSeLGeC (fun _ => {})) Selca.new "PLC::WORD").2.m_parameters = [] := by
  decide

/-- What `CheckParameter` accepts: it returns true exactly for the texts
`domain:address:type` whose domain is `PLC`, `DISPL` or `GENERAL`, whose type is `NONE`, `BOOL`,
`WORD`, `DWORD`, `FLOAT` or `STRING`, and whose address is an integer that `Int16::Parse`
reads.  For a text of the documented syntax, whose address is made of decimal digits, this
means that the address is not empty and its value is below 32768.  During the initialization
`GetString` raises `Initialization` and adds the text to the list of the parameters exactly
when `CheckParameter` returns true for it. -/
theorem Selca_CheckParameter_accepts (lib : SeLGeCLibrary) (parameter : String) :
    (Selca.CheckParameter lib parameter = true ↔
      ∃ domain address type : String, ∃ n : Int,
        parameter = domain ++ ":" ++ address ++ ":" ++ type ∧
        (domain = "PLC" ∨ domain = "DISPL" ∨ domain = "GENERAL") ∧
        (type = "NONE" ∨ type = "BOOL" ∨ type = "WORD" ∨ type = "DWORD" ∨ type = "FLOAT" ∨
          type = "STRING") ∧
        Int16_Parse address = .ok n) ∧
    (∀ domain address type : String,
      parameter = domain ++ ":" ++ address ++ ":" ++ type →
      (domain = "PLC" ∨ domain = "DISPL" ∨ domain = "GENERAL") →
      (type = "NONE" ∨ type = "BOOL" ∨ type = "WORD" ∨ type = "DWORD" ∨ type = "FLOAT" ∨
        type = "STRING") →
      address.data.all Char.isDigit = true →
      (Selca.CheckParameter lib parameter = true ↔
        address ≠ "" ∧ digitsToNat address.data < 2 ^ 15)) ∧
    (∀ s : Selca, s.m_parametersInitialization = true →
      Selca.GetString lib s parameter =
        (.error "Initialization",
          if Selca.CheckParameter lib parameter = true then
            { s with m_parameters := s.m_parameters ++ [parameter] }
          else s)) := by
  have hcheck : Selca.CheckParameter lib parameter = true ↔
      ∃ slo, Selca.ParseParameter lib parameter = .ok slo := by
    unfold Selca.CheckParameter
    cases Selca.ParseParameter lib parameter with
    | ok slo => simp
    | error e => simp
  have hsplitOf : ∀ domain address type : String,
      parameter = domain ++ ":" ++ address ++ ":" ++ type →
      (domain = "PLC" ∨ domain = "DISPL" ∨ domain = "GENERAL") → ':' ∉ address.data →
      (splitMax ':' 3 parameter.data).map String.mk = [domain, address, type] := by
    intro domain address type hp hdom haddr
    have hd : ':' ∉ domain.data := by
      rcases hdom with h | h | h <;> subst h <;> decide
    rw [hp, data_of_parts, splitMax_of_parts _ _ _ hd haddr]
    rfl
  have hiff : Selca.CheckParameter lib parameter = true ↔
      ∃ domain address type : String, ∃ n : Int,
        parameter = domain ++ ":" ++ address ++ ":" ++ type ∧
        (domain = "PLC" ∨ domain = "DISPL" ∨ domain = "GENERAL") ∧
        (type = "NONE" ∨ type = "BOOL" ∨ type = "WORD" ∨ type = "DWORD" ∨ type = "FLOAT" ∨
          type = "STRING") ∧
        Int16_Parse address = .ok n := by
    rw [hcheck, Selca_ParseParameter_isOk]
    constructor
    · rintro ⟨domain, address, type, n, hsplit, hdom, htype, hparse⟩
      refine ⟨domain, address, type, n, ?_, hdom, htype, hparse⟩
      have h3 : splitMax ':' 3 parameter.data = [domain.data, address.data, type.data] := by
        have := congrArg (List.map String.data) hsplit
        simpa [List.map_map, Function.comp_def] using this
      have := parts_of_splitMax _ _ _ _ h3
      apply String.ext
      rw [data_of_parts]
      exact this
    · rintro ⟨domain, address, type, n, hp, hdom, htype, hparse⟩
      refine ⟨domain, address, type, n, hsplitOf domain address type hp hdom ?_, hdom, htype,
        hparse⟩
      unfold Int16_Parse at hparse
      cases hpi : parseInteger address with
      | none =>
        rw [hpi] at hparse
        simp at hparse
      | some m => exact colon_not_mem_of_parseInteger address m hpi
  refine ⟨hiff, ?_, ?_⟩
  · intro domain address type hp hdom htype hdigits
    have haddr : ':' ∉ address.data := by
      intro hmem
      have := List.all_eq_true.mp hdigits ':' hmem
      exact absurd this (by decide)
    have hsplit := hsplitOf domain address type hp hdom haddr
    have hparse : (∃ n, Int16_Parse address = .ok n) ↔
        address ≠ "" ∧ digitsToNat address.data < 2 ^ 15 := by
      unfold Int16_Parse
      rw [parseInteger_of_digits address hdigits]
      by_cases he : address.data = []
      · have he2 : address = "" := String.ext he
        simp [he, he2]
      · have he2 : address ≠ "" := fun e => he (by rw [e])
        simp only [he, if_false, he2, ne_eq, not_false_eq_true, true_and]
        constructor
        · rintro ⟨n, hn⟩
          split at hn
          · rename_i hr
            have := hr.2
            exact_mod_cast this
          · simp at hn
        · intro hlt
          refine ⟨(digitsToNat address.data : Int), ?_⟩
          rw [if_pos]
          constructor
          · have : (0 : Int) ≤ (digitsToNat address.data : Int) := Int.ofNat_nonneg _
            omega
          · exact_mod_cast hlt
    rw [hcheck, Selca_ParseParameter_isOk, ← hparse]
    constructor
    · rintro ⟨d2, a2, t2, n, hs2, -, -, hp2⟩
      rw [hsplit] at hs2
      simp only [List.cons.injEq, and_true] at hs2
      exact ⟨n, hs2.2.1 ▸ hp2⟩
    · rintro ⟨n, hn⟩
      exact ⟨domain, address, type, n, hsplit, hdom, htype, hn⟩
  · intro s hinit
    unfold Selca.GetString
    rw [if_pos hinit]

/-- The parameter `PLC:100:WORD` is accepted and registered by `GetString` on a new object;
`PLC::WORD` is refused. -/
theorem Selca_CheckParameter_accepts_witness :
    Selca.CheckParameter (sampleSeLGeC (fun _ => {})) "PLC:100:WORD" = true ∧
    Selca.CheckParameter (sampleSeLGeC (fun _ => {})) "PLC::WORD" = false ∧
    Selca.GetString (sampleSeLGeC (fun _ => {})) Selca.new "PLC:100:WORD" =
      (.error "Initialization", { Selca.new with m_parameters := ["PLC:100:WORD"] }) :=
  ⟨((Selca_CheckParameter_accepts (sampleSeLGeC (fun _ => {})) "PLC:100:WORD").2.1
      "PLC" "100" "WORD" (by decide) (Or.inl rfl) (Or.inr (Or.inr (Or.inl rfl)))
      (by decide)).mpr ⟨by decide, by decide⟩,
   by
    have h := ((Selca_CheckParameter_accepts (sampleSeLGeC (fun _ => {})) "PLC::WORD").2.1
      "PLC" "" "WORD" (by decide) (Or.inl rfl) (Or.inr (Or.inr (Or.inl rfl))) (by decide))
    cases hc : Selca.CheckParameter (sampleSeLGeC (fun _ => {})) "PLC::WORD" with
    | false => rfl
    | true => exact absurd (h.mp hc).1 (by decide),
   ((Selca_CheckParameter_accepts (sampleSeLGeC (fun _ => {})) "PLC:100:WORD").2.2
      Selca.new rfl).trans (by decide)⟩

/-! ## Claim C28 -/

/-- Every operation of a run keeps the invariant of the session. -/
theorem Selca_Invariant_run (lib : SeLGeCLibrary) (op : SelcaOperation) (s : Selca)
    (h : Selca.Invariant s) : Selca.Invariant (op.run lib s) := by
  cases op with
  | SetIPAddress value => exact Selca_Invariant_congr rfl rfl rfl rfl h
  | Elapse ticks => exact Selca_Invariant_congr rfl rfl rfl rfl h
  | Start fuel => exact Selca_Invariant_Start lib fuel s h
  | Finish => exact Selca_Invariant_Finish s h
  | GetString parameter => exact Selca_Invariant_GetString lib s parameter h
  | CheckConnection => exact (Selca_CheckConnection_spec lib s h).2.1
  | Disconnect deleteConnection => exact Selca_Invariant_Disconnect s deleteConnection h
  | ProcessTcpMsg code => exact Selca_Invariant_ProcessTcpMsg s code h

/-- Every state of a run that starts in a state with the invariant has the invariant. -/
theorem Selca_Invariant_runs (lib : SeLGeCLibrary) (ops : List SelcaOperation) :
    ∀ s : Selca, Selca.Invariant s →
      Selca.Invariant (ops.foldl (fun t op => op.run lib t) s) := by
  induction ops with
  | nil => intro s h; exact h
  | cons op ops ih =>
    intro s h
    exact ih _ (Selca_Invariant_run lib op s h)

/-- The callback writes none of the members of the invariant. -/
theorem Selca_ProcessTcpMsg_frame (s : Selca) (code : Int) :
    (Selca.ProcessTcpMsg s code).m_connected = s.m_connected ∧
    (Selca.ProcessTcpMsg s code).m_cookie = s.m_cookie ∧
    (Selca.ProcessTcpMsg s code).m_ready = s.m_ready ∧
    (Selca.ProcessTcpMsg s code).m_values = s.m_values := by
  unfold Selca.ProcessTcpMsg
  split
  · exact ⟨rfl, rfl, rfl, rfl⟩
  · split
    · unfold Selca.CompareExchange
      simp only []
      split <;> exact ⟨rfl, rfl, rfl, rfl⟩
    · exact ⟨rfl, rfl, rfl, rfl⟩

/-- C28: in every state that a `Selca` object reaches from one of its constructors by a
sequence of `Start`, `Finish`, `GetString`, `CheckConnection`, `Disconnect`, callbacks,
assignments of the address and lapses of time, whatever the library answers, a ready session is connected, a
connected session has a cookie other than 0, and a session that is not connected holds no
value; `GetString` returns no value in a state that is not connected. -/
theorem Selca_reachable_invariant (lib : SeLGeCLibrary) (s : Selca)
    (h : Selca.Reachable lib s) :
    (s.m_ready = true → s.m_connected = true) ∧
    (s.m_connected = true → s.m_cookie ≠ 0) ∧
    (s.m_connected = false → s.m_values = []) ∧
    (s.m_connected = false →
      ∀ parameter value, (Selca.GetString lib s parameter).1 ≠ .ok value) := by
  obtain ⟨useMessages, ops, hs⟩ := h
  have hinv : Selca.Invariant s := by
    rw [hs]
    exact Selca_Invariant_runs lib ops _ (Selca_Invariant_withMessages useMessages)
  obtain ⟨h1, h2⟩ := hinv
  refine ⟨?_, h1, fun hc => (h2 hc).2, ?_⟩
  · intro hr
    cases hc : s.m_connected with
    | true => rfl
    | false =>
      have := (h2 hc).1
      rw [hr] at this
      exact absurd this (by decide)
  · intro hc parameter value
    have hr := (h2 hc).1
    unfold Selca.GetString
    split
    · simp
    · simp [hr]

/-- Witness of C28: after the run `selcaCycleRun`, which connects and reads a value, the
session is connected and its cookie is not 0; after a `Disconnect` more the state is not
connected and holds no value. -/
theorem Selca_reachable_invariant_witness :
    ((selcaCycleRun.foldl
        (fun t op => op.run (messageSeLGeC { sloid := 0, dest := 1, datas := "12" }) t)
        (Selca.withMessages false)).m_values = [("PLC:100:WORD", "12")]) ∧
    ((selcaCycleRun.foldl
        (fun t op => op.run (messageSeLGeC { sloid := 0, dest := 1, datas := "12" }) t)
        (Selca.withMessages false)).m_cookie ≠ 0) ∧
    (((selcaCycleRun ++ [SelcaOperation.Disconnect false]).foldl
        (fun t op => op.run (messageSeLGeC { sloid := 0, dest := 1, datas := "12" }) t)
        (Selca.withMessages false)).m_connected = false) ∧
    (((selcaCycleRun ++ [SelcaOperation.Disconnect false]).foldl
        (fun t op => op.run (messageSeLGeC { sloid := 0, dest := 1, datas := "12" }) t)
        (Selca.withMessages false)).m_values = []) :=
  ⟨by decide,
   (Selca_reachable_invariant (messageSeLGeC { sloid := 0, dest := 1, datas := "12" }) _
      ⟨false, selcaCycleRun, rfl⟩).2.1 (by decide),
   by decide,
   (Selca_reachable_invariant (messageSeLGeC { sloid := 0, dest := 1, datas := "12" }) _
      ⟨false, selcaCycleRun ++ [SelcaOperation.Disconnect false], rfl⟩).2.2.1 (by decide)⟩

end Lemoine.Cnc
